import Mathlib

/-!
# Namespace state management of the OVN-Kubernetes network controller

A shallow embedding of `go-controller/pkg/ovn/base_network_controller_namespace.go`
and of `go-controller/pkg/sbdb/bfd.go`, with a model of the egress firewall match
compiler, of which only the tests are at hand.

Go pointers to `namespaceInfo` are references (`Ref`) into a heap, Go maps are
total functions into `Option`, a Go result pair `(value, error)` is a Lean pair
of two `Option`s (`none` is `nil`), and every lock operation and every call to
an external collaborator is recorded, in program order, in a trace of events.
Collaborators that live outside the embedded file (the JSON decoder, the
address-set factory, the informer cache, the API client, the configure
callback) are parameters of the embedded functions.
-/

namespace OvnKubernetes

/-! ## Data model -/

/-- Modelled from the spec: the `ACLLoggingLevels` struct, declared elsewhere in
package `ovn`; the annotation wire format is a JSON object with the optional
string fields `allow` and `deny`. -/
structure ACLLoggingLevels where
  Allow : String
  Deny : String
deriving DecidableEq, Repr

/-- Modelled from the spec: the `gatewayInfo` struct, declared elsewhere in
package `ovn` (a set of gateway IPs and a BFD flag). -/
structure gatewayInfo where
  gws : List String
  bfdEnabled : Bool
deriving DecidableEq, Repr

/-- The Go type `net.IP`, a byte slice. -/
abbrev IP := List Nat

/-- The struct `namespaceInfo` without its embedded `sync.RWMutex`, whose
operations are recorded as trace events. `AS` is the type of address-set
handles (`addressset.AddressSet`, an interface; `none` is the nil interface). -/
structure namespaceInfo (AS : Type) where
  addressSet : Option AS
  relatedNetworkPolicies : List (String × Bool)
  routingExternalGWs : gatewayInfo
  routingExternalPodGWs : List (String × gatewayInfo)
  multicastEnabled : Bool
  aclLogging : ACLLoggingLevels

/-- The fields of `BaseNetworkController` read by the embedded functions. -/
structure BaseNetworkController where
  controllerName : String
  aclLoggingEnabled : Bool
  multicastSupport : Bool
deriving DecidableEq, Repr

/-! ## ACL logging annotation -/

/-- Modelled from the spec: `nbdb.ACLSeverityAlert`. -/
def ACLSeverityAlert : String := "alert"

/-- Modelled from the spec: `nbdb.ACLSeverityWarning`. -/
def ACLSeverityWarning : String := "warning"

/-- Modelled from the spec: `nbdb.ACLSeverityNotice`. -/
def ACLSeverityNotice : String := "notice"

/-- Modelled from the spec: `nbdb.ACLSeverityInfo`. -/
def ACLSeverityInfo : String := "info"

/-- Modelled from the spec: `nbdb.ACLSeverityDebug`. -/
def ACLSeverityDebug : String := "debug"

/-- The set built by `sets.NewString(...)` in `aclLoggingUpdateNsInfo`: the
preestablished levels and the empty string. -/
def validLogLevels : List String :=
  [ACLSeverityAlert, ACLSeverityWarning, ACLSeverityNotice, ACLSeverityInfo, ACLSeverityDebug, ""]

/-- The call `json.Unmarshal([]byte(annotation), &aclLevels)`: from the text and
the value of `aclLevels` before the call to its value after the call and the
returned error (`none` is `nil`). -/
abbrev JsonUnmarshal := String → ACLLoggingLevels → ACLLoggingLevels × Option String

/-- One condition appended to `errors` in `aclLoggingUpdateNsInfo`; the payload
is the rejected value that the message quotes. -/
inductive FieldError where
  | invalidDeny (value : String)
  | invalidAllow (value : String)
deriving DecidableEq, Repr

/-- The errors `aclLoggingUpdateNsInfo` can return: the `fmt.Errorf` of the
unmarshal branch (annotation and underlying error), or a non-empty aggregate. -/
inductive AclError where
  | unmarshal ( annotation : String) (cause : String)
  | aggregate (errs : List FieldError)
deriving DecidableEq, Repr

/-- The library function `apierrors.NewAggregate`: nil for an empty list. -/
def NewAggregate (errlist : List FieldError) : Option AclError :=
  if errlist.isEmpty then none else some (AclError.aggregate errlist)

/-- The method `aclLoggingUpdateNsInfo`: the first component is `*nsInfo` after
the call, the second the returned error. -/
def aclLoggingUpdateNsInfo {AS : Type} (unmarshal : JsonUnmarshal) (bnc : BaseNetworkController)
    ( annotation : String) (nsInfo : namespaceInfo AS) : namespaceInfo AS × Option AclError :=
  let aclLevels : ACLLoggingLevels := ⟨"", ""⟩
  let errors : List FieldError := []
  let parsed : ACLLoggingLevels × Option String :=
    if bnc.aclLoggingEnabled && annotation != "" && annotation != "\x7b\x7d" then
      unmarshal annotation aclLevels
    else
      (aclLevels, none)
  match parsed.2 with
  | some err =>
    let nsInfo := { nsInfo with aclLogging := { nsInfo.aclLogging with Allow := "" } }
    let nsInfo := { nsInfo with aclLogging := { nsInfo.aclLogging with Deny := "" } }
    (nsInfo, some (AclError.unmarshal annotation err))
  | none =>
    let aclLevels := parsed.1
    let step1 : namespaceInfo AS × List FieldError :=
      if validLogLevels.contains aclLevels.Deny then
        ({ nsInfo with aclLogging := { nsInfo.aclLogging with Deny := aclLevels.Deny } }, errors)
      else
        ({ nsInfo with aclLogging := { nsInfo.aclLogging with Deny := "" } },
          errors ++ [FieldError.invalidDeny aclLevels.Deny])
    let nsInfo := step1.1
    let errors := step1.2
    let step2 : namespaceInfo AS × List FieldError :=
      if validLogLevels.contains aclLevels.Allow then
        ({ nsInfo with aclLogging := { nsInfo.aclLogging with Allow := aclLevels.Allow } }, errors)
      else
        ({ nsInfo with aclLogging := { nsInfo.aclLogging with Allow := "" } },
          errors ++ [FieldError.invalidAllow aclLevels.Allow])
    (step2.1, NewAggregate step2.2)

/-- Two facts about `encoding/json` that the embedded code relies on: the empty
text is rejected, and the empty object decodes without touching the target. -/
def EncodingJsonFacts (unmarshal : JsonUnmarshal) : Prop :=
  (∀ v, (unmarshal "" v).2 ≠ none) ∧ (∀ v, unmarshal "\x7b\x7d" v = (v, none))

/-- A finite table of results of `json.Unmarshal` into an `ACLLoggingLevels`,
used to evaluate the embedded code on concrete annotations. -/
def sampleUnmarshal : JsonUnmarshal := fun text v =>
  if text = "\x7b\x7d" then (v, none)
  else if text = "\x7b\"deny\":\"alert\",\"allow\":\"notice\"\x7d" then (⟨"notice", "alert"⟩, none)
  else if text = "\x7b\"deny\":\"alert\",\"allow\":\"bogus\"\x7d" then (⟨"bogus", "alert"⟩, none)
  else if text = "\x7b\"deny\":\"loud\",\"allow\":\"info\"\x7d" then (⟨"info", "loud"⟩, none)
  else if text = "\x7b\"deny\":\"loud\",\"allow\":\"bogus\"\x7d" then (⟨"bogus", "loud"⟩, none)
  else if text = "\x7b\"deny\":\"alert\"\x7d" then (⟨v.Allow, "alert"⟩, none)
  else if text = "" then (v, some "unexpected end of JSON input")
  else if text = "\x7b\"deny\":\"alert\",\"allow\":5\x7d" then
    (⟨v.Allow, "alert"⟩,
      some "json: cannot unmarshal number into Go struct field ACLLoggingLevels.allow of type string")
  else (v, some "invalid character")

/-- A controller with ACL logging switched on. -/
def sampleController : BaseNetworkController :=
  { controllerName := "default-network-controller", aclLoggingEnabled := true, multicastSupport := true }

/-- A namespace state whose two severities are currently set. -/
def sampleNsInfo : namespaceInfo Nat :=
  { addressSet := some 7, relatedNetworkPolicies := [], routingExternalGWs := ⟨[], false⟩,
    routingExternalPodGWs := [], multicastEnabled := false, aclLogging := ⟨"debug", "warning"⟩ }

/-! ## The namespace table and `ensureNamespaceLockedCommon` -/

/-- Modelled from the spec: `libovsdbops.ObjectIDsType`, declared in package
`libovsdbops`; only the owner kind of namespace address sets is needed. -/
inductive ObjectIDsType where
  | AddressSetNamespace
deriving DecidableEq, Repr

/-- Modelled from the spec: `libovsdbops.ExternalIDKey`, declared in package
`libovsdbops`; only the object-name key is needed. -/
inductive ExternalIDKey where
  | ObjectNameKey
deriving DecidableEq, Repr

/-- Modelled from the spec: `libovsdbops.DbObjectIDs`, the deterministic
object-identity descriptor by which address sets are keyed: owner kind, owning
controller and the external ids. -/
structure DbObjectIDs where
  idsType : ObjectIDsType
  ownerControllerName : String
  objectIDs : List (ExternalIDKey × String)
deriving DecidableEq, Repr

/-- The function `getNamespaceAddrSetDbIDs`. -/
def getNamespaceAddrSetDbIDs (namespaceName controller : String) : DbObjectIDs :=
  { idsType := ObjectIDsType.AddressSetNamespace, ownerControllerName := controller,
    objectIDs := [(ExternalIDKey.ObjectNameKey, namespaceName)] }

/-- The fields of `kapi.Namespace` read by the embedded functions. -/
structure Namespace where
  Name : String
  Annotations : List (String × String)
deriving DecidableEq, Repr

/-- A Go pointer of type `*namespaceInfo`; two pointers are equal exactly when
they are the same reference. -/
abbrev Ref := Nat

/-- The shared mutable state: the map `bnc.namespaces` (`none` is a missing key,
which Go reads as `nil`), the contents behind every `*namespaceInfo`, and the
next unused reference. -/
structure World (AS : Type) where
  namespaces : String → Option Ref
  heap : Ref → namespaceInfo AS
  nextRef : Ref

/-- What the embedded functions do to locks and collaborators, in program order. -/
inductive Event where
  | namespacesMutexLock
  | namespacesMutexUnlock
  | nsInfoLock (r : Ref)
  | nsInfoRLock (r : Ref)
  | nsInfoUnlock (r : Ref)
  | nsInfoRUnlock (r : Ref)
  | ipsGetter (ns : String)
  | NewAddressSet (dbIDs : DbObjectIDs) (ips : List IP)
  | watchFactoryGetNamespace (ns : String)
  | clientNamespacesGet (ns : String)
  | klogWarning
  | configureNamespace (r : Ref) (namespaceObj : Namespace)
deriving DecidableEq, Repr

/-- The closure `unlockFunc`: `func() { nsInfo.RUnlock() }` or
`func() { nsInfo.Unlock() }`, with the captured pointer. -/
inductive UnlockFunc where
  | RUnlock (r : Ref)
  | Unlock (r : Ref)
deriving DecidableEq, Repr

/-- Calling `unlockFunc()`. -/
def UnlockFunc.call : UnlockFunc → Event
  | UnlockFunc.RUnlock r => Event.nsInfoRUnlock r
  | UnlockFunc.Unlock r => Event.nsInfoUnlock r

/-- The collaborators of `ensureNamespaceLockedCommon` that are reached through
`bnc`, each a Go function returning `(value, error)`, and `interference`: what
other goroutines have done to the shared state between the moment this call
releases `namespacesMutex` (line 253) and the moment it holds it again
(line 267). -/
structure Environment (AS : Type) where
  NewAddressSet : DbObjectIDs → List IP → Option AS × Option String
  watchFactoryGetNamespace : String → Option Namespace × Option String
  clientNamespacesGet : String → Option Namespace × Option String
  interference : World AS → World AS

/-- The three results of `ensureNamespaceLockedCommon`, with the shared state
and the trace at return. -/
structure EnsureResult (AS : Type) where
  nsInfo : Option Ref
  unlockFunc : Option UnlockFunc
  err : Option String
  world : World AS
  trace : List Event

/-- The method `createNamespaceAddrSetAllPods`. -/
def createNamespaceAddrSetAllPods {AS : Type} (bnc : BaseNetworkController) (env : Environment AS)
    (ns : String) (ips : List IP) : Option AS × Option String :=
  let dbIDs := getNamespaceAddrSetDbIDs ns bnc.controllerName
  env.NewAddressSet dbIDs ips

/-- Lines 275-286 of `ensureNamespaceLockedCommon`: the value of the variable
`namespace` at line 288 and the events of the lookups. -/
def lookupNamespace {AS : Type} (env : Environment AS) (ns : String) (namespaceObj : Option Namespace) :
    Option Namespace × List Event :=
  match namespaceObj with
  | some n => (some n, [])
  | none =>
    let fromCache := env.watchFactoryGetNamespace ns
    match fromCache.2 with
    | none => (fromCache.1, [Event.watchFactoryGetNamespace ns])
    | some _ =>
      let fromApi := env.clientNamespacesGet ns
      match fromApi.2 with
      | none => (fromApi.1, [Event.watchFactoryGetNamespace ns, Event.clientNamespacesGet ns])
      | some _ =>
        (fromApi.1,
          [Event.watchFactoryGetNamespace ns, Event.clientNamespacesGet ns, Event.klogWarning])

/-- Lines 275-296 of `ensureNamespaceLockedCommon`, which run with `nsInfo`
locked and with a deferred `namespacesMutex.Unlock()` pending in both branches:
look the namespace object up, configure, return. -/
def ensureConfigure {AS : Type} (env : Environment AS) (w : World AS) (trace : List Event)
    (ns : String) (namespaceObj : Option Namespace)
    (configureNamespace : namespaceInfo AS → Namespace → namespaceInfo AS × Option String)
    (nsInfo : Ref) (unlockFunc : UnlockFunc) : EnsureResult AS :=
  let found := lookupNamespace env ns namespaceObj
  let trace := trace ++ found.2
  match found.1 with
  | some namespaceObj =>
    let configured := configureNamespace (w.heap nsInfo) namespaceObj
    let w := { w with heap := Function.update w.heap nsInfo configured.1 }
    let trace := trace ++ [Event.configureNamespace nsInfo namespaceObj]
    match configured.2 with
    | some err =>
      { nsInfo := none, unlockFunc := none,
        err := some ("failed to configure namespace " ++ ns ++ ": " ++ err),
        world := w, trace := trace ++ [unlockFunc.call, Event.namespacesMutexUnlock] }
    | none =>
      { nsInfo := some nsInfo, unlockFunc := some unlockFunc, err := none,
        world := w, trace := trace ++ [Event.namespacesMutexUnlock] }
  | none =>
    { nsInfo := some nsInfo, unlockFunc := some unlockFunc, err := none,
      world := w, trace := trace ++ [Event.namespacesMutexUnlock] }

/-- Lines 256-263 of `ensureNamespaceLockedCommon`: the closure chosen by
`readOnly`. -/
def mkUnlockFunc (readOnly : Bool) (nsInfo : Ref) : UnlockFunc :=
  if readOnly then UnlockFunc.RUnlock nsInfo else UnlockFunc.Unlock nsInfo

/-- Lines 256-263 of `ensureNamespaceLockedCommon`: the lock taken by
`nsInfo.RLock()` or `nsInfo.Lock()`. -/
def lockEvent (readOnly : Bool) (nsInfo : Ref) : Event :=
  if readOnly then Event.nsInfoRLock nsInfo else Event.nsInfoLock nsInfo

/-- The method `ensureNamespaceLockedCommon`, run from the shared state `w`. -/
def ensureNamespaceLockedCommon {AS : Type} (bnc : BaseNetworkController) (env : Environment AS)
    (w : World AS) (ns : String) (readOnly : Bool) (namespaceObj : Option Namespace)
    (ipsGetter : String → List IP)
    (configureNamespace : namespaceInfo AS → Namespace → namespaceInfo AS × Option String) :
    EnsureResult AS :=
  let trace := [Event.namespacesMutexLock]
  match w.namespaces ns with
  | none =>
    let nsInfo := w.nextRef
    let fresh : namespaceInfo AS :=
      { addressSet := none, relatedNetworkPolicies := [], multicastEnabled := false,
        routingExternalPodGWs := [], routingExternalGWs := { gws := [], bfdEnabled := false },
        aclLogging := { Allow := "", Deny := "" } }
    let ips := ipsGetter ns
    let trace := trace ++ [Event.ipsGetter ns]
    let created := createNamespaceAddrSetAllPods bnc env ns ips
    let trace := trace ++ [Event.NewAddressSet (getNamespaceAddrSetDbIDs ns bnc.controllerName) ips]
    let w := { w with heap := Function.update w.heap nsInfo { fresh with addressSet := created.1 },
                      nextRef := nsInfo + 1 }
    match created.2 with
    | some err =>
      { nsInfo := none, unlockFunc := none,
        err := some ("failed to create address set for namespace: " ++ ns ++ ", error: " ++ err),
        world := w, trace := trace ++ [Event.namespacesMutexUnlock] }
    | none =>
      let w := { w with namespaces := Function.update w.namespaces ns (some nsInfo) }
      let unlockFunc := mkUnlockFunc readOnly nsInfo
      let trace := trace ++ [lockEvent readOnly nsInfo]
      ensureConfigure env w trace ns namespaceObj configureNamespace nsInfo unlockFunc
  | some nsInfo =>
    let trace := trace ++ [Event.namespacesMutexUnlock]
    let unlockFunc := mkUnlockFunc readOnly nsInfo
    let trace := trace ++ [lockEvent readOnly nsInfo]
    let w := env.interference w
    let trace := trace ++ [Event.namespacesMutexLock]
    if w.namespaces ns ≠ some nsInfo then
      { nsInfo := none, unlockFunc := none,
        err := some ("namespace " ++ ns ++ ", was removed during ensure"),
        world := w, trace := trace ++ [unlockFunc.call, Event.namespacesMutexUnlock] }
    else
      ensureConfigure env w trace ns namespaceObj configureNamespace nsInfo unlockFunc

/-- The per-namespace lock operations of a trace, in order. -/
def nsInfoLockOps (trace : List Event) : List Event :=
  trace.filter fun e =>
    match e with
    | Event.nsInfoLock _ => true
    | Event.nsInfoRLock _ => true
    | Event.nsInfoUnlock _ => true
    | Event.nsInfoRUnlock _ => true
    | _ => false

/-- The calls of the configure callback in a trace, in order. -/
def configureCalls (trace : List Event) : List Event :=
  trace.filter fun e =>
    match e with
    | Event.configureNamespace _ _ => true
    | _ => false

/-- The calls of the address-set factory in a trace, in order. -/
def newAddressSetCalls (trace : List Event) : List Event :=
  trace.filter fun e =>
    match e with
    | Event.NewAddressSet _ _ => true
    | _ => false

/-! ## Concrete collaborators, used to evaluate the embedded code -/

/-- An address-set handle that records the identity and the members it was
created with. -/
abbrev SampleAddressSet := DbObjectIDs × List IP

/-- A namespace state with every field at its zero value. -/
def zeroNsInfo : namespaceInfo SampleAddressSet :=
  { addressSet := none, relatedNetworkPolicies := [], routingExternalGWs := ⟨[], false⟩,
    routingExternalPodGWs := [], multicastEnabled := false, aclLogging := ⟨"", ""⟩ }

/-- The shared state of a controller that knows no namespace yet. -/
def emptyWorld : World SampleAddressSet :=
  { namespaces := fun _ => none, heap := fun _ => zeroNsInfo, nextRef := 0 }

/-- The shared state of a controller whose table maps `ns1` to reference 0. -/
def oneEntryWorld : World SampleAddressSet :=
  { namespaces := fun name => if name = "ns1" then some 0 else none,
    heap := fun _ => zeroNsInfo, nextRef := 1 }

/-- Collaborators in which the factory always succeeds, no lookup finds the
namespace, a failed lookup returns a nil object, and no other goroutine touches
the shared state. -/
def quietEnvironment : Environment SampleAddressSet :=
  { NewAddressSet := fun dbIDs ips => (some (dbIDs, ips), none),
    watchFactoryGetNamespace := fun ns => (none, some ("namespace \"" ++ ns ++ "\" not found")),
    clientNamespacesGet := fun ns => (none, some ("namespaces \"" ++ ns ++ "\" not found")),
    interference := fun w => w }

/-- As `quietEnvironment`, but another goroutine deletes every entry of the
table while this call waits for the per-namespace lock. -/
def deletingEnvironment : Environment SampleAddressSet :=
  { quietEnvironment with interference := fun w => { w with namespaces := fun _ => none } }

/-- As `quietEnvironment`, but the API client behaves as the generated typed
client does: `Get` allocates the result object before the request and returns
it together with the error. -/
def typedClientEnvironment : Environment SampleAddressSet :=
  { quietEnvironment with
    clientNamespacesGet := fun ns =>
      (some { Name := "", Annotations := [] }, some ("namespaces \"" ++ ns ++ "\" not found")) }

/-- A pod lister that knows one pod, in `ns1`. -/
def sampleIpsGetter : String → List IP :=
  fun ns => if ns = "ns1" then [[10, 128, 0, 5]] else []

/-- A configure callback that switches multicast on, and fails when a store
operation would be needed for a namespace without a name. -/
def sampleConfigure :
    namespaceInfo SampleAddressSet → Namespace → namespaceInfo SampleAddressSet × Option String :=
  fun info n =>
    if n.Name = "" then ({ info with multicastEnabled := true }, some "store operation failed")
    else ({ info with multicastEnabled := true }, none)

/-! ## Lock ordering -/

/-- All lock operations of a trace, table-wide and per-namespace, in order. -/
def lockOps (trace : List Event) : List Event :=
  trace.filter fun e =>
    match e with
    | Event.namespacesMutexLock => true
    | Event.namespacesMutexUnlock => true
    | Event.nsInfoLock _ => true
    | Event.nsInfoRLock _ => true
    | Event.nsInfoUnlock _ => true
    | Event.nsInfoRUnlock _ => true
    | _ => false

/-- One step of the scan for a lock-order inversion. The state is the number
of per-namespace locks held by the call and whether `namespacesMutex.Lock()`
has been called while that number was positive. -/
def lockScan (s : Nat × Bool) (e : Event) : Nat × Bool :=
  match e with
  | Event.namespacesMutexLock => (s.1, s.2 || decide (0 < s.1))
  | Event.nsInfoLock _ => (s.1 + 1, s.2)
  | Event.nsInfoRLock _ => (s.1 + 1, s.2)
  | Event.nsInfoUnlock _ => (s.1 - 1, s.2)
  | Event.nsInfoRUnlock _ => (s.1 - 1, s.2)
  | _ => s

/-- Whether, somewhere in the trace, the table-wide lock is acquired while a
per-namespace lock is held by the same call. -/
def tableLockWhileNsHeld (trace : List Event) : Bool :=
  (trace.foldl lockScan (0, false)).2

/-! ## Multicast and namespace configuration -/

/-- Modelled from the spec: `util.NsMulticastAnnotation`, the fixed annotation
key that enables multicast for a namespace. -/
def NsMulticastAnnotation : String := "k8s.ovn.org/multicast-enabled"

/-- Modelled from the spec: `util.AclLoggingAnnotation`, the annotation key of
the ACL logging JSON object. -/
def AclLoggingAnnotation : String := "k8s.ovn.org/acl-logging"

/-- Modelled from the spec: `isNamespaceMulticastEnabled`, declared elsewhere in
package `ovn`: multicast enablement is the fixed annotation key with value
`"true"`; a missing key reads as the empty string. -/
def isNamespaceMulticastEnabled (annotations : List (String × String)) : Bool :=
  (annotations.lookup NsMulticastAnnotation).getD "" == "true"

/-- The store operations issued while a namespace is configured, in order. -/
inductive StoreOp where
  | createMulticastAllowPolicy (ns : String)
  | deleteMulticastAllowPolicy (ns : String)
  | handleNetPolNamespaceUpdate (ns : String)
deriving DecidableEq, Repr

/-- The methods of `bnc` that write multicast and network-policy state to the
store, declared elsewhere in package `ovn`; each returns an error (`none` is
`nil`). -/
structure PolicyStore (AS : Type) where
  createMulticastAllowPolicy : String → namespaceInfo AS → Option String
  deleteMulticastAllowPolicy : String → Option String
  handleNetPolNamespaceUpdate : String → namespaceInfo AS → Option String

/-- The outcome of a configuration method: `*nsInfo` after the call, the
returned error, and the store operations it issued. -/
structure ConfigureResult (AS : Type) where
  nsInfo : namespaceInfo AS
  err : Option String
  ops : List StoreOp

/-- The method `multicastUpdateNamespace`. -/
def multicastUpdateNamespace {AS : Type} (bnc : BaseNetworkController) (store : PolicyStore AS)
    (ns : Namespace) (nsInfo : namespaceInfo AS) : ConfigureResult AS :=
  if !bnc.multicastSupport then
    { nsInfo := nsInfo, err := none, ops := [] }
  else
    let enabled := isNamespaceMulticastEnabled ns.Annotations
    let enabledOld := nsInfo.multicastEnabled
    if enabledOld == enabled then
      { nsInfo := nsInfo, err := none, ops := [] }
    else
      let nsInfo := { nsInfo with multicastEnabled := enabled }
      let called : Option String × List StoreOp :=
        if enabled then
          (store.createMulticastAllowPolicy ns.Name nsInfo,
            [StoreOp.createMulticastAllowPolicy ns.Name])
        else
          (store.deleteMulticastAllowPolicy ns.Name, [StoreOp.deleteMulticastAllowPolicy ns.Name])
      match called.1 with
      | some err => { nsInfo := nsInfo, err := some err, ops := called.2 }
      | none => { nsInfo := nsInfo, err := none, ops := called.2 }

/-- Lines 300-308 of `configureNamespaceCommon`: the namespace state after the
ACL logging step, whose error is only logged. -/
def configureAclLogging {AS : Type} (unmarshal : JsonUnmarshal) (bnc : BaseNetworkController)
    (nsInfo : namespaceInfo AS) (ns : Namespace) : namespaceInfo AS :=
  match ns.Annotations.lookup AclLoggingAnnotation with
  | some annotation => (aclLoggingUpdateNsInfo unmarshal bnc annotation nsInfo).1
  | none => nsInfo

/-- The method `configureNamespaceCommon`. -/
def configureNamespaceCommon {AS : Type} (unmarshal : JsonUnmarshal) (bnc : BaseNetworkController)
    (store : PolicyStore AS) (nsInfo : namespaceInfo AS) (ns : Namespace) : ConfigureResult AS :=
  let nsInfo := configureAclLogging unmarshal bnc nsInfo ns
  let updated := multicastUpdateNamespace bnc store ns nsInfo
  match updated.err with
  | some err =>
    { nsInfo := updated.nsInfo, err := some ("failed to update multicast (" ++ err ++ ")"),
      ops := updated.ops }
  | none => { nsInfo := updated.nsInfo, err := none, ops := updated.ops }

/-- The method `updateNamespaceAclLogging`. -/
def updateNamespaceAclLogging {AS : Type} (unmarshal : JsonUnmarshal) (bnc : BaseNetworkController)
    (store : PolicyStore AS) (ns aclAnnotation : String) (nsInfo : namespaceInfo AS) :
    ConfigureResult AS :=
  let nsInfo := (aclLoggingUpdateNsInfo unmarshal bnc aclAnnotation nsInfo).1
  match store.handleNetPolNamespaceUpdate ns nsInfo with
  | some err =>
    { nsInfo := nsInfo, err := some err, ops := [StoreOp.handleNetPolNamespaceUpdate ns] }
  | none => { nsInfo := nsInfo, err := none, ops := [StoreOp.handleNetPolNamespaceUpdate ns] }

/-- The method value `bnc.configureNamespaceCommon`, as it is passed to
`ensureNamespaceLockedCommon`. -/
def configureNamespaceCallback {AS : Type} (unmarshal : JsonUnmarshal)
    (bnc : BaseNetworkController) (store : PolicyStore AS) :
    namespaceInfo AS → Namespace → namespaceInfo AS × Option String :=
  fun nsInfo ns =>
    ((configureNamespaceCommon unmarshal bnc store nsInfo ns).nsInfo,
      (configureNamespaceCommon unmarshal bnc store nsInfo ns).err)

/-! ## `syncNamespaces` -/

/-- An element of the `[]interface{}` passed to `syncNamespaces`: a
`*kapi.Namespace`, or an object of another type (with its `%v` rendering). -/
inductive SyncObject where
  | namespaceObject (ns : Namespace)
  | spurious (rendering : String)
deriving DecidableEq, Repr

/-- Modelled from the spec: `DbObjectIDs.GetObjectID`, declared in package
`libovsdbops`: the value stored under an external-id key, empty when absent. -/
def DbObjectIDs.GetObjectID (dbIDs : DbObjectIDs) (key : ExternalIDKey) : String :=
  (dbIDs.objectIDs.lookup key).getD ""

/-- Lines 148-159 of `syncNamespaces`: the keys of `expectedNs` and of
`nsWithMulticast` collected so far, or the error for a spurious object. -/
def collectNamespaces (bnc : BaseNetworkController) :
    List SyncObject → List String × List String → Except String (List String × List String)
  | [], acc => Except.ok acc
  | SyncObject.spurious rendering :: _, _ =>
    Except.error ("spurious object in syncNamespaces: " ++ rendering)
  | SyncObject.namespaceObject ns :: rest, acc =>
    let expectedNs := acc.1 ++ [ns.Name]
    let nsWithMulticast :=
      if bnc.multicastSupport && isNamespaceMulticastEnabled ns.Annotations then
        acc.2 ++ [ns.Name]
      else acc.2
    collectNamespaces bnc rest (expectedNs, nsWithMulticast)

/-- The address sets in the store and the ones destroyed so far. -/
structure AddressSetRows where
  rows : List DbObjectIDs
  destroyed : List DbObjectIDs
deriving DecidableEq, Repr

/-- Modelled from the spec: the store operation `destroyAddressSet(id)` of the
address-set factory, over a store that is the list of existing address sets:
unless the store reports an error, every row with that identity is removed. -/
def DestroyAddressSet (destroyErr : DbObjectIDs → Option String) (s : AddressSetRows)
    (dbIDs : DbObjectIDs) : AddressSetRows × Option String :=
  match destroyErr dbIDs with
  | some err => (s, some err)
  | none => ({ rows := s.rows.filter (fun row => row != dbIDs),
               destroyed := s.destroyed ++ [dbIDs] }, none)

/-- The function literal passed to `ProcessEachAddressSet` at lines 162-171. -/
def syncVisit (destroyErr : DbObjectIDs → Option String) (expectedNs : List String)
    (s : AddressSetRows) (dbIDs : DbObjectIDs) : AddressSetRows × Option String :=
  if !expectedNs.contains (dbIDs.GetObjectID ExternalIDKey.ObjectNameKey) then
    DestroyAddressSet destroyErr s dbIDs
  else
    (s, none)

/-- The loop of `ProcessEachAddressSet` over the address sets it selected: the
visitor is applied to each in turn and the first error stops the loop. -/
def processEach (visit : AddressSetRows → DbObjectIDs → AddressSetRows × Option String) :
    List DbObjectIDs → AddressSetRows → AddressSetRows × Option String
  | [], s => (s, none)
  | dbIDs :: rest, s =>
    match visit s dbIDs with
    | (s, some err) => (s, some err)
    | (s, none) => processEach visit rest s

/-- Modelled from the spec: the store operation `iterateAddressSets(ownerKind,
visit)` of the address-set factory, `ProcessEachAddressSet`: the address sets of
the given controller and owner kind that exist when the call starts are
visited in store order. -/
def ProcessEachAddressSet (s : AddressSetRows) (controllerName : String) (idsType : ObjectIDsType)
    (visit : AddressSetRows → DbObjectIDs → AddressSetRows × Option String) :
    AddressSetRows × Option String :=
  processEach visit
    (s.rows.filter fun row => row.ownerControllerName == controllerName && row.idsType == idsType) s

/-- The result of `syncNamespaces`: the address-set store afterwards, the
address sets destroyed, the argument of `syncNsMulticast` if it was called, and
the returned error. -/
structure SyncResult where
  rows : List DbObjectIDs
  destroyed : List DbObjectIDs
  multicastSynced : Option (List String)
  err : Option String
deriving DecidableEq, Repr

/-- The method `syncNamespaces`, run on the store `rows`; `destroyErr` is the
error of `DestroyAddressSet` and `syncNsMulticast` the error of the method of
that name, declared elsewhere in package `ovn`. -/
def syncNamespaces (bnc : BaseNetworkController) (destroyErr : DbObjectIDs → Option String)
    (syncNsMulticast : List String → Option String) (rows : List DbObjectIDs)
    (namespaces : List SyncObject) : SyncResult :=
  match collectNamespaces bnc namespaces ([], []) with
  | Except.error err => { rows := rows, destroyed := [], multicastSynced := none, err := some err }
  | Except.ok (expectedNs, nsWithMulticast) =>
    let processed :=
      ProcessEachAddressSet { rows := rows, destroyed := [] } bnc.controllerName
        ObjectIDsType.AddressSetNamespace (syncVisit destroyErr expectedNs)
    match processed.2 with
    | some err =>
      { rows := processed.1.rows, destroyed := processed.1.destroyed, multicastSynced := none,
        err := some ("error in syncing namespaces: " ++ err) }
    | none =>
      if bnc.multicastSupport then
        match syncNsMulticast nsWithMulticast with
        | some err =>
          { rows := processed.1.rows, destroyed := processed.1.destroyed,
            multicastSynced := some nsWithMulticast,
            err := some ("error in syncing multicast for namespaces: " ++ err) }
        | none =>
          { rows := processed.1.rows, destroyed := processed.1.destroyed,
            multicastSynced := some nsWithMulticast, err := none }
      else
        { rows := processed.1.rows, destroyed := processed.1.destroyed, multicastSynced := none,
          err := none }

/-- The names of the namespace objects in a list. -/
def namespaceNames (namespaces : List Namespace) : List String :=
  namespaces.map fun ns => ns.Name

/-- Whether an address set belongs to the namespaces of this controller. -/
def isNamespaceAddressSet (bnc : BaseNetworkController) (row : DbObjectIDs) : Bool :=
  row.ownerControllerName == bnc.controllerName && row.idsType == ObjectIDsType.AddressSetNamespace

/-- The address sets that the loop of `ProcessEachAddressSet` destroys when it
visits the given list: the orphans up to the first one whose destruction
fails. -/
def destroyedBy (destroyErr : DbObjectIDs → Option String) (expectedNs : List String) :
    List DbObjectIDs → List DbObjectIDs
  | [] => []
  | dbIDs :: rest =>
    if !expectedNs.contains (dbIDs.GetObjectID ExternalIDKey.ObjectNameKey) then
      match destroyErr dbIDs with
      | some _ => []
      | none => dbIDs :: destroyedBy destroyErr expectedNs rest
    else
      destroyedBy destroyErr expectedNs rest

/-- The names of the namespace objects for which `syncNamespaces` records
multicast as enabled. -/
def multicastNames (bnc : BaseNetworkController) (namespaces : List Namespace) : List String :=
  namespaceNames
    (namespaces.filter fun ns => bnc.multicastSupport && isNamespaceMulticastEnabled ns.Annotations)

/-! ## More concrete collaborators -/

/-- A store in which every operation succeeds. -/
def healthyStore : PolicyStore SampleAddressSet :=
  { createMulticastAllowPolicy := fun _ _ => none,
    deleteMulticastAllowPolicy := fun _ => none,
    handleNetPolNamespaceUpdate := fun _ _ => none }

/-- A store that is unreachable: every operation fails. -/
def failingStore : PolicyStore SampleAddressSet :=
  { createMulticastAllowPolicy := fun _ _ => some "connection refused",
    deleteMulticastAllowPolicy := fun _ => some "connection refused",
    handleNetPolNamespaceUpdate := fun _ _ => some "connection refused" }

/-- The namespace `ns1` with multicast enabled and no ACL logging annotation. -/
def multicastNamespace : Namespace :=
  { Name := "ns1", Annotations := [( NsMulticastAnnotation, "true")] }

/-- The namespace `ns1` with a malformed ACL logging annotation and multicast
enabled. -/
def malformedNamespace : Namespace :=
  { Name := "ns1",
    Annotations := [( AclLoggingAnnotation, "\x7b\"deny\":\"alert\",\"allow\":5\x7d"),
      ( NsMulticastAnnotation, "true")] }

/-- A namespace state with both severities set and multicast off. -/
def loggingNsInfo : namespaceInfo SampleAddressSet :=
  { zeroNsInfo with aclLogging := ⟨"debug", "warning"⟩ }

/-- As `quietEnvironment`, but the address-set factory fails. -/
def failingFactoryEnvironment : Environment SampleAddressSet :=
  { quietEnvironment with NewAddressSet := fun _ _ => (none, some "connection refused") }

/-- The address set of namespace `name` of the sample controller. -/
def sampleRow (name : String) : DbObjectIDs :=
  getNamespaceAddrSetDbIDs name "default-network-controller"

/-! ## The `BFD` row of the southbound database (`sbdb/bfd.go`) -/

/-- A non-nil Go `map[string]string`: finitely many entries with pairwise
distinct keys. -/
abbrev StringMap := AList fun _ : String => String

/-- A Go value of type `map[string]string`; `none` is the nil map. -/
abbrev GoMap := Option StringMap

/-- The Go expression `len(m)`. -/
def GoMap.len (m : GoMap) : Nat :=
  match m with
  | none => 0
  | some m => m.entries.length

/-- The entries visited by `for k, v := range m`. -/
def GoMap.entries (m : GoMap) : List (Sigma fun _ : String => String) :=
  match m with
  | none => []
  | some m => m.entries

/-- The Go expression `w, ok := m[k]`; `none` is `ok == false`. -/
def GoMap.lookup (m : GoMap) (k : String) : Option String :=
  match m with
  | none => none
  | some m => m.lookup k

/-- The struct `BFD`, an object in the BFD table. -/
structure BFD where
  UUID : String
  DetectMult : Int
  Disc : Int
  DstIP : String
  ExternalIDs : GoMap
  LogicalPort : String
  MinRx : Int
  MinTx : Int
  Options : GoMap
  SrcPort : Int
  Status : String

/-- The function `copyBFDExternalIDs`. -/
def copyBFDExternalIDs (a : GoMap) : GoMap :=
  match a with
  | none => none
  | some a => some (a.entries.foldl (fun b e => b.insert e.1 e.2) ∅)

/-- The function `equalBFDExternalIDs`. -/
def equalBFDExternalIDs (a b : GoMap) : Bool :=
  if a.isNone != b.isNone then false
  else if a.len != b.len then false
  else a.entries.all fun e =>
    match b.lookup e.1 with
    | some w => e.2 == w
    | none => false

/-- The function `copyBFDOptions`. -/
def copyBFDOptions (a : GoMap) : GoMap :=
  match a with
  | none => none
  | some a => some (a.entries.foldl (fun b e => b.insert e.1 e.2) ∅)

/-- The function `equalBFDOptions`. -/
def equalBFDOptions (a b : GoMap) : Bool :=
  if a.isNone != b.isNone then false
  else if a.len != b.len then false
  else a.entries.all fun e =>
    match b.lookup e.1 with
    | some w => e.2 == w
    | none => false

/-- The method `DeepCopyInto`, as the value of `*b` after the call. -/
def BFD.DeepCopyInto (a : BFD) : BFD :=
  let b := a
  let b := { b with ExternalIDs := copyBFDExternalIDs a.ExternalIDs }
  { b with Options := copyBFDOptions a.Options }

/-- The method `DeepCopy`. -/
def BFD.DeepCopy (a : BFD) : BFD :=
  a.DeepCopyInto

/-- The method `Equals`. -/
def BFD.Equals (a b : BFD) : Bool :=
  a.UUID == b.UUID &&
    a.DetectMult == b.DetectMult &&
    a.Disc == b.Disc &&
    a.DstIP == b.DstIP &&
    equalBFDExternalIDs a.ExternalIDs b.ExternalIDs &&
    a.LogicalPort == b.LogicalPort &&
    a.MinRx == b.MinRx &&
    a.MinTx == b.MinTx &&
    equalBFDOptions a.Options b.Options &&
    a.SrcPort == b.SrcPort &&
    a.Status == b.Status

/-- A BFD row with two external ids and an empty, non-nil options map. -/
def sampleBFD : BFD :=
  { UUID := "bfd-1", DetectMult := 5, Disc := 7, DstIP := "10.0.0.2",
    ExternalIDs := some ((∅ : StringMap).insert "owner" "gw1" |>.insert "zone" "a"),
    LogicalPort := "lrp-1", MinRx := 1000, MinTx := 1000, Options := some ∅, SrcPort := 49152,
    Status := "up" }

/-- A BFD row with the same scalars, one external id and a nil options map. -/
def otherBFD : BFD :=
  { sampleBFD with ExternalIDs := some ((∅ : StringMap).insert "owner" "gw1"), Options := none }

/-! ## `multicastDeleteNamespace` -/

/-- The method `multicastDeleteNamespace`. -/
def multicastDeleteNamespace {AS : Type} (store : PolicyStore AS) (ns : Namespace)
    (nsInfo : namespaceInfo AS) : ConfigureResult AS :=
  if nsInfo.multicastEnabled then
    let nsInfo := { nsInfo with multicastEnabled := false }
    match store.deleteMulticastAllowPolicy ns.Name with
    | some err =>
      { nsInfo := nsInfo, err := some err, ops := [StoreOp.deleteMulticastAllowPolicy ns.Name] }
    | none =>
      { nsInfo := nsInfo, err := none, ops := [StoreOp.deleteMulticastAllowPolicy ns.Name] }
  else
    { nsInfo := nsInfo, err := none, ops := [] }

/-- The shared state of a controller whose table maps `ns1` to reference 0, a
namespace for which multicast is recorded as enabled. -/
def multicastWorld : World SampleAddressSet :=
  { namespaces := fun name => if name = "ns1" then some 0 else none,
    heap := fun _ => { zeroNsInfo with multicastEnabled := true }, nextRef := 1 }

/-! ## Egress firewall match compiler -/

/-- Modelled from the spec: the type `matchKind` of package `ovn` (only its
constants appear, in the test file): the four tags of a destination fragment. -/
inductive matchKind where
  | matchKindV4CIDR
  | matchKindV6CIDR
  | matchKindV4AddressSet
  | matchKindV6AddressSet
deriving DecidableEq, Repr

/-- Modelled from the spec: the struct `matchTarget` of package `ovn`, a
destination fragment: its tag and its CIDR or address-set reference. -/
structure matchTarget where
  kind : matchKind
  value : String
deriving DecidableEq, Repr

/-- Modelled from the spec: `egressfirewallapi.EgressFirewallPort`, a (protocol,
port) pair; port 0 stands for no port number. -/
structure EgressFirewallPort where
  Protocol : String
  Port : Int
deriving DecidableEq, Repr

/-- Modelled from the spec: an entry of `config.Default.ClusterSubnets`, a
cluster-internal subnet with its address family and its CIDR text. -/
structure CIDRNetworkEntry where
  isIPv6 : Bool
  CIDR : String
deriving DecidableEq, Repr

/-- Modelled from the spec: the runtime dual-stack configuration read by the
match compiler (`config.IPv4Mode`, `config.IPv6Mode`,
`config.Default.ClusterSubnets`, which the test sets before each call). -/
structure MatchConfig where
  IPv4Mode : Bool
  IPv6Mode : Bool
  ClusterSubnets : List CIDRNetworkEntry
deriving DecidableEq, Repr

/-- Modelled from the spec: the expression of one destination fragment of
`generateMatch` in package `ovn`: `ipX.dst == CIDR` for a CIDR fragment,
`ipX.dst == $set` for an address-set fragment, and nothing for an address-set
fragment with an empty reference. -/
def matchTarget.toExpr (m : matchTarget) : Option String :=
  match m.kind with
  | matchKind.matchKindV4CIDR => some ("ip4.dst == " ++ m.value)
  | matchKind.matchKindV6CIDR => some ("ip6.dst == " ++ m.value)
  | matchKind.matchKindV4AddressSet =>
    if m.value = "" then none else some ("ip4.dst == $" ++ m.value)
  | matchKind.matchKindV6AddressSet =>
    if m.value = "" then none else some ("ip6.dst == $" ++ m.value)

/-- Modelled from the spec: the destination clause of `generateMatch` in
package `ovn`: the fragments, OR'ed in declaration order inside one
parenthesized group. -/
def destinationClause (destinations : List matchTarget) : String :=
  "(" ++ " || ".intercalate (destinations.filterMap matchTarget.toExpr) ++ ")"

/-- Modelled from the spec: the source clause of `generateMatch` in package
`ovn`: parenthesized and OR'ed when both stacks are active, the single-stack
clause otherwise. -/
def sourceClause (cfg : MatchConfig) (ipv4Source ipv6Source : String) : String :=
  if cfg.IPv4Mode && cfg.IPv6Mode then
    "(ip4.src == $" ++ ipv4Source ++ " || ip6.src == $" ++ ipv6Source ++ ")"
  else if cfg.IPv4Mode then "ip4.src == $" ++ ipv4Source
  else if cfg.IPv6Mode then "ip6.src == $" ++ ipv6Source
  else ""

/-- Modelled from the spec: the group of one protocol in `egressGetL4Match` of
package `ovn`: nothing when the protocol is absent from the input, `(proto)`
when it is given without a port number (an empty port stands for all ports of
the protocol), and `(proto && ( proto.dst == p1 || proto.dst == p2 ))` with the
ports in input order otherwise. -/
def protocolGroup (protocol name : String) (ports : List EgressFirewallPort) : Option String :=
  let entries := ports.filter fun port => port.Protocol == protocol
  if entries.isEmpty then none
  else if entries.any fun port => port.Port == 0 then some ("(" ++ name ++ ")")
  else
    some ("(" ++ name ++ " && ( " ++
      " || ".intercalate (entries.map fun port => name ++ ".dst == " ++ toString port.Port) ++
      " ))")

/-- Modelled from the spec: the function `egressGetL4Match` of package `ovn`:
the groups of UDP, TCP and SCTP, in this order, OR'ed and wrapped once more. -/
def egressGetL4Match (ports : List EgressFirewallPort) : String :=
  "(" ++ " || ".intercalate
    ([("UDP", "udp"), ("TCP", "tcp"), ("SCTP", "sctp")].filterMap
      fun p => protocolGroup p.1 p.2 ports) ++ ")"

/-- Modelled from the spec: the exclusion of one cluster-internal subnet,
`ipX.dst != subnet` with X selected by the address family of the subnet. -/
def subnetExclusion (subnet : CIDRNetworkEntry) : String :=
  (if subnet.isIPv6 then "ip6" else "ip4") ++ ".dst != " ++ subnet.CIDR

/-- Modelled from the spec: the function `generateMatch` of package `ovn`: the
destination clause and the source clause, to which the L4 clause is appended
when ports are given, and then, for every configured cluster subnet, its
exclusion. -/
def generateMatch (cfg : MatchConfig) (ipv4Source ipv6Source : String)
    (destinations : List matchTarget) (dstPorts : List EgressFirewallPort) : String :=
  let src := sourceClause cfg ipv4Source ipv6Source
  let dst := destinationClause destinations
  let matchStr := dst ++ " && " ++ src
  let matchStr :=
    if dstPorts.isEmpty then matchStr else matchStr ++ " && " ++ egressGetL4Match dstPorts
  cfg.ClusterSubnets.foldl (fun acc subnet => acc ++ " && " ++ subnetExclusion subnet) matchStr

/-- Modelled from the spec: the destination of an egress firewall rule, a
tagged variant: a literal CIDR, or a reference to a computed address set (a DNS
name). -/
inductive destination where
  | cidrSelector (cidr : String)
  | dnsName (name : String)
deriving DecidableEq, Repr

/-- Modelled from the spec: `egressfirewallapi.EgressFirewallRule`, a declared
rule: action (`Type`), destination and optional ports. -/
structure EgressFirewallRule where
  Type_ : String
  To : destination
  Ports : List EgressFirewallPort
deriving DecidableEq, Repr

/-- Modelled from the spec: the struct `egressFirewallRule` of package `ovn`, a
parsed rule: its sequence number, action, destination (`to`) and ports. -/
structure egressFirewallRule where
  id : Int
  access : String
  to_ : destination
  ports : List EgressFirewallPort
deriving DecidableEq, Repr

/-- Modelled from the spec: the function `newEgressFirewallRule` of package
`ovn`: a rule whose CIDR selector does not parse is rejected with the
underlying parse error; `ParseCIDR` is the error of `net.ParseCIDR` (`none` is
`nil`). -/
def newEgressFirewallRule (ParseCIDR : String → Option String)
    (rawEgressFirewallRule : EgressFirewallRule) (id : Int) :
    Option egressFirewallRule × Option String :=
  match rawEgressFirewallRule.To with
  | destination.cidrSelector cidr =>
    match ParseCIDR cidr with
    | some err => (none, some err)
    | none =>
      (some { id := id, access := rawEgressFirewallRule.Type_,
              to_ := destination.cidrSelector cidr, ports := rawEgressFirewallRule.Ports }, none)
  | destination.dnsName name =>
    (some { id := id, access := rawEgressFirewallRule.Type_, to_ := destination.dnsName name,
            ports := rawEgressFirewallRule.Ports }, none)

/-- A finite table of results of `net.ParseCIDR` on the texts of the test
file; the error of a rejected text is `invalid CIDR address: ` followed by the
text. -/
def sampleParseCIDR : String → Option String := fun text =>
  if text = "1.2.3.4/32" then none
  else if text = "2002::1234:abcd:ffff:c0a8:101/64" then none
  else some ("invalid CIDR address: " ++ text)

/-! ## Theorems: ACL logging annotation -/

/-- Membership test of the set of valid levels. -/
theorem contains_validLogLevels (x : String) :
    validLogLevels.contains x = true ↔ x ∈ validLogLevels := by
  simp

/-- The sample decoder respects the two facts about `encoding/json`. -/
theorem sampleUnmarshal_facts : EncodingJsonFacts sampleUnmarshal := by
  constructor
  · intro v
    simp [sampleUnmarshal]
  · intro v
    simp [sampleUnmarshal]

/-- When the parse is skipped, `aclLoggingUpdateNsInfo` stores two empty
severities and returns nil. -/
theorem aclLoggingUpdateNsInfo_skip {AS : Type} (unmarshal : JsonUnmarshal)
    (bnc : BaseNetworkController) ( annotation : String) (nsInfo : namespaceInfo AS)
    (hc : (bnc.aclLoggingEnabled && annotation != "" && annotation != "\x7b\x7d") = false) :
    aclLoggingUpdateNsInfo unmarshal bnc annotation nsInfo =
      ({ nsInfo with aclLogging := ⟨"", ""⟩ }, none) := by
  simp [aclLoggingUpdateNsInfo, hc, validLogLevels, NewAggregate]

/-- When the decoder reports an error, `aclLoggingUpdateNsInfo` stores two empty
severities and returns the wrapped error. -/
theorem aclLoggingUpdateNsInfo_malformed {AS : Type} (unmarshal : JsonUnmarshal)
    (bnc : BaseNetworkController) ( annotation : String) (nsInfo : namespaceInfo AS) (e : String)
    (hc : (bnc.aclLoggingEnabled && annotation != "" && annotation != "\x7b\x7d") = true)
    (herr : (unmarshal annotation ⟨"", ""⟩).2 = some e) :
    aclLoggingUpdateNsInfo unmarshal bnc annotation nsInfo =
      ({ nsInfo with aclLogging := ⟨"", ""⟩ }, some (AclError.unmarshal annotation e)) := by
  simp [aclLoggingUpdateNsInfo, hc, herr]

/-- When the levels `lv` reach the validation step, each field is adopted or
cleared on its own and the conditions are aggregated, deny first. -/
theorem aclLoggingUpdateNsInfo_validate {AS : Type} (unmarshal : JsonUnmarshal)
    (bnc : BaseNetworkController) ( annotation : String) (nsInfo : namespaceInfo AS)
    (lv : ACLLoggingLevels)
    (hlv : (if (bnc.aclLoggingEnabled && annotation != "" && annotation != "\x7b\x7d") = true then
        unmarshal annotation ⟨"", ""⟩ else (⟨"", ""⟩, none)) = (lv, none)) :
    aclLoggingUpdateNsInfo unmarshal bnc annotation nsInfo =
      ({ nsInfo with aclLogging :=
          ⟨if lv.Allow ∈ validLogLevels then lv.Allow else "",
           if lv.Deny ∈ validLogLevels then lv.Deny else ""⟩ },
        NewAggregate ((if lv.Deny ∈ validLogLevels then [] else [FieldError.invalidDeny lv.Deny]) ++
          (if lv.Allow ∈ validLogLevels then [] else [FieldError.invalidAllow lv.Allow]))) := by
  unfold aclLoggingUpdateNsInfo
  simp only [hlv]
  by_cases hd : lv.Deny ∈ validLogLevels <;> by_cases ha : lv.Allow ∈ validLogLevels <;>
    simp [hd, ha]

/-- C1: for every annotation and every prior namespace state, if ACL logging is
globally disabled, or the annotation is the empty string or the empty object,
`aclLoggingUpdateNsInfo` leaves both `Allow` and `Deny` empty and returns no
error. -/
theorem aclLoggingUpdateNsInfo_disabled_or_empty {AS : Type} (unmarshal : JsonUnmarshal)
    (bnc : BaseNetworkController) ( annotation : String) (nsInfo : namespaceInfo AS)
    (h : bnc.aclLoggingEnabled = false ∨ annotation = "" ∨ annotation = "\x7b\x7d") :
    (aclLoggingUpdateNsInfo unmarshal bnc annotation nsInfo).1.aclLogging.Allow = "" ∧
    (aclLoggingUpdateNsInfo unmarshal bnc annotation nsInfo).1.aclLogging.Deny = "" ∧
    (aclLoggingUpdateNsInfo unmarshal bnc annotation nsInfo).2 = none := by
  have hc : (bnc.aclLoggingEnabled && annotation != "" && annotation != "\x7b\x7d") = false := by
    rcases h with h | h | h <;> simp [h]
  rw [aclLoggingUpdateNsInfo_skip unmarshal bnc annotation nsInfo hc]
  exact ⟨rfl, rfl, rfl⟩

/-- An instance of the previous theorem: the empty object resets a state whose
severities were set. -/
theorem aclLoggingUpdateNsInfo_disabled_or_empty_witness :
    (sampleController.aclLoggingEnabled = false ∨ "\x7b\x7d" = "" ∨ "\x7b\x7d" = "\x7b\x7d") ∧
    (aclLoggingUpdateNsInfo sampleUnmarshal sampleController "\x7b\x7d" sampleNsInfo).1.aclLogging.Allow = "" ∧
    (aclLoggingUpdateNsInfo sampleUnmarshal sampleController "\x7b\x7d" sampleNsInfo).1.aclLogging.Deny = "" ∧
    (aclLoggingUpdateNsInfo sampleUnmarshal sampleController "\x7b\x7d" sampleNsInfo).2 = none :=
  ⟨Or.inr (Or.inr rfl),
    aclLoggingUpdateNsInfo_disabled_or_empty sampleUnmarshal sampleController "\x7b\x7d" sampleNsInfo
      (Or.inr (Or.inr rfl))⟩

/-- C2: when ACL logging is enabled, the annotation is neither empty nor the
empty object, and the decoder rejects it, `aclLoggingUpdateNsInfo` leaves both
`Allow` and `Deny` empty, whatever they were before, and returns a non-nil
error, the one that wraps the annotation and the decoder's error. -/
theorem aclLoggingUpdateNsInfo_unparsable {AS : Type} (unmarshal : JsonUnmarshal)
    (bnc : BaseNetworkController) ( annotation : String) (nsInfo : namespaceInfo AS) (e : String)
    (hen : bnc.aclLoggingEnabled = true) (h1 : annotation ≠ "") (h2 : annotation ≠ "\x7b\x7d")
    (herr : (unmarshal annotation ⟨"", ""⟩).2 = some e) :
    (aclLoggingUpdateNsInfo unmarshal bnc annotation nsInfo).1.aclLogging.Allow = "" ∧
    (aclLoggingUpdateNsInfo unmarshal bnc annotation nsInfo).1.aclLogging.Deny = "" ∧
    (aclLoggingUpdateNsInfo unmarshal bnc annotation nsInfo).2 ≠ none ∧
    (aclLoggingUpdateNsInfo unmarshal bnc annotation nsInfo).2 =
      some (AclError.unmarshal annotation e) := by
  have hc : (bnc.aclLoggingEnabled && annotation != "" && annotation != "\x7b\x7d") = true := by
    simp [hen, h1, h2]
  rw [aclLoggingUpdateNsInfo_malformed unmarshal bnc annotation nsInfo e hc herr]
  exact ⟨rfl, rfl, by simp, rfl⟩

/-- An instance of the previous theorem: a number where a string is expected. -/
theorem aclLoggingUpdateNsInfo_unparsable_witness :
    sampleNsInfo.aclLogging = ⟨"debug", "warning"⟩ ∧
    (aclLoggingUpdateNsInfo sampleUnmarshal sampleController
      "\x7b\"deny\":\"alert\",\"allow\":5\x7d" sampleNsInfo).1.aclLogging.Allow = "" ∧
    (aclLoggingUpdateNsInfo sampleUnmarshal sampleController
      "\x7b\"deny\":\"alert\",\"allow\":5\x7d" sampleNsInfo).1.aclLogging.Deny = "" ∧
    (aclLoggingUpdateNsInfo sampleUnmarshal sampleController
      "\x7b\"deny\":\"alert\",\"allow\":5\x7d" sampleNsInfo).2 ≠ none ∧
    (aclLoggingUpdateNsInfo sampleUnmarshal sampleController
      "\x7b\"deny\":\"alert\",\"allow\":5\x7d" sampleNsInfo).2 =
      some (AclError.unmarshal "\x7b\"deny\":\"alert\",\"allow\":5\x7d"
        "json: cannot unmarshal number into Go struct field ACLLoggingLevels.allow of type string") :=
  ⟨rfl,
    aclLoggingUpdateNsInfo_unparsable sampleUnmarshal sampleController
      "\x7b\"deny\":\"alert\",\"allow\":5\x7d" sampleNsInfo
      "json: cannot unmarshal number into Go struct field ACLLoggingLevels.allow of type string"
      rfl (by decide) (by decide) (by decide)⟩

/-- The levels that reach the validation step when logging is enabled and the
decoder accepts the annotation with the values `lv`. -/
theorem parsed_levels (unmarshal : JsonUnmarshal) (bnc : BaseNetworkController)
    ( annotation : String) (lv : ACLLoggingLevels)
    (hfacts : EncodingJsonFacts unmarshal) (hen : bnc.aclLoggingEnabled = true)
    (hparse : unmarshal annotation ⟨"", ""⟩ = (lv, none)) :
    (if (bnc.aclLoggingEnabled && annotation != "" && annotation != "\x7b\x7d") = true then
        unmarshal annotation ⟨"", ""⟩ else (⟨"", ""⟩, none)) = (lv, none) := by
  by_cases h1 : annotation = ""
  · exfalso
    rw [h1] at hparse
    have hz := hfacts.1 ⟨"", ""⟩
    rw [hparse] at hz
    exact hz rfl
  · by_cases h2 : annotation = "\x7b\x7d"
    · rw [h2] at hparse
      have hz := hfacts.2 ⟨"", ""⟩
      rw [hparse] at hz
      simp [h2, hz]
    · simp [hen, h1, h2, hparse]

/-- C3: when logging is enabled and the decoder accepts the annotation with the
values allow = `A` and deny = `D`, the resulting `Deny` is `D` if `D` is a valid
level and empty otherwise, and the resulting `Allow` is `A` if `A` is a valid
level and empty otherwise: neither field depends on the other. -/
theorem aclLoggingUpdateNsInfo_fields_independent {AS : Type} (unmarshal : JsonUnmarshal)
    (bnc : BaseNetworkController) ( annotation : String) (nsInfo : namespaceInfo AS)
    (A D : String) (hfacts : EncodingJsonFacts unmarshal) (hen : bnc.aclLoggingEnabled = true)
    (hparse : unmarshal annotation ⟨"", ""⟩ = (⟨A, D⟩, none)) :
    validLogLevels = ["alert", "warning", "notice", "info", "debug", ""] ∧
    (aclLoggingUpdateNsInfo unmarshal bnc annotation nsInfo).1.aclLogging.Deny =
      (if D ∈ validLogLevels then D else "") ∧
    (aclLoggingUpdateNsInfo unmarshal bnc annotation nsInfo).1.aclLogging.Allow =
      (if A ∈ validLogLevels then A else "") := by
  rw [aclLoggingUpdateNsInfo_validate unmarshal bnc annotation nsInfo ⟨A, D⟩
    (parsed_levels unmarshal bnc annotation ⟨A, D⟩ hfacts hen hparse)]
  exact ⟨rfl, rfl, rfl⟩

/-- An instance of the previous theorem: an invalid allow value next to a valid
deny value. -/
theorem aclLoggingUpdateNsInfo_fields_independent_witness :
    EncodingJsonFacts sampleUnmarshal ∧
    (aclLoggingUpdateNsInfo sampleUnmarshal sampleController
      "\x7b\"deny\":\"alert\",\"allow\":\"bogus\"\x7d" sampleNsInfo).1.aclLogging.Deny = "alert" ∧
    (aclLoggingUpdateNsInfo sampleUnmarshal sampleController
      "\x7b\"deny\":\"alert\",\"allow\":\"bogus\"\x7d" sampleNsInfo).1.aclLogging.Allow = "" := by
  have h := aclLoggingUpdateNsInfo_fields_independent sampleUnmarshal sampleController
    "\x7b\"deny\":\"alert\",\"allow\":\"bogus\"\x7d" sampleNsInfo "bogus" "alert"
    sampleUnmarshal_facts rfl (by decide)
  refine ⟨sampleUnmarshal_facts, ?_, ?_⟩
  · rw [h.2.1]; decide
  · rw [h.2.2]; decide

/-- C4: for every annotation, every value of the logging flag, every decoder
and every prior state, after `aclLoggingUpdateNsInfo` each of `Allow` and
`Deny` is one of alert, warning, notice, info, debug or the empty string. -/
theorem aclLoggingUpdateNsInfo_severity_invariant {AS : Type} (unmarshal : JsonUnmarshal)
    (bnc : BaseNetworkController) ( annotation : String) (nsInfo : namespaceInfo AS) :
    (aclLoggingUpdateNsInfo unmarshal bnc annotation nsInfo).1.aclLogging.Allow ∈
      ["alert", "warning", "notice", "info", "debug", ""] ∧
    (aclLoggingUpdateNsInfo unmarshal bnc annotation nsInfo).1.aclLogging.Deny ∈
      ["alert", "warning", "notice", "info", "debug", ""] := by
  have hv : validLogLevels = ["alert", "warning", "notice", "info", "debug", ""] := rfl
  rcases hp : (if (bnc.aclLoggingEnabled && annotation != "" && annotation != "\x7b\x7d") = true then
        unmarshal annotation ⟨"", ""⟩ else (⟨"", ""⟩, none)) with ⟨lv, err⟩
  cases err with
  | some e =>
    have hc : (bnc.aclLoggingEnabled && annotation != "" && annotation != "\x7b\x7d") = true := by
      by_contra hn
      simp only [hn] at hp
      simp at hp
    simp only [hc, if_true] at hp
    rw [aclLoggingUpdateNsInfo_malformed unmarshal bnc annotation nsInfo e hc (by rw [hp])]
    simp
  | none =>
    rw [aclLoggingUpdateNsInfo_validate unmarshal bnc annotation nsInfo lv hp]
    rw [← hv]
    constructor
    · show (if lv.Allow ∈ validLogLevels then lv.Allow else "") ∈ validLogLevels
      split
      · assumption
      · simp [validLogLevels]
    · show (if lv.Deny ∈ validLogLevels then lv.Deny else "") ∈ validLogLevels
      split
      · assumption
      · simp [validLogLevels]

/-- The severities stored by `aclLoggingUpdateNsInfo` and the error it returns
do not depend on the prior state. -/
theorem aclLoggingUpdateNsInfo_state_independent {AS : Type} (unmarshal : JsonUnmarshal)
    (bnc : BaseNetworkController) ( annotation : String) (s1 s2 : namespaceInfo AS) :
    (aclLoggingUpdateNsInfo unmarshal bnc annotation s1).1.aclLogging =
      (aclLoggingUpdateNsInfo unmarshal bnc annotation s2).1.aclLogging ∧
    (aclLoggingUpdateNsInfo unmarshal bnc annotation s1).2 =
      (aclLoggingUpdateNsInfo unmarshal bnc annotation s2).2 := by
  rcases hp : (if (bnc.aclLoggingEnabled && annotation != "" && annotation != "\x7b\x7d") = true then
        unmarshal annotation ⟨"", ""⟩ else (⟨"", ""⟩, none)) with ⟨lv, err⟩
  cases err with
  | some e =>
    have hc : (bnc.aclLoggingEnabled && annotation != "" && annotation != "\x7b\x7d") = true := by
      by_contra hn
      simp only [hn] at hp
      simp at hp
    simp only [hc, if_true] at hp
    rw [aclLoggingUpdateNsInfo_malformed unmarshal bnc annotation s1 e hc (by rw [hp]),
      aclLoggingUpdateNsInfo_malformed unmarshal bnc annotation s2 e hc (by rw [hp])]
    exact ⟨rfl, rfl⟩
  | none =>
    rw [aclLoggingUpdateNsInfo_validate unmarshal bnc annotation s1 lv hp,
      aclLoggingUpdateNsInfo_validate unmarshal bnc annotation s2 lv hp]
    exact ⟨rfl, rfl⟩

/-- C5: for every annotation, flag, decoder and any two prior states `s1` and
`s2`, the severities after one call of `aclLoggingUpdateNsInfo` from `s1` equal
those after one call from `s2` and those after two consecutive calls from `s1`,
and the second of two consecutive calls returns the same error as the first;
this covers the calls that return an error. -/
theorem aclLoggingUpdateNsInfo_idempotent {AS : Type} (unmarshal : JsonUnmarshal)
    (bnc : BaseNetworkController) ( annotation : String) (s1 s2 : namespaceInfo AS) :
    (aclLoggingUpdateNsInfo unmarshal bnc annotation s1).1.aclLogging =
      (aclLoggingUpdateNsInfo unmarshal bnc annotation s2).1.aclLogging ∧
    (aclLoggingUpdateNsInfo unmarshal bnc annotation
        (aclLoggingUpdateNsInfo unmarshal bnc annotation s1).1).1.aclLogging =
      (aclLoggingUpdateNsInfo unmarshal bnc annotation s1).1.aclLogging ∧
    (aclLoggingUpdateNsInfo unmarshal bnc annotation
        (aclLoggingUpdateNsInfo unmarshal bnc annotation s1).1).2 =
      (aclLoggingUpdateNsInfo unmarshal bnc annotation s1).2 :=
  ⟨(aclLoggingUpdateNsInfo_state_independent unmarshal bnc annotation s1 s2).1,
    (aclLoggingUpdateNsInfo_state_independent unmarshal bnc annotation _ s1).1,
    (aclLoggingUpdateNsInfo_state_independent unmarshal bnc annotation _ s1).2⟩

/-- C6: when logging is enabled and the decoder accepts the annotation with the
values allow = `A` and deny = `D`, the returned error is the aggregate of one
condition per invalid field, deny first: nil exactly when both values are valid,
one condition when exactly one is invalid, two when both are. -/
theorem aclLoggingUpdateNsInfo_error_aggregate {AS : Type} (unmarshal : JsonUnmarshal)
    (bnc : BaseNetworkController) ( annotation : String) (nsInfo : namespaceInfo AS)
    (A D : String) (hfacts : EncodingJsonFacts unmarshal) (hen : bnc.aclLoggingEnabled = true)
    (hparse : unmarshal annotation ⟨"", ""⟩ = (⟨A, D⟩, none)) :
    ((aclLoggingUpdateNsInfo unmarshal bnc annotation nsInfo).2 = none ↔
      (D ∈ validLogLevels ∧ A ∈ validLogLevels)) ∧
    (D ∉ validLogLevels → A ∈ validLogLevels →
      (aclLoggingUpdateNsInfo unmarshal bnc annotation nsInfo).2 =
        some (AclError.aggregate [FieldError.invalidDeny D])) ∧
    (D ∈ validLogLevels → A ∉ validLogLevels →
      (aclLoggingUpdateNsInfo unmarshal bnc annotation nsInfo).2 =
        some (AclError.aggregate [FieldError.invalidAllow A])) ∧
    (D ∉ validLogLevels → A ∉ validLogLevels →
      (aclLoggingUpdateNsInfo unmarshal bnc annotation nsInfo).2 =
        some (AclError.aggregate [FieldError.invalidDeny D, FieldError.invalidAllow A])) := by
  rw [aclLoggingUpdateNsInfo_validate unmarshal bnc annotation nsInfo ⟨A, D⟩
    (parsed_levels unmarshal bnc annotation ⟨A, D⟩ hfacts hen hparse)]
  by_cases hd : D ∈ validLogLevels <;> by_cases ha : A ∈ validLogLevels <;>
    simp [hd, ha, NewAggregate]

/-- An instance of the previous theorem: both values invalid. -/
theorem aclLoggingUpdateNsInfo_error_aggregate_witness :
    EncodingJsonFacts sampleUnmarshal ∧
    (aclLoggingUpdateNsInfo sampleUnmarshal sampleController
      "\x7b\"deny\":\"loud\",\"allow\":\"bogus\"\x7d" sampleNsInfo).2 =
        some (AclError.aggregate [FieldError.invalidDeny "loud", FieldError.invalidAllow "bogus"]) :=
  ⟨sampleUnmarshal_facts,
    (aclLoggingUpdateNsInfo_error_aggregate sampleUnmarshal sampleController
      "\x7b\"deny\":\"loud\",\"allow\":\"bogus\"\x7d" sampleNsInfo "bogus" "loud"
      sampleUnmarshal_facts rfl (by decide)).2.2.2 (by decide) (by decide)⟩

/-! ## Theorems: `ensureNamespaceLockedCommon` -/

/-- Filtering the lock operations distributes over concatenation. -/
theorem nsInfoLockOps_append (a b : List Event) :
    nsInfoLockOps (a ++ b) = nsInfoLockOps a ++ nsInfoLockOps b := by
  simp [nsInfoLockOps]

/-- Filtering the factory calls distributes over concatenation. -/
theorem newAddressSetCalls_append (a b : List Event) :
    newAddressSetCalls (a ++ b) = newAddressSetCalls a ++ newAddressSetCalls b := by
  simp [newAddressSetCalls]

/-- The lookups of lines 275-286 touch no per-namespace lock. -/
theorem lookupNamespace_nsInfoLockOps {AS : Type} (env : Environment AS) (ns : String)
    (namespaceObj : Option Namespace) :
    nsInfoLockOps (lookupNamespace env ns namespaceObj).2 = [] := by
  unfold lookupNamespace
  split
  · rfl
  · dsimp only
    split
    · rfl
    · split <;> rfl

/-- The lookups of lines 275-286 do not call the address-set factory. -/
theorem lookupNamespace_newAddressSetCalls {AS : Type} (env : Environment AS) (ns : String)
    (namespaceObj : Option Namespace) :
    newAddressSetCalls (lookupNamespace env ns namespaceObj).2 = [] := by
  unfold lookupNamespace
  split
  · rfl
  · dsimp only
    split
    · rfl
    · split <;> rfl

/-- The table is not written by lines 275-296. -/
theorem ensureConfigure_namespaces {AS : Type} (env : Environment AS) (w : World AS)
    (trace : List Event) (ns : String) (namespaceObj : Option Namespace)
    (configureNamespace : namespaceInfo AS → Namespace → namespaceInfo AS × Option String)
    (r : Ref) (u : UnlockFunc) :
    (ensureConfigure env w trace ns namespaceObj configureNamespace r u).world.namespaces =
      w.namespaces := by
  unfold ensureConfigure
  dsimp only
  split
  · split <;> rfl
  · rfl

/-- The contents of the locked entry after lines 275-296. -/
theorem ensureConfigure_heap {AS : Type} (env : Environment AS) (w : World AS)
    (trace : List Event) (ns : String) (namespaceObj : Option Namespace)
    (configureNamespace : namespaceInfo AS → Namespace → namespaceInfo AS × Option String)
    (r : Ref) (u : UnlockFunc) :
    (ensureConfigure env w trace ns namespaceObj configureNamespace r u).world.heap r =
      match (lookupNamespace env ns namespaceObj).1 with
      | none => w.heap r
      | some n => (configureNamespace (w.heap r) n).1 := by
  unfold ensureConfigure
  rcases h : (lookupNamespace env ns namespaceObj).1 with _ | n
  · simp only [h]
  · simp only [h]
    split <;> simp

/-- The address-set factory is not called by lines 275-296. -/
theorem ensureConfigure_newAddressSetCalls {AS : Type} (env : Environment AS) (w : World AS)
    (trace : List Event) (ns : String) (namespaceObj : Option Namespace)
    (configureNamespace : namespaceInfo AS → Namespace → namespaceInfo AS × Option String)
    (readOnly : Bool) (r : Ref) :
    newAddressSetCalls (ensureConfigure env w trace ns namespaceObj configureNamespace r
      (mkUnlockFunc readOnly r)).trace = newAddressSetCalls trace := by
  unfold ensureConfigure
  dsimp only
  split
  · split <;>
      simp only [newAddressSetCalls_append, lookupNamespace_newAddressSetCalls, List.append_nil] <;>
      cases readOnly <;> simp [newAddressSetCalls, mkUnlockFunc, UnlockFunc.call]
  · simp only [newAddressSetCalls_append, lookupNamespace_newAddressSetCalls, List.append_nil]
    simp [newAddressSetCalls]

/-- When no namespace object is at hand at line 288, lines 275-296 return the
locked entry untouched. -/
theorem ensureConfigure_none {AS : Type} (env : Environment AS) (w : World AS)
    (trace : List Event) (ns : String) (namespaceObj : Option Namespace)
    (configureNamespace : namespaceInfo AS → Namespace → namespaceInfo AS × Option String)
    (r : Ref) (u : UnlockFunc) (h : (lookupNamespace env ns namespaceObj).1 = none) :
    ensureConfigure env w trace ns namespaceObj configureNamespace r u =
      { nsInfo := some r, unlockFunc := some u, err := none, world := w,
        trace := trace ++ (lookupNamespace env ns namespaceObj).2 ++
          [Event.namespacesMutexUnlock] } := by
  unfold ensureConfigure
  simp only [h]

/-- What the create branch does: when the table has no entry for the name and
the address-set factory returns no error, `ensureNamespaceLockedCommon` inserts
a fresh reference under that name and leaves every other key alone; the factory
is called once, with the namespace's identity and exactly the IPs of
`ipsGetter`; the new entry holds the factory's handle, an empty
`relatedNetworkPolicies` set and `multicastEnabled = false` before configure
runs on it; and if the variable `namespace` is nil at line 288 the call returns
this entry, untouched, without error. -/
theorem ensureNamespaceLockedCommon_creates {AS : Type} (bnc : BaseNetworkController)
    (env : Environment AS) (w : World AS) (ns : String) (readOnly : Bool)
    (namespaceObj : Option Namespace) (ipsGetter : String → List IP)
    (configureNamespace : namespaceInfo AS → Namespace → namespaceInfo AS × Option String)
    (hnew : w.namespaces ns = none)
    (hcreate : (env.NewAddressSet (getNamespaceAddrSetDbIDs ns bnc.controllerName)
      (ipsGetter ns)).2 = none) :
    (ensureNamespaceLockedCommon bnc env w ns readOnly namespaceObj ipsGetter
      configureNamespace).world.namespaces = Function.update w.namespaces ns (some w.nextRef) ∧
    newAddressSetCalls (ensureNamespaceLockedCommon bnc env w ns readOnly namespaceObj ipsGetter
      configureNamespace).trace =
      [Event.NewAddressSet (getNamespaceAddrSetDbIDs ns bnc.controllerName) (ipsGetter ns)] ∧
    (ensureNamespaceLockedCommon bnc env w ns readOnly namespaceObj ipsGetter
      configureNamespace).world.heap w.nextRef =
      (match (lookupNamespace env ns namespaceObj).1 with
       | none =>
         { addressSet := (env.NewAddressSet (getNamespaceAddrSetDbIDs ns bnc.controllerName)
             (ipsGetter ns)).1,
           relatedNetworkPolicies := [], routingExternalGWs := ⟨[], false⟩,
           routingExternalPodGWs := [], multicastEnabled := false, aclLogging := ⟨"", ""⟩ }
       | some n =>
         (configureNamespace
           { addressSet := (env.NewAddressSet (getNamespaceAddrSetDbIDs ns bnc.controllerName)
               (ipsGetter ns)).1,
             relatedNetworkPolicies := [], routingExternalGWs := ⟨[], false⟩,
             routingExternalPodGWs := [], multicastEnabled := false, aclLogging := ⟨"", ""⟩ } n).1) ∧
    ((lookupNamespace env ns namespaceObj).1 = none →
      (ensureNamespaceLockedCommon bnc env w ns readOnly namespaceObj ipsGetter
        configureNamespace).nsInfo = some w.nextRef ∧
      (ensureNamespaceLockedCommon bnc env w ns readOnly namespaceObj ipsGetter
        configureNamespace).err = none) := by
  unfold ensureNamespaceLockedCommon
  simp only [hnew, createNamespaceAddrSetAllPods, hcreate]
  refine ⟨?_, ?_, ?_, ?_⟩
  · rw [ensureConfigure_namespaces]
  · rw [ensureConfigure_newAddressSetCalls]
    cases readOnly <;> simp [newAddressSetCalls, lockEvent]
  · rw [ensureConfigure_heap]
    simp
  · intro h
    rw [ensureConfigure_none _ _ _ _ _ _ _ _ h]
    exact ⟨rfl, rfl⟩

/-- An instance of the previous theorem: the first ensure of `ns1` on an empty
table, with no namespace object to be found. -/
theorem ensureNamespaceLockedCommon_creates_witness :
    emptyWorld.namespaces "ns1" = none ∧
    (ensureNamespaceLockedCommon sampleController quietEnvironment emptyWorld "ns1" false none
      sampleIpsGetter sampleConfigure).world.namespaces "ns1" = some 0 ∧
    (ensureNamespaceLockedCommon sampleController quietEnvironment emptyWorld "ns1" false none
      sampleIpsGetter sampleConfigure).nsInfo = some 0 ∧
    ((ensureNamespaceLockedCommon sampleController quietEnvironment emptyWorld "ns1" false none
      sampleIpsGetter sampleConfigure).world.heap 0).addressSet =
      some (getNamespaceAddrSetDbIDs "ns1" "default-network-controller", [[10, 128, 0, 5]]) := by
  have h := ensureNamespaceLockedCommon_creates sampleController quietEnvironment emptyWorld "ns1"
    false none sampleIpsGetter sampleConfigure rfl rfl
  refine ⟨rfl, ?_, (h.2.2.2 rfl).1, ?_⟩
  · rw [h.1]
    exact Function.update_same _ _ _
  · exact (congrArg namespaceInfo.addressSet h.2.2.1).trans rfl

/-- The two ways in which lines 275-296 end: success with the entry still
locked, or a configure failure after which the lock has been dropped. -/
theorem ensureConfigure_outcome {AS : Type} (env : Environment AS) (w : World AS)
    (trace : List Event) (ns : String) (namespaceObj : Option Namespace)
    (configureNamespace : namespaceInfo AS → Namespace → namespaceInfo AS × Option String)
    (readOnly : Bool) (r : Ref) :
    ((ensureConfigure env w trace ns namespaceObj configureNamespace r
        (mkUnlockFunc readOnly r)).err = none ∧
      (ensureConfigure env w trace ns namespaceObj configureNamespace r
        (mkUnlockFunc readOnly r)).nsInfo = some r ∧
      (ensureConfigure env w trace ns namespaceObj configureNamespace r
        (mkUnlockFunc readOnly r)).unlockFunc = some (mkUnlockFunc readOnly r) ∧
      nsInfoLockOps (ensureConfigure env w trace ns namespaceObj configureNamespace r
        (mkUnlockFunc readOnly r)).trace = nsInfoLockOps trace) ∨
    (∃ n e, (lookupNamespace env ns namespaceObj).1 = some n ∧
      (configureNamespace (w.heap r) n).2 = some e ∧
      (ensureConfigure env w trace ns namespaceObj configureNamespace r
        (mkUnlockFunc readOnly r)).err = some ("failed to configure namespace " ++ ns ++ ": " ++ e) ∧
      (ensureConfigure env w trace ns namespaceObj configureNamespace r
        (mkUnlockFunc readOnly r)).nsInfo = none ∧
      (ensureConfigure env w trace ns namespaceObj configureNamespace r
        (mkUnlockFunc readOnly r)).unlockFunc = none ∧
      nsInfoLockOps (ensureConfigure env w trace ns namespaceObj configureNamespace r
        (mkUnlockFunc readOnly r)).trace =
        nsInfoLockOps trace ++ [(mkUnlockFunc readOnly r).call]) := by
  unfold ensureConfigure
  rcases h : (lookupNamespace env ns namespaceObj).1 with _ | n
  · left
    simp only [h, nsInfoLockOps_append, lookupNamespace_nsInfoLockOps, List.append_nil]
    simp [nsInfoLockOps]
  · rcases hc : (configureNamespace (w.heap r) n).2 with _ | e
    · left
      simp only [h, hc, nsInfoLockOps_append, lookupNamespace_nsInfoLockOps, List.append_nil]
      simp [nsInfoLockOps]
    · right
      refine ⟨n, e, rfl, hc, ?_⟩
      simp only [h, hc, nsInfoLockOps_append, lookupNamespace_nsInfoLockOps, List.append_nil]
      cases readOnly <;> simp [nsInfoLockOps, mkUnlockFunc, UnlockFunc.call]

/-- C8: if an entry `r` existed for the name when `ensureNamespaceLockedCommon`
started, and at re-validation the table's entry for the name is absent or is
another reference, the call fails with the error "namespace ..., was removed
during ensure", returns no state and no release function, has released the
per-namespace lock it took (the trace is exactly: table lock, table unlock,
lock `r`, table lock, unlock `r`, table unlock), and never calls configure. -/
theorem ensureNamespaceLockedCommon_removed {AS : Type} (bnc : BaseNetworkController)
    (env : Environment AS) (w : World AS) (ns : String) (readOnly : Bool)
    (namespaceObj : Option Namespace) (ipsGetter : String → List IP)
    (configureNamespace : namespaceInfo AS → Namespace → namespaceInfo AS × Option String)
    (r : Ref) (hexisted : w.namespaces ns = some r)
    (hgone : (env.interference w).namespaces ns ≠ some r) :
    (ensureNamespaceLockedCommon bnc env w ns readOnly namespaceObj ipsGetter
      configureNamespace).err = some ("namespace " ++ ns ++ ", was removed during ensure") ∧
    (ensureNamespaceLockedCommon bnc env w ns readOnly namespaceObj ipsGetter
      configureNamespace).nsInfo = none ∧
    (ensureNamespaceLockedCommon bnc env w ns readOnly namespaceObj ipsGetter
      configureNamespace).unlockFunc = none ∧
    (ensureNamespaceLockedCommon bnc env w ns readOnly namespaceObj ipsGetter
      configureNamespace).trace =
      [Event.namespacesMutexLock, Event.namespacesMutexUnlock, lockEvent readOnly r,
        Event.namespacesMutexLock, (mkUnlockFunc readOnly r).call, Event.namespacesMutexUnlock] ∧
    configureCalls (ensureNamespaceLockedCommon bnc env w ns readOnly namespaceObj ipsGetter
      configureNamespace).trace = [] := by
  unfold ensureNamespaceLockedCommon
  simp only [hexisted]
  rw [if_pos hgone]
  refine ⟨rfl, rfl, rfl, rfl, ?_⟩
  cases readOnly <;> rfl

/-- An instance of the previous theorem: `ns1` is deleted from the table while
a read-only ensure waits for its lock. -/
theorem ensureNamespaceLockedCommon_removed_witness :
    oneEntryWorld.namespaces "ns1" = some 0 ∧
    (deletingEnvironment.interference oneEntryWorld).namespaces "ns1" ≠ some 0 ∧
    (ensureNamespaceLockedCommon sampleController deletingEnvironment oneEntryWorld "ns1" true
      (some ⟨"ns1", []⟩) sampleIpsGetter sampleConfigure).err =
      some "namespace ns1, was removed during ensure" ∧
    (ensureNamespaceLockedCommon sampleController deletingEnvironment oneEntryWorld "ns1" true
      (some ⟨"ns1", []⟩) sampleIpsGetter sampleConfigure).trace =
      [Event.namespacesMutexLock, Event.namespacesMutexUnlock, Event.nsInfoRLock 0,
        Event.namespacesMutexLock, Event.nsInfoRUnlock 0, Event.namespacesMutexUnlock] :=
  have h := ensureNamespaceLockedCommon_removed sampleController deletingEnvironment oneEntryWorld
    "ns1" true (some ⟨"ns1", []⟩) sampleIpsGetter sampleConfigure 0 rfl (by decide)
  ⟨rfl, by decide, h.1, h.2.2.2.1⟩

/-- C9 (evaluation at a failing input): no namespace object is passed, the
informer cache fails, and the API client fails the way the typed client does,
returning the object it allocated together with the error. The call logs that
it will defer configuring, and then calls configure on that empty object; here
configure fails, so the whole call fails and returns no state. -/
theorem ensureNamespaceLockedCommon_lookup_miss_configures :
    (typedClientEnvironment.watchFactoryGetNamespace "ns1").2 ≠ none ∧
    (typedClientEnvironment.clientNamespacesGet "ns1").2 ≠ none ∧
    (ensureNamespaceLockedCommon sampleController typedClientEnvironment emptyWorld "ns1" false
      none sampleIpsGetter sampleConfigure).trace =
      [Event.namespacesMutexLock, Event.ipsGetter "ns1",
        Event.NewAddressSet (getNamespaceAddrSetDbIDs "ns1" "default-network-controller")
          [[10, 128, 0, 5]],
        Event.nsInfoLock 0, Event.watchFactoryGetNamespace "ns1", Event.clientNamespacesGet "ns1",
        Event.klogWarning, Event.configureNamespace 0 { Name := "", Annotations := [] },
        Event.nsInfoUnlock 0, Event.namespacesMutexUnlock] ∧
    (ensureNamespaceLockedCommon sampleController typedClientEnvironment emptyWorld "ns1" false
      none sampleIpsGetter sampleConfigure).err =
      some "failed to configure namespace ns1: store operation failed" ∧
    (ensureNamespaceLockedCommon sampleController typedClientEnvironment emptyWorld "ns1" false
      none sampleIpsGetter sampleConfigure).nsInfo = none := by
  decide

/-- A lookup miss in which the API client returns a nil object defers
configuration: the call neither fails at line 288 nor calls configure. -/
theorem ensureConfigure_miss_nil_object {AS : Type} (env : Environment AS) (w : World AS)
    (trace : List Event) (ns : String)
    (configureNamespace : namespaceInfo AS → Namespace → namespaceInfo AS × Option String)
    (r : Ref) (u : UnlockFunc)
    (hcache : (env.watchFactoryGetNamespace ns).2 ≠ none)
    (hapi : (env.clientNamespacesGet ns).2 ≠ none)
    (hnil : (env.clientNamespacesGet ns).1 = none) :
    ensureConfigure env w trace ns none configureNamespace r u =
      { nsInfo := some r, unlockFunc := some u, err := none, world := w,
        trace := trace ++ [Event.watchFactoryGetNamespace ns, Event.clientNamespacesGet ns,
          Event.klogWarning] ++ [Event.namespacesMutexUnlock] } := by
  have hl : lookupNamespace env ns none =
      (none, [Event.watchFactoryGetNamespace ns, Event.clientNamespacesGet ns,
        Event.klogWarning]) := by
    unfold lookupNamespace
    rcases h1 : (env.watchFactoryGetNamespace ns).2 with _ | e1
    · exact absurd h1 hcache
    · rcases h2 : (env.clientNamespacesGet ns).2 with _ | e2
      · exact absurd h2 hapi
      · simp only [h1, h2, hnil]
  rw [ensureConfigure_none env w trace ns none configureNamespace r u (by rw [hl])]
  rw [hl]

/-- The four ways in which `ensureNamespaceLockedCommon` ends, with the
per-namespace lock operations of each: address-set creation failed (the lock was
never taken), the entry was removed, configure failed, or success. -/
theorem ensureNamespaceLockedCommon_outcomes {AS : Type} (bnc : BaseNetworkController)
    (env : Environment AS) (w : World AS) (ns : String) (readOnly : Bool)
    (namespaceObj : Option Namespace) (ipsGetter : String → List IP)
    (configureNamespace : namespaceInfo AS → Namespace → namespaceInfo AS × Option String) :
    (w.namespaces ns = none ∧
      ∃ e, (env.NewAddressSet (getNamespaceAddrSetDbIDs ns bnc.controllerName)
          (ipsGetter ns)).2 = some e ∧
        (ensureNamespaceLockedCommon bnc env w ns readOnly namespaceObj ipsGetter
          configureNamespace).err =
          some ("failed to create address set for namespace: " ++ ns ++ ", error: " ++ e) ∧
        (ensureNamespaceLockedCommon bnc env w ns readOnly namespaceObj ipsGetter
          configureNamespace).nsInfo = none ∧
        (ensureNamespaceLockedCommon bnc env w ns readOnly namespaceObj ipsGetter
          configureNamespace).unlockFunc = none ∧
        nsInfoLockOps (ensureNamespaceLockedCommon bnc env w ns readOnly namespaceObj ipsGetter
          configureNamespace).trace = []) ∨
    (∃ r, w.namespaces ns = some r ∧ (env.interference w).namespaces ns ≠ some r ∧
        (ensureNamespaceLockedCommon bnc env w ns readOnly namespaceObj ipsGetter
          configureNamespace).err = some ("namespace " ++ ns ++ ", was removed during ensure") ∧
        (ensureNamespaceLockedCommon bnc env w ns readOnly namespaceObj ipsGetter
          configureNamespace).nsInfo = none ∧
        (ensureNamespaceLockedCommon bnc env w ns readOnly namespaceObj ipsGetter
          configureNamespace).unlockFunc = none ∧
        nsInfoLockOps (ensureNamespaceLockedCommon bnc env w ns readOnly namespaceObj ipsGetter
          configureNamespace).trace = [lockEvent readOnly r, (mkUnlockFunc readOnly r).call]) ∨
    (∃ r info n e, (lookupNamespace env ns namespaceObj).1 = some n ∧
        (configureNamespace info n).2 = some e ∧
        (ensureNamespaceLockedCommon bnc env w ns readOnly namespaceObj ipsGetter
          configureNamespace).err = some ("failed to configure namespace " ++ ns ++ ": " ++ e) ∧
        (ensureNamespaceLockedCommon bnc env w ns readOnly namespaceObj ipsGetter
          configureNamespace).nsInfo = none ∧
        (ensureNamespaceLockedCommon bnc env w ns readOnly namespaceObj ipsGetter
          configureNamespace).unlockFunc = none ∧
        nsInfoLockOps (ensureNamespaceLockedCommon bnc env w ns readOnly namespaceObj ipsGetter
          configureNamespace).trace = [lockEvent readOnly r, (mkUnlockFunc readOnly r).call]) ∨
    (∃ r, (ensureNamespaceLockedCommon bnc env w ns readOnly namespaceObj ipsGetter
          configureNamespace).err = none ∧
        (ensureNamespaceLockedCommon bnc env w ns readOnly namespaceObj ipsGetter
          configureNamespace).nsInfo = some r ∧
        (ensureNamespaceLockedCommon bnc env w ns readOnly namespaceObj ipsGetter
          configureNamespace).unlockFunc = some (mkUnlockFunc readOnly r) ∧
        nsInfoLockOps (ensureNamespaceLockedCommon bnc env w ns readOnly namespaceObj ipsGetter
          configureNamespace).trace = [lockEvent readOnly r]) := by
  unfold ensureNamespaceLockedCommon
  rcases hw : w.namespaces ns with _ | r
  · rcases hc : (env.NewAddressSet (getNamespaceAddrSetDbIDs ns bnc.controllerName)
        (ipsGetter ns)).2 with _ | e
    · simp only [createNamespaceAddrSetAllPods, hc]
      right; right
      rcases ensureConfigure_outcome env _
          ([Event.namespacesMutexLock] ++ [Event.ipsGetter ns] ++
            [Event.NewAddressSet (getNamespaceAddrSetDbIDs ns bnc.controllerName) (ipsGetter ns)] ++
            [lockEvent readOnly w.nextRef])
          ns namespaceObj configureNamespace readOnly w.nextRef with h | ⟨n, e, h1, h2, h3, h4, h5, h6⟩
      · right
        refine ⟨w.nextRef, h.1, h.2.1, h.2.2.1, ?_⟩
        rw [h.2.2.2]
        cases readOnly <;> simp [nsInfoLockOps, lockEvent]
      · left
        refine ⟨w.nextRef, _, n, e, h1, h2, h3, h4, h5, ?_⟩
        rw [h6]
        cases readOnly <;> simp [nsInfoLockOps, lockEvent]
    · left
      refine ⟨rfl, e, rfl, ?_⟩
      simp only [createNamespaceAddrSetAllPods, hc]
      simp [nsInfoLockOps]
  · right
    dsimp only
    by_cases hg : (env.interference w).namespaces ns ≠ some r
    · left
      rw [if_pos hg]
      refine ⟨r, rfl, hg, rfl, rfl, rfl, ?_⟩
      cases readOnly <;> simp [nsInfoLockOps, lockEvent, mkUnlockFunc, UnlockFunc.call]
    · right
      rw [if_neg hg]
      rcases ensureConfigure_outcome env (env.interference w)
          ([Event.namespacesMutexLock] ++ [Event.namespacesMutexUnlock] ++
            [lockEvent readOnly r] ++ [Event.namespacesMutexLock])
          ns namespaceObj configureNamespace readOnly r with h | ⟨n, e, h1, h2, h3, h4, h5, h6⟩
      · right
        refine ⟨r, h.1, h.2.1, h.2.2.1, ?_⟩
        rw [h.2.2.2]
        cases readOnly <;> simp [nsInfoLockOps, lockEvent]
      · left
        refine ⟨r, _, n, e, h1, h2, h3, h4, h5, ?_⟩
        rw [h6]
        cases readOnly <;> simp [nsInfoLockOps, lockEvent]

/-- C10: the per-namespace lock taken by `ensureNamespaceLockedCommon` is
handled the same way on every exit path. On success the trace holds exactly one
per-namespace lock operation, the lock of the returned entry in the requested
mode (`RLock` when `readOnly`, `Lock` otherwise), and the returned release
function unlocks that entry in that mode. On an error return no state and no
release function are returned, and either address-set creation failed and the
lock was never taken, or the trace holds exactly the lock followed by one
unlock of the same entry in the same mode, with the error being the "removed
during ensure" error or the wrapped error of configure. -/
theorem ensureNamespaceLockedCommon_lock_discipline {AS : Type} (bnc : BaseNetworkController)
    (env : Environment AS) (w : World AS) (ns : String) (readOnly : Bool)
    (namespaceObj : Option Namespace) (ipsGetter : String → List IP)
    (configureNamespace : namespaceInfo AS → Namespace → namespaceInfo AS × Option String) :
    ((ensureNamespaceLockedCommon bnc env w ns readOnly namespaceObj ipsGetter
        configureNamespace).err = none →
      ∃ r, (ensureNamespaceLockedCommon bnc env w ns readOnly namespaceObj ipsGetter
          configureNamespace).nsInfo = some r ∧
        (ensureNamespaceLockedCommon bnc env w ns readOnly namespaceObj ipsGetter
          configureNamespace).unlockFunc =
          some (if readOnly then UnlockFunc.RUnlock r else UnlockFunc.Unlock r) ∧
        nsInfoLockOps (ensureNamespaceLockedCommon bnc env w ns readOnly namespaceObj ipsGetter
          configureNamespace).trace =
          [if readOnly then Event.nsInfoRLock r else Event.nsInfoLock r]) ∧
    ((ensureNamespaceLockedCommon bnc env w ns readOnly namespaceObj ipsGetter
        configureNamespace).err ≠ none →
      (ensureNamespaceLockedCommon bnc env w ns readOnly namespaceObj ipsGetter
        configureNamespace).nsInfo = none ∧
      (ensureNamespaceLockedCommon bnc env w ns readOnly namespaceObj ipsGetter
        configureNamespace).unlockFunc = none ∧
      ((w.namespaces ns = none ∧
          (env.NewAddressSet (getNamespaceAddrSetDbIDs ns bnc.controllerName)
            (ipsGetter ns)).2 ≠ none ∧
          nsInfoLockOps (ensureNamespaceLockedCommon bnc env w ns readOnly namespaceObj ipsGetter
            configureNamespace).trace = []) ∨
        ∃ r, nsInfoLockOps (ensureNamespaceLockedCommon bnc env w ns readOnly namespaceObj
            ipsGetter configureNamespace).trace =
            [if readOnly then Event.nsInfoRLock r else Event.nsInfoLock r,
              if readOnly then Event.nsInfoRUnlock r else Event.nsInfoUnlock r] ∧
          ((ensureNamespaceLockedCommon bnc env w ns readOnly namespaceObj ipsGetter
              configureNamespace).err = some ("namespace " ++ ns ++ ", was removed during ensure") ∨
            ∃ info n e, (configureNamespace info n).2 = some e ∧
              (ensureNamespaceLockedCommon bnc env w ns readOnly namespaceObj ipsGetter
                configureNamespace).err =
                some ("failed to configure namespace " ++ ns ++ ": " ++ e)))) := by
  have hl : ∀ r, lockEvent readOnly r =
      (if readOnly then Event.nsInfoRLock r else Event.nsInfoLock r) := fun _ => rfl
  have hu : ∀ r, (mkUnlockFunc readOnly r).call =
      (if readOnly then Event.nsInfoRUnlock r else Event.nsInfoUnlock r) := by
    intro r
    cases readOnly <;> rfl
  rcases ensureNamespaceLockedCommon_outcomes bnc env w ns readOnly namespaceObj ipsGetter
      configureNamespace with
    ⟨hw, e, hc, herr, hn, hf, hops⟩ | ⟨r, _, _, herr, hn, hf, hops⟩ |
    ⟨r, info, n, e, _, hcfg, herr, hn, hf, hops⟩ | ⟨r, herr, hn, hf, hops⟩
  · refine ⟨fun h => ?_, fun _ => ⟨hn, hf, Or.inl ⟨hw, ?_, hops⟩⟩⟩
    · rw [herr] at h
      exact absurd h (by simp)
    · rw [hc]
      simp
  · refine ⟨fun h => ?_, fun _ => ⟨hn, hf, Or.inr ⟨r, ?_, Or.inl herr⟩⟩⟩
    · rw [herr] at h
      exact absurd h (by simp)
    · rw [hops, hl, hu]
  · refine ⟨fun h => ?_, fun _ => ⟨hn, hf, Or.inr ⟨r, ?_, Or.inr ⟨info, n, e, hcfg, herr⟩⟩⟩⟩
    · rw [herr] at h
      exact absurd h (by simp)
    · rw [hops, hl, hu]
  · refine ⟨fun _ => ⟨r, hn, ?_, ?_⟩, fun h => absurd herr h⟩
    · rw [hf]
      rfl
    · rw [hops, hl]

/-- An instance of the previous theorem: a read-only ensure of an existing
entry whose configure succeeds returns it read-locked. -/
theorem ensureNamespaceLockedCommon_lock_discipline_witness :
    (ensureNamespaceLockedCommon sampleController quietEnvironment oneEntryWorld "ns1" true
      (some ⟨"ns1", []⟩) sampleIpsGetter sampleConfigure).err = none ∧
    ∃ r, (ensureNamespaceLockedCommon sampleController quietEnvironment oneEntryWorld "ns1" true
        (some ⟨"ns1", []⟩) sampleIpsGetter sampleConfigure).nsInfo = some r ∧
      (ensureNamespaceLockedCommon sampleController quietEnvironment oneEntryWorld "ns1" true
        (some ⟨"ns1", []⟩) sampleIpsGetter sampleConfigure).unlockFunc =
        some (if true then UnlockFunc.RUnlock r else UnlockFunc.Unlock r) ∧
      nsInfoLockOps (ensureNamespaceLockedCommon sampleController quietEnvironment oneEntryWorld
        "ns1" true (some ⟨"ns1", []⟩) sampleIpsGetter sampleConfigure).trace =
        [if true then Event.nsInfoRLock r else Event.nsInfoLock r] :=
  ⟨by decide,
    (ensureNamespaceLockedCommon_lock_discipline sampleController quietEnvironment oneEntryWorld
      "ns1" true (some ⟨"ns1", []⟩) sampleIpsGetter sampleConfigure).1 (by decide)⟩

/-! ## Theorems: failure frame and lock order of `ensureNamespaceLockedCommon` -/

/-- Lines 275-296 write to no namespace state other than the locked one. -/
theorem ensureConfigure_heap_other {AS : Type} (env : Environment AS) (w : World AS)
    (trace : List Event) (ns : String) (namespaceObj : Option Namespace)
    (configureNamespace : namespaceInfo AS → Namespace → namespaceInfo AS × Option String)
    (r : Ref) (u : UnlockFunc) (r' : Ref) (hne : r' ≠ r) :
    (ensureConfigure env w trace ns namespaceObj configureNamespace r u).world.heap r' =
      w.heap r' := by
  unfold ensureConfigure
  rcases h : (lookupNamespace env ns namespaceObj).1 with _ | n
  · simp only [h]
  · simp only [h]
    split <;> simp [Function.update_noteq hne]

/-- C11 (counterexample): the first ensure of `ns1`, with a namespace object
that enables multicast and an unreachable store, returns the configure error,
and yet the table, which had no entry for `ns1`, now maps `ns1` to the new
entry, whose multicast flag has been switched on. -/
theorem ensureNamespaceLockedCommon_error_keeps_entry :
    emptyWorld.namespaces "ns1" = none ∧
    (ensureNamespaceLockedCommon sampleController quietEnvironment emptyWorld "ns1" false
      (some multicastNamespace) sampleIpsGetter
      (configureNamespaceCallback sampleUnmarshal sampleController failingStore)).err =
      some "failed to configure namespace ns1: failed to update multicast (connection refused)" ∧
    (ensureNamespaceLockedCommon sampleController quietEnvironment emptyWorld "ns1" false
      (some multicastNamespace) sampleIpsGetter
      (configureNamespaceCallback sampleUnmarshal sampleController failingStore)).world.namespaces
      "ns1" = some 0 ∧
    ¬ ((ensureNamespaceLockedCommon sampleController quietEnvironment emptyWorld "ns1" false
      (some multicastNamespace) sampleIpsGetter
      (configureNamespaceCallback sampleUnmarshal sampleController failingStore)).world.namespaces
      "ns1" = emptyWorld.namespaces "ns1") ∧
    ((ensureNamespaceLockedCommon sampleController quietEnvironment emptyWorld "ns1" false
      (some multicastNamespace) sampleIpsGetter
      (configureNamespaceCallback sampleUnmarshal sampleController failingStore)).world.heap
      0).multicastEnabled = true := by
  decide

/-- C11 (amended): a call of `ensureNamespaceLockedCommon` that returns an error
ends in one of four ways. Address-set creation failed: the table is unchanged
and so is the state behind every reference but the fresh, discarded one. The
entry was removed: table and states are exactly what the other goroutines
left. Configure failed in the create branch: the table differs from the one
before only in the entry inserted for the name, and the state behind every
other reference is unchanged. Configure failed on an existing entry: the table
is the one found at re-validation and the state behind every reference but
the locked one is unchanged. -/
theorem ensureNamespaceLockedCommon_error_frame {AS : Type} (bnc : BaseNetworkController)
    (env : Environment AS) (w : World AS) (ns : String) (readOnly : Bool)
    (namespaceObj : Option Namespace) (ipsGetter : String → List IP)
    (configureNamespace : namespaceInfo AS → Namespace → namespaceInfo AS × Option String)
    (herr : (ensureNamespaceLockedCommon bnc env w ns readOnly namespaceObj ipsGetter
      configureNamespace).err ≠ none) :
    (w.namespaces ns = none ∧
      (env.NewAddressSet (getNamespaceAddrSetDbIDs ns bnc.controllerName) (ipsGetter ns)).2 ≠ none ∧
      (ensureNamespaceLockedCommon bnc env w ns readOnly namespaceObj ipsGetter
        configureNamespace).world.namespaces = w.namespaces ∧
      ∀ r, r ≠ w.nextRef →
        (ensureNamespaceLockedCommon bnc env w ns readOnly namespaceObj ipsGetter
          configureNamespace).world.heap r = w.heap r) ∨
    (∃ r, w.namespaces ns = some r ∧ (env.interference w).namespaces ns ≠ some r ∧
      (ensureNamespaceLockedCommon bnc env w ns readOnly namespaceObj ipsGetter
        configureNamespace).world.namespaces = (env.interference w).namespaces ∧
      (ensureNamespaceLockedCommon bnc env w ns readOnly namespaceObj ipsGetter
        configureNamespace).world.heap = (env.interference w).heap) ∨
    (w.namespaces ns = none ∧
      (∃ e, (ensureNamespaceLockedCommon bnc env w ns readOnly namespaceObj ipsGetter
        configureNamespace).err = some ("failed to configure namespace " ++ ns ++ ": " ++ e)) ∧
      (ensureNamespaceLockedCommon bnc env w ns readOnly namespaceObj ipsGetter
        configureNamespace).world.namespaces = Function.update w.namespaces ns (some w.nextRef) ∧
      ∀ r, r ≠ w.nextRef →
        (ensureNamespaceLockedCommon bnc env w ns readOnly namespaceObj ipsGetter
          configureNamespace).world.heap r = w.heap r) ∨
    (∃ r, w.namespaces ns = some r ∧ (env.interference w).namespaces ns = some r ∧
      (∃ e, (ensureNamespaceLockedCommon bnc env w ns readOnly namespaceObj ipsGetter
        configureNamespace).err = some ("failed to configure namespace " ++ ns ++ ": " ++ e)) ∧
      (ensureNamespaceLockedCommon bnc env w ns readOnly namespaceObj ipsGetter
        configureNamespace).world.namespaces = (env.interference w).namespaces ∧
      ∀ r', r' ≠ r →
        (ensureNamespaceLockedCommon bnc env w ns readOnly namespaceObj ipsGetter
          configureNamespace).world.heap r' = (env.interference w).heap r') := by
  unfold ensureNamespaceLockedCommon at herr ⊢
  rcases hw : w.namespaces ns with _ | r
  · rcases hc : (env.NewAddressSet (getNamespaceAddrSetDbIDs ns bnc.controllerName)
        (ipsGetter ns)).2 with _ | e
    · right; right; left
      simp only [hw, createNamespaceAddrSetAllPods, hc] at herr
      simp only [createNamespaceAddrSetAllPods, hc]
      refine ⟨trivial, ?_, ?_, ?_⟩
      · rcases ensureConfigure_outcome env _ _ ns namespaceObj configureNamespace readOnly
            w.nextRef with h | ⟨n, e, _, _, h3, _⟩
        · exact absurd h.1 herr
        · exact ⟨e, h3⟩
      · rw [ensureConfigure_namespaces]
      · intro r hr
        rw [ensureConfigure_heap_other _ _ _ _ _ _ _ _ _ hr]
        exact Function.update_noteq hr _ _
    · left
      simp only [createNamespaceAddrSetAllPods, hc]
      refine ⟨trivial, by simp, trivial, ?_⟩
      intro r hr
      exact Function.update_noteq hr _ _
  · right
    simp only [hw] at herr
    dsimp only
    by_cases hg : (env.interference w).namespaces ns ≠ some r
    · left
      rw [if_pos hg]
      exact ⟨r, rfl, hg, rfl, rfl⟩
    · right; right
      rw [if_neg hg] at herr
      rw [if_neg hg]
      refine ⟨r, rfl, not_not.mp hg, ?_, ?_, ?_⟩
      · rcases ensureConfigure_outcome env _ _ ns namespaceObj configureNamespace readOnly
            r with h | ⟨n, e, _, _, h3, _⟩
        · exact absurd h.1 herr
        · exact ⟨e, h3⟩
      · rw [ensureConfigure_namespaces]
      · intro r' hr
        rw [ensureConfigure_heap_other _ _ _ _ _ _ _ _ _ hr]

/-- An instance of the previous theorem: the failed first ensure of `ns1` leaves
the table of every other name and the state behind every other reference as
they were. -/
theorem ensureNamespaceLockedCommon_error_frame_witness :
    (ensureNamespaceLockedCommon sampleController quietEnvironment emptyWorld "ns1" false
      (some multicastNamespace) sampleIpsGetter
      (configureNamespaceCallback sampleUnmarshal sampleController failingStore)).err ≠ none ∧
    (ensureNamespaceLockedCommon sampleController quietEnvironment emptyWorld "ns1" false
      (some multicastNamespace) sampleIpsGetter
      (configureNamespaceCallback sampleUnmarshal sampleController failingStore)).world.namespaces =
      Function.update emptyWorld.namespaces "ns1" (some 0) := by
  have hne : (ensureNamespaceLockedCommon sampleController quietEnvironment emptyWorld "ns1" false
      (some multicastNamespace) sampleIpsGetter
      (configureNamespaceCallback sampleUnmarshal sampleController failingStore)).err ≠ none := by
    decide
  refine ⟨hne, ?_⟩
  rcases ensureNamespaceLockedCommon_error_frame sampleController quietEnvironment emptyWorld
      "ns1" false (some multicastNamespace) sampleIpsGetter
      (configureNamespaceCallback sampleUnmarshal sampleController failingStore) hne with
    h | ⟨r, h, _⟩ | h | ⟨r, h, _⟩
  · exact absurd h.2.1 (by decide)
  · exact Option.noConfusion h
  · exact h.2.2.1
  · exact Option.noConfusion h

/-- Filtering the lock operations distributes over concatenation. -/
theorem lockOps_append (a b : List Event) : lockOps (a ++ b) = lockOps a ++ lockOps b := by
  simp [lockOps]

/-- The lookups of lines 275-286 touch no lock. -/
theorem lookupNamespace_lockOps {AS : Type} (env : Environment AS) (ns : String)
    (namespaceObj : Option Namespace) : lockOps (lookupNamespace env ns namespaceObj).2 = [] := by
  unfold lookupNamespace
  split
  · rfl
  · dsimp only
    split
    · rfl
    · split <;> rfl

/-- The scan for a lock-order inversion only looks at the lock operations. -/
theorem foldl_lockScan_lockOps (trace : List Event) (s : Nat × Bool) :
    trace.foldl lockScan s = (lockOps trace).foldl lockScan s := by
  induction trace generalizing s with
  | nil => rfl
  | cons e rest ih =>
    cases e <;> simp [lockOps, lockScan, List.filter_cons] <;> exact ih _

/-- The lock operations of lines 275-296: the deferred table unlock, preceded
by the per-namespace unlock when configure failed. -/
theorem ensureConfigure_lockOps {AS : Type} (env : Environment AS) (w : World AS)
    (trace : List Event) (ns : String) (namespaceObj : Option Namespace)
    (configureNamespace : namespaceInfo AS → Namespace → namespaceInfo AS × Option String)
    (readOnly : Bool) (r : Ref) :
    lockOps (ensureConfigure env w trace ns namespaceObj configureNamespace r
        (mkUnlockFunc readOnly r)).trace = lockOps trace ++ [Event.namespacesMutexUnlock] ∨
    lockOps (ensureConfigure env w trace ns namespaceObj configureNamespace r
        (mkUnlockFunc readOnly r)).trace =
      lockOps trace ++ [(mkUnlockFunc readOnly r).call, Event.namespacesMutexUnlock] := by
  unfold ensureConfigure
  rcases h : (lookupNamespace env ns namespaceObj).1 with _ | n
  · left
    simp only [h, lockOps_append, lookupNamespace_lockOps, List.append_nil]
    simp [lockOps]
  · rcases hc : (configureNamespace (w.heap r) n).2 with _ | e
    · left
      simp only [h, hc, lockOps_append, lookupNamespace_lockOps, List.append_nil]
      simp [lockOps]
    · right
      simp only [h, hc, lockOps_append, lookupNamespace_lockOps, List.append_nil]
      cases readOnly <;> simp [lockOps, mkUnlockFunc, UnlockFunc.call]

/-- The lock operations of a call that finds no entry: the table-wide lock is
taken first and released last, and the per-namespace lock is taken, and on a
configure failure released, in between. -/
theorem ensureNamespaceLockedCommon_lockOps_create {AS : Type} (bnc : BaseNetworkController)
    (env : Environment AS) (w : World AS) (ns : String) (readOnly : Bool)
    (namespaceObj : Option Namespace) (ipsGetter : String → List IP)
    (configureNamespace : namespaceInfo AS → Namespace → namespaceInfo AS × Option String)
    (hnew : w.namespaces ns = none) :
    lockOps (ensureNamespaceLockedCommon bnc env w ns readOnly namespaceObj ipsGetter
        configureNamespace).trace = [Event.namespacesMutexLock, Event.namespacesMutexUnlock] ∨
    lockOps (ensureNamespaceLockedCommon bnc env w ns readOnly namespaceObj ipsGetter
        configureNamespace).trace =
      [Event.namespacesMutexLock, lockEvent readOnly w.nextRef, Event.namespacesMutexUnlock] ∨
    lockOps (ensureNamespaceLockedCommon bnc env w ns readOnly namespaceObj ipsGetter
        configureNamespace).trace =
      [Event.namespacesMutexLock, lockEvent readOnly w.nextRef,
        (mkUnlockFunc readOnly w.nextRef).call, Event.namespacesMutexUnlock] := by
  unfold ensureNamespaceLockedCommon
  simp only [hnew]
  rcases hc : (env.NewAddressSet (getNamespaceAddrSetDbIDs ns bnc.controllerName)
      (ipsGetter ns)).2 with _ | e
  · simp only [createNamespaceAddrSetAllPods, hc]
    right
    have hpre : lockOps ([Event.namespacesMutexLock] ++ [Event.ipsGetter ns] ++
        [Event.NewAddressSet (getNamespaceAddrSetDbIDs ns bnc.controllerName) (ipsGetter ns)] ++
        [lockEvent readOnly w.nextRef]) =
        [Event.namespacesMutexLock, lockEvent readOnly w.nextRef] := by
      cases readOnly <;> rfl
    rcases ensureConfigure_lockOps env _
        ([Event.namespacesMutexLock] ++ [Event.ipsGetter ns] ++
          [Event.NewAddressSet (getNamespaceAddrSetDbIDs ns bnc.controllerName) (ipsGetter ns)] ++
          [lockEvent readOnly w.nextRef])
        ns namespaceObj configureNamespace readOnly w.nextRef with h | h
    · left
      rw [h, hpre]
      rfl
    · right
      rw [h, hpre]
      rfl
  · left
    simp only [createNamespaceAddrSetAllPods, hc]
    rfl

/-- The lock operations of a call that finds an entry `r`: the table-wide lock
is released before the per-namespace lock is taken, and is taken again while
the per-namespace lock is held. -/
theorem ensureNamespaceLockedCommon_lockOps_existing {AS : Type} (bnc : BaseNetworkController)
    (env : Environment AS) (w : World AS) (ns : String) (readOnly : Bool)
    (namespaceObj : Option Namespace) (ipsGetter : String → List IP)
    (configureNamespace : namespaceInfo AS → Namespace → namespaceInfo AS × Option String)
    (r : Ref) (hexisted : w.namespaces ns = some r) :
    lockOps (ensureNamespaceLockedCommon bnc env w ns readOnly namespaceObj ipsGetter
        configureNamespace).trace =
      [Event.namespacesMutexLock, Event.namespacesMutexUnlock, lockEvent readOnly r,
        Event.namespacesMutexLock, Event.namespacesMutexUnlock] ∨
    lockOps (ensureNamespaceLockedCommon bnc env w ns readOnly namespaceObj ipsGetter
        configureNamespace).trace =
      [Event.namespacesMutexLock, Event.namespacesMutexUnlock, lockEvent readOnly r,
        Event.namespacesMutexLock, (mkUnlockFunc readOnly r).call,
        Event.namespacesMutexUnlock] := by
  unfold ensureNamespaceLockedCommon
  simp only [hexisted]
  have hpre : lockOps ([Event.namespacesMutexLock] ++ [Event.namespacesMutexUnlock] ++
      [lockEvent readOnly r] ++ [Event.namespacesMutexLock]) =
      [Event.namespacesMutexLock, Event.namespacesMutexUnlock, lockEvent readOnly r,
        Event.namespacesMutexLock] := by
    cases readOnly <;> rfl
  by_cases hg : (env.interference w).namespaces ns ≠ some r
  · right
    rw [if_pos hg]
    cases readOnly <;> rfl
  · rw [if_neg hg]
    rcases ensureConfigure_lockOps env (env.interference w)
        ([Event.namespacesMutexLock] ++ [Event.namespacesMutexUnlock] ++
          [lockEvent readOnly r] ++ [Event.namespacesMutexLock])
        ns namespaceObj configureNamespace readOnly r with h | h
    · left
      rw [h, hpre]
      rfl
    · right
      rw [h, hpre]
      rfl

/-- C12 (counterexample): a read-only ensure of the existing entry of `ns1`
takes the table-wide lock, releases it, takes the per-namespace read lock and
then takes the table-wide lock again while it holds the per-namespace lock. -/
theorem ensureNamespaceLockedCommon_relocks_table_under_ns_lock :
    lockOps (ensureNamespaceLockedCommon sampleController quietEnvironment oneEntryWorld "ns1"
      true (some ⟨"ns1", []⟩) sampleIpsGetter sampleConfigure).trace =
      [Event.namespacesMutexLock, Event.namespacesMutexUnlock, Event.nsInfoRLock 0,
        Event.namespacesMutexLock, Event.namespacesMutexUnlock] ∧
    tableLockWhileNsHeld (ensureNamespaceLockedCommon sampleController quietEnvironment
      oneEntryWorld "ns1" true (some ⟨"ns1", []⟩) sampleIpsGetter sampleConfigure).trace =
      true := by
  decide

/-- C12 (amended): when `ensureNamespaceLockedCommon` finds no entry for the
name, it never acquires the table-wide lock while it holds a per-namespace
lock: the only order is table-wide lock, then per-namespace lock. When it finds
an entry `r`, its first four lock operations are table lock, table unlock,
lock of `r`, table lock: the table-wide lock is released before the
per-namespace lock is requested, and is acquired again, for the re-validation,
while the per-namespace lock is held. -/
theorem ensureNamespaceLockedCommon_lock_order {AS : Type} (bnc : BaseNetworkController)
    (env : Environment AS) (w : World AS) (ns : String) (readOnly : Bool)
    (namespaceObj : Option Namespace) (ipsGetter : String → List IP)
    (configureNamespace : namespaceInfo AS → Namespace → namespaceInfo AS × Option String) :
    (w.namespaces ns = none →
      tableLockWhileNsHeld (ensureNamespaceLockedCommon bnc env w ns readOnly namespaceObj
        ipsGetter configureNamespace).trace = false) ∧
    (∀ r, w.namespaces ns = some r →
      (lockOps (ensureNamespaceLockedCommon bnc env w ns readOnly namespaceObj ipsGetter
        configureNamespace).trace).take 4 =
        [Event.namespacesMutexLock, Event.namespacesMutexUnlock,
          if readOnly then Event.nsInfoRLock r else Event.nsInfoLock r,
          Event.namespacesMutexLock] ∧
      tableLockWhileNsHeld (ensureNamespaceLockedCommon bnc env w ns readOnly namespaceObj
        ipsGetter configureNamespace).trace = true) := by
  constructor
  · intro hnew
    unfold tableLockWhileNsHeld
    rw [foldl_lockScan_lockOps]
    rcases ensureNamespaceLockedCommon_lockOps_create bnc env w ns readOnly namespaceObj ipsGetter
        configureNamespace hnew with h | h | h <;> rw [h] <;> cases readOnly <;> rfl
  · intro r hexisted
    unfold tableLockWhileNsHeld
    rw [foldl_lockScan_lockOps]
    rcases ensureNamespaceLockedCommon_lockOps_existing bnc env w ns readOnly namespaceObj
        ipsGetter configureNamespace r hexisted with h | h <;> rw [h] <;>
      cases readOnly <;> exact ⟨rfl, rfl⟩

/-- An instance of the previous theorem, one call for each branch. -/
theorem ensureNamespaceLockedCommon_lock_order_witness :
    emptyWorld.namespaces "ns1" = none ∧
    tableLockWhileNsHeld (ensureNamespaceLockedCommon sampleController quietEnvironment
      emptyWorld "ns1" false none sampleIpsGetter sampleConfigure).trace = false ∧
    oneEntryWorld.namespaces "ns1" = some 0 ∧
    tableLockWhileNsHeld (ensureNamespaceLockedCommon sampleController quietEnvironment
      oneEntryWorld "ns1" false none sampleIpsGetter sampleConfigure).trace = true :=
  ⟨rfl,
    (ensureNamespaceLockedCommon_lock_order sampleController quietEnvironment emptyWorld "ns1"
      false none sampleIpsGetter sampleConfigure).1 rfl,
    rfl,
    ((ensureNamespaceLockedCommon_lock_order sampleController quietEnvironment oneEntryWorld "ns1"
      false none sampleIpsGetter sampleConfigure).2 0 rfl).2⟩

/-- Lines 275-296 only append to the trace. -/
theorem ensureConfigure_trace_prefix {AS : Type} (env : Environment AS) (w : World AS)
    (trace : List Event) (ns : String) (namespaceObj : Option Namespace)
    (configureNamespace : namespaceInfo AS → Namespace → namespaceInfo AS × Option String)
    (r : Ref) (u : UnlockFunc) :
    ∃ rest, (ensureConfigure env w trace ns namespaceObj configureNamespace r u).trace =
      trace ++ rest := by
  unfold ensureConfigure
  rcases h : (lookupNamespace env ns namespaceObj).1 with _ | n
  · simp only [h, List.append_assoc]
    exact ⟨_, rfl⟩
  · rcases hc : (configureNamespace (w.heap r) n).2 with _ | e
    · simp only [h, hc, List.append_assoc]
      exact ⟨_, rfl⟩
    · simp only [h, hc, List.append_assoc]
      exact ⟨_, rfl⟩

/-- A call that finds an entry for the name does not call the address-set
factory. -/
theorem ensureNamespaceLockedCommon_existing_no_create {AS : Type} (bnc : BaseNetworkController)
    (env : Environment AS) (w : World AS) (ns : String) (readOnly : Bool)
    (namespaceObj : Option Namespace) (ipsGetter : String → List IP)
    (configureNamespace : namespaceInfo AS → Namespace → namespaceInfo AS × Option String)
    (r : Ref) (hexisted : w.namespaces ns = some r) :
    newAddressSetCalls (ensureNamespaceLockedCommon bnc env w ns readOnly namespaceObj ipsGetter
      configureNamespace).trace = [] := by
  unfold ensureNamespaceLockedCommon
  simp only [hexisted]
  by_cases hg : (env.interference w).namespaces ns ≠ some r
  · rw [if_pos hg]
    cases readOnly <;> rfl
  · rw [if_neg hg, ensureConfigure_newAddressSetCalls]
    cases readOnly <;> rfl

/-- C13: when `ensureNamespaceLockedCommon` finds no entry for the name, the
table-wide lock is taken first, then `ipsGetter` and the address-set factory are
called, and the lock is released only when the call returns. If the factory
returns an error, the table is unchanged and the call fails with no state. The
table gets an entry for the name only if the factory returned no error, and
that entry is the fresh reference, whose address set is the handle the factory
returned (before configure runs on it). -/
theorem ensureNamespaceLockedCommon_insert_after_create {AS : Type} (bnc : BaseNetworkController)
    (env : Environment AS) (w : World AS) (ns : String) (readOnly : Bool)
    (namespaceObj : Option Namespace) (ipsGetter : String → List IP)
    (configureNamespace : namespaceInfo AS → Namespace → namespaceInfo AS × Option String)
    (hnew : w.namespaces ns = none) :
    (∀ e, (env.NewAddressSet (getNamespaceAddrSetDbIDs ns bnc.controllerName)
        (ipsGetter ns)).2 = some e →
      (ensureNamespaceLockedCommon bnc env w ns readOnly namespaceObj ipsGetter
        configureNamespace).world.namespaces = w.namespaces ∧
      (ensureNamespaceLockedCommon bnc env w ns readOnly namespaceObj ipsGetter
        configureNamespace).nsInfo = none ∧
      (ensureNamespaceLockedCommon bnc env w ns readOnly namespaceObj ipsGetter
        configureNamespace).err =
        some ("failed to create address set for namespace: " ++ ns ++ ", error: " ++ e) ∧
      (ensureNamespaceLockedCommon bnc env w ns readOnly namespaceObj ipsGetter
        configureNamespace).trace =
        [Event.namespacesMutexLock, Event.ipsGetter ns,
          Event.NewAddressSet (getNamespaceAddrSetDbIDs ns bnc.controllerName) (ipsGetter ns),
          Event.namespacesMutexUnlock]) ∧
    (∀ r, (ensureNamespaceLockedCommon bnc env w ns readOnly namespaceObj ipsGetter
        configureNamespace).world.namespaces ns = some r →
      (env.NewAddressSet (getNamespaceAddrSetDbIDs ns bnc.controllerName) (ipsGetter ns)).2 = none ∧
      r = w.nextRef ∧
      (ensureNamespaceLockedCommon bnc env w ns readOnly namespaceObj ipsGetter
        configureNamespace).world.heap r =
        (match (lookupNamespace env ns namespaceObj).1 with
         | none =>
           { addressSet := (env.NewAddressSet (getNamespaceAddrSetDbIDs ns bnc.controllerName)
               (ipsGetter ns)).1,
             relatedNetworkPolicies := [], routingExternalGWs := ⟨[], false⟩,
             routingExternalPodGWs := [], multicastEnabled := false, aclLogging := ⟨"", ""⟩ }
         | some n =>
           (configureNamespace
             { addressSet := (env.NewAddressSet (getNamespaceAddrSetDbIDs ns bnc.controllerName)
                 (ipsGetter ns)).1,
               relatedNetworkPolicies := [], routingExternalGWs := ⟨[], false⟩,
               routingExternalPodGWs := [], multicastEnabled := false,
               aclLogging := ⟨"", ""⟩ } n).1) ∧
      (ensureNamespaceLockedCommon bnc env w ns readOnly namespaceObj ipsGetter
        configureNamespace).trace.take 3 =
        [Event.namespacesMutexLock, Event.ipsGetter ns,
          Event.NewAddressSet (getNamespaceAddrSetDbIDs ns bnc.controllerName) (ipsGetter ns)] ∧
      (lockOps (ensureNamespaceLockedCommon bnc env w ns readOnly namespaceObj ipsGetter
          configureNamespace).trace =
          [Event.namespacesMutexLock, lockEvent readOnly r, Event.namespacesMutexUnlock] ∨
        lockOps (ensureNamespaceLockedCommon bnc env w ns readOnly namespaceObj ipsGetter
          configureNamespace).trace =
          [Event.namespacesMutexLock, lockEvent readOnly r, (mkUnlockFunc readOnly r).call,
            Event.namespacesMutexUnlock])) := by
  have hfail : ∀ e, (env.NewAddressSet (getNamespaceAddrSetDbIDs ns bnc.controllerName)
        (ipsGetter ns)).2 = some e →
      (ensureNamespaceLockedCommon bnc env w ns readOnly namespaceObj ipsGetter
        configureNamespace).world.namespaces = w.namespaces ∧
      (ensureNamespaceLockedCommon bnc env w ns readOnly namespaceObj ipsGetter
        configureNamespace).nsInfo = none ∧
      (ensureNamespaceLockedCommon bnc env w ns readOnly namespaceObj ipsGetter
        configureNamespace).err =
        some ("failed to create address set for namespace: " ++ ns ++ ", error: " ++ e) ∧
      (ensureNamespaceLockedCommon bnc env w ns readOnly namespaceObj ipsGetter
        configureNamespace).trace =
        [Event.namespacesMutexLock, Event.ipsGetter ns,
          Event.NewAddressSet (getNamespaceAddrSetDbIDs ns bnc.controllerName) (ipsGetter ns),
          Event.namespacesMutexUnlock] := by
    intro e he
    unfold ensureNamespaceLockedCommon
    simp only [hnew, createNamespaceAddrSetAllPods, he]
    exact ⟨trivial, trivial, trivial, rfl⟩
  refine ⟨hfail, ?_⟩
  intro r hr
  rcases hc : (env.NewAddressSet (getNamespaceAddrSetDbIDs ns bnc.controllerName)
      (ipsGetter ns)).2 with _ | e
  · have hops := ensureNamespaceLockedCommon_lockOps_create bnc env w ns readOnly namespaceObj
      ipsGetter configureNamespace hnew
    unfold ensureNamespaceLockedCommon at hr hops ⊢
    simp only [hnew, createNamespaceAddrSetAllPods, hc] at hr hops ⊢
    rw [ensureConfigure_namespaces] at hr
    simp only [Function.update_same, Option.some.injEq] at hr
    subst hr
    refine ⟨trivial, rfl, ?_, ?_, ?_⟩
    · rw [ensureConfigure_heap]
      simp
    · obtain ⟨rest, hrest⟩ := ensureConfigure_trace_prefix env
        { namespaces := Function.update w.namespaces ns (some w.nextRef),
          heap := Function.update w.heap w.nextRef
            { addressSet := (env.NewAddressSet (getNamespaceAddrSetDbIDs ns bnc.controllerName)
                (ipsGetter ns)).1,
              relatedNetworkPolicies := [], routingExternalGWs := ⟨[], false⟩,
              routingExternalPodGWs := [], multicastEnabled := false, aclLogging := ⟨"", ""⟩ },
          nextRef := w.nextRef + 1 }
        ([Event.namespacesMutexLock] ++ [Event.ipsGetter ns] ++
          [Event.NewAddressSet (getNamespaceAddrSetDbIDs ns bnc.controllerName) (ipsGetter ns)] ++
          [lockEvent readOnly w.nextRef])
        ns namespaceObj configureNamespace w.nextRef (mkUnlockFunc readOnly w.nextRef)
      rw [hrest]
      rfl
    · rcases hops with h | h | h
      · exfalso
        have hl := congrArg List.length h
        obtain ⟨rest, hrest⟩ := ensureConfigure_trace_prefix env
          { namespaces := Function.update w.namespaces ns (some w.nextRef),
            heap := Function.update w.heap w.nextRef
              { addressSet := (env.NewAddressSet (getNamespaceAddrSetDbIDs ns bnc.controllerName)
                  (ipsGetter ns)).1,
                relatedNetworkPolicies := [], routingExternalGWs := ⟨[], false⟩,
                routingExternalPodGWs := [], multicastEnabled := false, aclLogging := ⟨"", ""⟩ },
            nextRef := w.nextRef + 1 }
          ([Event.namespacesMutexLock] ++ [Event.ipsGetter ns] ++
            [Event.NewAddressSet (getNamespaceAddrSetDbIDs ns bnc.controllerName) (ipsGetter ns)] ++
            [lockEvent readOnly w.nextRef])
          ns namespaceObj configureNamespace w.nextRef (mkUnlockFunc readOnly w.nextRef)
        rw [hrest] at h
        cases readOnly <;> simp [lockOps, lockEvent, List.filter_cons] at h
      · exact Or.inl h
      · exact Or.inr h
  · exfalso
    rw [(hfail e hc).1, hnew] at hr
    exact Option.noConfusion hr

/-- An instance of the previous theorem: with an unreachable store the first
ensure of `ns1` inserts nothing. -/
theorem ensureNamespaceLockedCommon_insert_after_create_witness :
    emptyWorld.namespaces "ns1" = none ∧
    (ensureNamespaceLockedCommon sampleController failingFactoryEnvironment emptyWorld "ns1"
      false none sampleIpsGetter sampleConfigure).world.namespaces = emptyWorld.namespaces ∧
    (ensureNamespaceLockedCommon sampleController failingFactoryEnvironment emptyWorld "ns1"
      false none sampleIpsGetter sampleConfigure).nsInfo = none :=
  have h := (ensureNamespaceLockedCommon_insert_after_create sampleController
    failingFactoryEnvironment emptyWorld "ns1" false none sampleIpsGetter sampleConfigure rfl).1
    "connection refused" rfl
  ⟨rfl, h.1, h.2.1⟩

/-- A call that finds no entry for the name calls the address-set factory
exactly once, whether or not the factory succeeds. -/
theorem ensureNamespaceLockedCommon_new_calls_factory {AS : Type} (bnc : BaseNetworkController)
    (env : Environment AS) (w : World AS) (ns : String) (readOnly : Bool)
    (namespaceObj : Option Namespace) (ipsGetter : String → List IP)
    (configureNamespace : namespaceInfo AS → Namespace → namespaceInfo AS × Option String)
    (hnew : w.namespaces ns = none) :
    newAddressSetCalls (ensureNamespaceLockedCommon bnc env w ns readOnly namespaceObj ipsGetter
      configureNamespace).trace =
      [Event.NewAddressSet (getNamespaceAddrSetDbIDs ns bnc.controllerName) (ipsGetter ns)] := by
  unfold ensureNamespaceLockedCommon
  simp only [hnew]
  rcases hc : (env.NewAddressSet (getNamespaceAddrSetDbIDs ns bnc.controllerName)
      (ipsGetter ns)).2 with _ | e
  · simp only [createNamespaceAddrSetAllPods, hc]
    rw [ensureConfigure_newAddressSetCalls]
    cases readOnly <;> rfl
  · simp only [createNamespaceAddrSetAllPods, hc]
    rfl

/-- C14 (counterexample): two ensure calls for `ns1`, the second one waiting for
the table-wide lock until the first returns. The address-set factory fails for
the first call, so nothing is inserted, and the second call takes the
create-new-entry branch as well: both call the factory. -/
theorem ensureNamespaceLockedCommon_both_create :
    newAddressSetCalls (ensureNamespaceLockedCommon sampleController failingFactoryEnvironment
      emptyWorld "ns1" false none sampleIpsGetter sampleConfigure).trace =
      [Event.NewAddressSet (sampleRow "ns1") [[10, 128, 0, 5]]] ∧
    newAddressSetCalls (ensureNamespaceLockedCommon sampleController failingFactoryEnvironment
      (ensureNamespaceLockedCommon sampleController failingFactoryEnvironment
        emptyWorld "ns1" false none sampleIpsGetter sampleConfigure).world
      "ns1" false none sampleIpsGetter sampleConfigure).trace =
      [Event.NewAddressSet (sampleRow "ns1") [[10, 128, 0, 5]]] := by
  decide

/-- C14 (amended): take a call of `ensureNamespaceLockedCommon` that finds no
entry for the name, and a second call for the same name that gets the
table-wide lock next, so that it starts from the shared state the first one
left. The first call takes the table-wide lock first and releases it last, with no
other table-wide lock operation in between.
If its address-set creation succeeds, the table maps the name to the new entry
and the second call, whatever its arguments, observes the entry as existing: it
does not call the address-set factory and releases the table-wide lock right
after the lookup. If address-set creation fails, the table still has no entry
for the name and the second call takes the create branch too. -/
theorem ensureNamespaceLockedCommon_one_creator {AS : Type} (bnc : BaseNetworkController)
    (env : Environment AS) (w : World AS) (ns : String) (readOnly : Bool)
    (namespaceObj : Option Namespace) (ipsGetter : String → List IP)
    (configureNamespace : namespaceInfo AS → Namespace → namespaceInfo AS × Option String)
    (env2 : Environment AS) (readOnly2 : Bool) (namespaceObj2 : Option Namespace)
    (ipsGetter2 : String → List IP)
    (configureNamespace2 : namespaceInfo AS → Namespace → namespaceInfo AS × Option String)
    (hnew : w.namespaces ns = none) :
    (lockOps (ensureNamespaceLockedCommon bnc env w ns readOnly namespaceObj ipsGetter
        configureNamespace).trace = [Event.namespacesMutexLock, Event.namespacesMutexUnlock] ∨
      lockOps (ensureNamespaceLockedCommon bnc env w ns readOnly namespaceObj ipsGetter
        configureNamespace).trace =
        [Event.namespacesMutexLock, lockEvent readOnly w.nextRef, Event.namespacesMutexUnlock] ∨
      lockOps (ensureNamespaceLockedCommon bnc env w ns readOnly namespaceObj ipsGetter
        configureNamespace).trace =
        [Event.namespacesMutexLock, lockEvent readOnly w.nextRef,
          (mkUnlockFunc readOnly w.nextRef).call, Event.namespacesMutexUnlock]) ∧
    ((env.NewAddressSet (getNamespaceAddrSetDbIDs ns bnc.controllerName) (ipsGetter ns)).2 = none →
      (ensureNamespaceLockedCommon bnc env w ns readOnly namespaceObj ipsGetter
        configureNamespace).world.namespaces ns = some w.nextRef ∧
      newAddressSetCalls (ensureNamespaceLockedCommon bnc env2
        (ensureNamespaceLockedCommon bnc env w ns readOnly namespaceObj ipsGetter
          configureNamespace).world
        ns readOnly2 namespaceObj2 ipsGetter2 configureNamespace2).trace = [] ∧
      (lockOps (ensureNamespaceLockedCommon bnc env2
        (ensureNamespaceLockedCommon bnc env w ns readOnly namespaceObj ipsGetter
          configureNamespace).world
        ns readOnly2 namespaceObj2 ipsGetter2 configureNamespace2).trace).take 3 =
        [Event.namespacesMutexLock, Event.namespacesMutexUnlock,
          lockEvent readOnly2 w.nextRef]) ∧
    ((env.NewAddressSet (getNamespaceAddrSetDbIDs ns bnc.controllerName) (ipsGetter ns)).2 ≠ none →
      (ensureNamespaceLockedCommon bnc env w ns readOnly namespaceObj ipsGetter
        configureNamespace).world.namespaces ns = none ∧
      newAddressSetCalls (ensureNamespaceLockedCommon bnc env2
        (ensureNamespaceLockedCommon bnc env w ns readOnly namespaceObj ipsGetter
          configureNamespace).world
        ns readOnly2 namespaceObj2 ipsGetter2 configureNamespace2).trace =
        [Event.NewAddressSet (getNamespaceAddrSetDbIDs ns bnc.controllerName)
          (ipsGetter2 ns)]) := by
  have hA1 : (env.NewAddressSet (getNamespaceAddrSetDbIDs ns bnc.controllerName)
      (ipsGetter ns)).2 = none →
      (ensureNamespaceLockedCommon bnc env w ns readOnly namespaceObj ipsGetter
        configureNamespace).world.namespaces ns = some w.nextRef := by
    intro hc
    unfold ensureNamespaceLockedCommon
    simp only [hnew, createNamespaceAddrSetAllPods, hc]
    rw [ensureConfigure_namespaces]
    exact Function.update_same _ _ _
  have hA2 : (env.NewAddressSet (getNamespaceAddrSetDbIDs ns bnc.controllerName)
      (ipsGetter ns)).2 ≠ none →
      (ensureNamespaceLockedCommon bnc env w ns readOnly namespaceObj ipsGetter
        configureNamespace).world.namespaces ns = none := by
    intro hc
    rcases he : (env.NewAddressSet (getNamespaceAddrSetDbIDs ns bnc.controllerName)
      (ipsGetter ns)).2 with _ | e
    · exact absurd he hc
    · unfold ensureNamespaceLockedCommon
      simp only [hnew, createNamespaceAddrSetAllPods, he]
  refine ⟨?_, ?_, ?_⟩
  · exact ensureNamespaceLockedCommon_lockOps_create bnc env w ns readOnly namespaceObj ipsGetter
      configureNamespace hnew
  · intro hc
    refine ⟨hA1 hc, ?_, ?_⟩
    · exact ensureNamespaceLockedCommon_existing_no_create bnc env2 _ ns readOnly2 namespaceObj2
        ipsGetter2 configureNamespace2 w.nextRef (hA1 hc)
    · rcases ensureNamespaceLockedCommon_lockOps_existing bnc env2 _ ns readOnly2 namespaceObj2
        ipsGetter2 configureNamespace2 w.nextRef (hA1 hc) with h | h <;> rw [h] <;> rfl
  · intro hc
    exact ⟨hA2 hc, ensureNamespaceLockedCommon_new_calls_factory bnc env2 _ ns readOnly2
      namespaceObj2 ipsGetter2 configureNamespace2 (hA2 hc)⟩

/-- An instance of the previous theorem: after a successful first ensure of
`ns1`, a second, read-only ensure finds the entry. -/
theorem ensureNamespaceLockedCommon_one_creator_witness :
    emptyWorld.namespaces "ns1" = none ∧
    (ensureNamespaceLockedCommon sampleController quietEnvironment emptyWorld "ns1" false none
      sampleIpsGetter sampleConfigure).world.namespaces "ns1" = some 0 ∧
    newAddressSetCalls (ensureNamespaceLockedCommon sampleController quietEnvironment
      (ensureNamespaceLockedCommon sampleController quietEnvironment emptyWorld "ns1" false none
        sampleIpsGetter sampleConfigure).world
      "ns1" true none sampleIpsGetter sampleConfigure).trace = [] :=
  have h := (ensureNamespaceLockedCommon_one_creator sampleController quietEnvironment emptyWorld
    "ns1" false none sampleIpsGetter sampleConfigure quietEnvironment true none sampleIpsGetter
    sampleConfigure rfl).2.1 rfl
  ⟨rfl, h.1, h.2.1⟩

/-! ## Theorems: `syncNamespaces` -/

/-- One visit of an address set whose namespace is expected. -/
theorem syncVisit_expected (destroyErr : DbObjectIDs → Option String) (expectedNs : List String)
    (s : AddressSetRows) (d : DbObjectIDs)
    (ho : expectedNs.contains (d.GetObjectID ExternalIDKey.ObjectNameKey) = true) :
    syncVisit destroyErr expectedNs s d = (s, none) := by
  simp only [syncVisit, ho, Bool.not_true, Bool.false_eq_true, if_false]

/-- One visit of an orphan that the store destroys. -/
theorem syncVisit_destroyed (destroyErr : DbObjectIDs → Option String) (expectedNs : List String)
    (s : AddressSetRows) (d : DbObjectIDs)
    (ho : expectedNs.contains (d.GetObjectID ExternalIDKey.ObjectNameKey) = false)
    (he : destroyErr d = none) :
    syncVisit destroyErr expectedNs s d =
      ({ rows := s.rows.filter (fun row => row != d), destroyed := s.destroyed ++ [d] }, none) := by
  simp only [syncVisit, ho, Bool.not_false, if_true, DestroyAddressSet, he]

/-- One visit of an orphan that the store fails to destroy. -/
theorem syncVisit_failed (destroyErr : DbObjectIDs → Option String) (expectedNs : List String)
    (s : AddressSetRows) (d : DbObjectIDs) (e : String)
    (ho : expectedNs.contains (d.GetObjectID ExternalIDKey.ObjectNameKey) = false)
    (he : destroyErr d = some e) :
    syncVisit destroyErr expectedNs s d = (s, some e) := by
  simp only [syncVisit, ho, Bool.not_false, if_true, DestroyAddressSet, he]

/-- What the loop destroys, for an expected head. -/
theorem destroyedBy_expected (destroyErr : DbObjectIDs → Option String) (expectedNs : List String)
    (d : DbObjectIDs) (rest : List DbObjectIDs)
    (ho : expectedNs.contains (d.GetObjectID ExternalIDKey.ObjectNameKey) = true) :
    destroyedBy destroyErr expectedNs (d :: rest) = destroyedBy destroyErr expectedNs rest := by
  simp only [destroyedBy, ho, Bool.not_true, Bool.false_eq_true, if_false]

/-- What the loop destroys, for an orphan head that the store destroys. -/
theorem destroyedBy_destroyed (destroyErr : DbObjectIDs → Option String)
    (expectedNs : List String) (d : DbObjectIDs) (rest : List DbObjectIDs)
    (ho : expectedNs.contains (d.GetObjectID ExternalIDKey.ObjectNameKey) = false)
    (he : destroyErr d = none) :
    destroyedBy destroyErr expectedNs (d :: rest) =
      d :: destroyedBy destroyErr expectedNs rest := by
  simp only [destroyedBy, ho, Bool.not_false, if_true, he]

/-- What the loop destroys, for an orphan head that the store fails to destroy. -/
theorem destroyedBy_failed (destroyErr : DbObjectIDs → Option String) (expectedNs : List String)
    (d : DbObjectIDs) (rest : List DbObjectIDs) (e : String)
    (ho : expectedNs.contains (d.GetObjectID ExternalIDKey.ObjectNameKey) = false)
    (he : destroyErr d = some e) :
    destroyedBy destroyErr expectedNs (d :: rest) = [] := by
  simp only [destroyedBy, ho, Bool.not_false, if_true, he]

/-- The store after the loop of `ProcessEachAddressSet`, and what it destroyed. -/
theorem processEach_syncVisit (destroyErr : DbObjectIDs → Option String)
    (expectedNs : List String) (visited : List DbObjectIDs) (s : AddressSetRows) :
    (processEach (syncVisit destroyErr expectedNs) visited s).1 =
      { rows := s.rows.filter
          (fun row => !(destroyedBy destroyErr expectedNs visited).contains row),
        destroyed := s.destroyed ++ destroyedBy destroyErr expectedNs visited } := by
  induction visited generalizing s with
  | nil => simp [processEach, destroyedBy]
  | cons d rest ih =>
    rw [processEach]
    rcases ho : expectedNs.contains (d.GetObjectID ExternalIDKey.ObjectNameKey) with _ | _
    · rcases he : destroyErr d with _ | e
      · rw [syncVisit_destroyed destroyErr expectedNs s d ho he,
          destroyedBy_destroyed destroyErr expectedNs d rest ho he]
        simp only [ih, List.filter_filter, List.append_assoc, List.singleton_append]
        congr 1
        apply List.filter_congr
        intro row _
        by_cases hrd : row = d <;> simp [hrd]
      · rw [syncVisit_failed destroyErr expectedNs s d e ho he,
          destroyedBy_failed destroyErr expectedNs d rest e ho he]
        simp
    · rw [syncVisit_expected destroyErr expectedNs s d ho,
        destroyedBy_expected destroyErr expectedNs d rest ho]
      exact ih s

/-- Without destroy failures the loop of `ProcessEachAddressSet` reports no
error. -/
theorem processEach_syncVisit_ok (destroyErr : DbObjectIDs → Option String)
    (expectedNs : List String) (visited : List DbObjectIDs) (s : AddressSetRows)
    (hok : ∀ d, destroyErr d = none) :
    (processEach (syncVisit destroyErr expectedNs) visited s).2 = none := by
  induction visited generalizing s with
  | nil => rfl
  | cons d rest ih =>
    rw [processEach]
    rcases ho : expectedNs.contains (d.GetObjectID ExternalIDKey.ObjectNameKey) with _ | _
    · rw [syncVisit_destroyed destroyErr expectedNs s d ho (hok d)]
      exact ih _
    · rw [syncVisit_expected destroyErr expectedNs s d ho]
      exact ih s

/-- Without destroy failures the loop destroys every orphan it visits. -/
theorem destroyedBy_ok (destroyErr : DbObjectIDs → Option String) (expectedNs : List String)
    (visited : List DbObjectIDs) (hok : ∀ d, destroyErr d = none) :
    destroyedBy destroyErr expectedNs visited =
      visited.filter
        (fun row => !expectedNs.contains (row.GetObjectID ExternalIDKey.ObjectNameKey)) := by
  induction visited with
  | nil => rfl
  | cons d rest ih =>
    rcases ho : expectedNs.contains (d.GetObjectID ExternalIDKey.ObjectNameKey) with _ | _
    · rw [destroyedBy_destroyed destroyErr expectedNs d rest ho (hok d), ih,
        List.filter_cons_of_pos (by simp only [ho, Bool.not_false])]
    · rw [destroyedBy_expected destroyErr expectedNs d rest ho, ih,
        List.filter_cons_of_neg (by simp only [ho, Bool.not_true, Bool.false_eq_true,
          not_false_eq_true])]

/-- Everything the loop destroys was visited, is an orphan, and could be
destroyed. -/
theorem destroyedBy_mem (destroyErr : DbObjectIDs → Option String) (expectedNs : List String)
    (visited : List DbObjectIDs) (x : DbObjectIDs)
    (hx : x ∈ destroyedBy destroyErr expectedNs visited) :
    x ∈ visited ∧ expectedNs.contains (x.GetObjectID ExternalIDKey.ObjectNameKey) = false ∧
      destroyErr x = none := by
  induction visited with
  | nil => simp [destroyedBy] at hx
  | cons d rest ih =>
    rcases ho : expectedNs.contains (d.GetObjectID ExternalIDKey.ObjectNameKey) with _ | _
    · rcases he : destroyErr d with _ | e
      · rw [destroyedBy_destroyed destroyErr expectedNs d rest ho he, List.mem_cons] at hx
        rcases hx with hx | hx
        · subst hx
          exact ⟨List.mem_cons_self _ _, ho, he⟩
        · have h := ih hx
          exact ⟨List.mem_cons_of_mem _ h.1, h.2⟩
      · rw [destroyedBy_failed destroyErr expectedNs d rest e ho he] at hx
        exact absurd hx (List.not_mem_nil _)
    · rw [destroyedBy_expected destroyErr expectedNs d rest ho] at hx
      have h := ih hx
      exact ⟨List.mem_cons_of_mem _ h.1, h.2⟩

/-- Once the address sets in `removed` are gone, the loop destroys nothing:
it meets no orphan before the one whose destruction fails. -/
theorem destroyedBy_filter_nil (destroyErr : DbObjectIDs → Option String)
    (expectedNs : List String) (visited removed : List DbObjectIDs)
    (hremoved : ∀ x ∈ removed,
      expectedNs.contains (x.GetObjectID ExternalIDKey.ObjectNameKey) = false ∧
        destroyErr x = none)
    (hsub : ∀ x ∈ destroyedBy destroyErr expectedNs visited, x ∈ removed) :
    destroyedBy destroyErr expectedNs (visited.filter fun row => !removed.contains row) = [] := by
  induction visited with
  | nil => rfl
  | cons d rest ih =>
    rcases ho : expectedNs.contains (d.GetObjectID ExternalIDKey.ObjectNameKey) with _ | _
    · rcases he : destroyErr d with _ | e
      · rw [destroyedBy_destroyed destroyErr expectedNs d rest ho he] at hsub
        have hd : d ∈ removed := hsub d (List.mem_cons_self _ _)
        rw [List.filter_cons_of_neg (by simp [hd])]
        exact ih (fun x hx => hsub x (List.mem_cons_of_mem _ hx))
      · have hd : d ∉ removed := fun hm => by
          have h2 := (hremoved d hm).2
          rw [he] at h2
          exact Option.noConfusion h2
        rw [List.filter_cons_of_pos (by simp [hd])]
        exact destroyedBy_failed destroyErr expectedNs d _ e ho he
    · rw [destroyedBy_expected destroyErr expectedNs d rest ho] at hsub
      have hd : d ∉ removed := fun hm => by
        have h1 := (hremoved d hm).1
        rw [ho] at h1
        exact Bool.noConfusion h1
      rw [List.filter_cons_of_pos (by simp [hd]),
        destroyedBy_expected destroyErr expectedNs d _ ho]
      exact ih hsub

/-- Lines 148-159 on a list of namespace objects: no error, and the keys of
the two maps. -/
theorem collectNamespaces_namespaces (bnc : BaseNetworkController) (namespaces : List Namespace)
    (acc : List String × List String) :
    collectNamespaces bnc (namespaces.map SyncObject.namespaceObject) acc =
      Except.ok (acc.1 ++ namespaceNames namespaces, acc.2 ++ multicastNames bnc namespaces) := by
  induction namespaces generalizing acc with
  | nil => simp [collectNamespaces, namespaceNames, multicastNames]
  | cons n rest ih =>
    simp only [List.map_cons, collectNamespaces]
    rw [ih]
    by_cases hm : (bnc.multicastSupport && isNamespaceMulticastEnabled n.Annotations) = true
    · simp [namespaceNames, multicastNames, List.filter_cons, hm]
    · simp [namespaceNames, multicastNames, List.filter_cons, hm]

/-- The address-set store after `syncNamespaces` and the address sets it
destroyed, when every object in the list is a namespace. -/
theorem syncNamespaces_rows (bnc : BaseNetworkController)
    (destroyErr : DbObjectIDs → Option String) (syncNsMulticast : List String → Option String)
    (rows : List DbObjectIDs) (namespaces : List SyncObject) (expectedNs multicast : List String)
    (hcollect : collectNamespaces bnc namespaces ([], []) = Except.ok (expectedNs, multicast)) :
    (syncNamespaces bnc destroyErr syncNsMulticast rows namespaces).rows =
      rows.filter (fun row => !(destroyedBy destroyErr expectedNs
        (rows.filter (isNamespaceAddressSet bnc))).contains row) ∧
    (syncNamespaces bnc destroyErr syncNsMulticast rows namespaces).destroyed =
      destroyedBy destroyErr expectedNs (rows.filter (isNamespaceAddressSet bnc)) := by
  have hp := processEach_syncVisit destroyErr expectedNs (rows.filter (isNamespaceAddressSet bnc))
    { rows := rows, destroyed := [] }
  have hfil : (rows.filter fun row =>
      row.ownerControllerName == bnc.controllerName &&
        row.idsType == ObjectIDsType.AddressSetNamespace) =
      rows.filter (isNamespaceAddressSet bnc) := rfl
  unfold syncNamespaces
  simp only [hcollect, ProcessEachAddressSet, hfil]
  split
  · simp only [hp, List.nil_append, and_self]
  · split
    · split <;> simp only [hp, List.nil_append, and_self]
    · simp only [hp, List.nil_append, and_self]

/-- C15: given a list of namespace objects and a store in which no destroy
fails, `syncNamespaces` destroys exactly the address sets of this controller's
namespace owner kind whose object name is not the name of a given namespace:
the destroyed address sets are those rows, in store order, the store
afterwards is the store without them, and no address set whose name is in the
list is destroyed or missing afterwards. -/
theorem syncNamespaces_destroys_orphans (bnc : BaseNetworkController)
    (destroyErr : DbObjectIDs → Option String) (syncNsMulticast : List String → Option String)
    (rows : List DbObjectIDs) (namespaces : List Namespace)
    (hok : ∀ d, destroyErr d = none) :
    (syncNamespaces bnc destroyErr syncNsMulticast rows
        (namespaces.map SyncObject.namespaceObject)).destroyed =
      rows.filter (fun row => isNamespaceAddressSet bnc row &&
        !(namespaceNames namespaces).contains (row.GetObjectID ExternalIDKey.ObjectNameKey)) ∧
    (syncNamespaces bnc destroyErr syncNsMulticast rows
        (namespaces.map SyncObject.namespaceObject)).rows =
      rows.filter (fun row => !(isNamespaceAddressSet bnc row &&
        !(namespaceNames namespaces).contains (row.GetObjectID ExternalIDKey.ObjectNameKey))) ∧
    (∀ row, (namespaceNames namespaces).contains
        (row.GetObjectID ExternalIDKey.ObjectNameKey) = true →
      row ∉ (syncNamespaces bnc destroyErr syncNsMulticast rows
        (namespaces.map SyncObject.namespaceObject)).destroyed ∧
      (row ∈ rows → row ∈ (syncNamespaces bnc destroyErr syncNsMulticast rows
        (namespaces.map SyncObject.namespaceObject)).rows)) := by
  have hcollect : collectNamespaces bnc (namespaces.map SyncObject.namespaceObject) ([], []) =
      Except.ok (namespaceNames namespaces, multicastNames bnc namespaces) := by
    rw [collectNamespaces_namespaces]
    simp
  have hr := syncNamespaces_rows bnc destroyErr syncNsMulticast rows
    (namespaces.map SyncObject.namespaceObject) _ _ hcollect
  rw [destroyedBy_ok destroyErr _ _ hok, List.filter_filter] at hr
  have hd : (syncNamespaces bnc destroyErr syncNsMulticast rows
        (namespaces.map SyncObject.namespaceObject)).destroyed =
      rows.filter (fun row => isNamespaceAddressSet bnc row &&
        !(namespaceNames namespaces).contains (row.GetObjectID ExternalIDKey.ObjectNameKey)) := by
    rw [hr.2]
    apply List.filter_congr
    intro row _
    exact Bool.and_comm _ _
  have hrows : (syncNamespaces bnc destroyErr syncNsMulticast rows
        (namespaces.map SyncObject.namespaceObject)).rows =
      rows.filter (fun row => !(isNamespaceAddressSet bnc row &&
        !(namespaceNames namespaces).contains (row.GetObjectID ExternalIDKey.ObjectNameKey))) := by
    rw [hr.1]
    apply List.filter_congr
    intro row hrow
    by_cases h1 : isNamespaceAddressSet bnc row = true <;>
      by_cases h2 : (namespaceNames namespaces).contains
        (row.GetObjectID ExternalIDKey.ObjectNameKey) = true <;>
      simp_all
  refine ⟨hd, hrows, ?_⟩
  intro row hin
  have hin2 : row.GetObjectID ExternalIDKey.ObjectNameKey ∈ namespaceNames namespaces := by
    simpa using hin
  constructor
  · rw [hd]
    simp [hin2]
  · intro hrow
    rw [hrows]
    simp [hrow, hin2]

/-- An instance of the previous theorem: of three address sets, the one of a
namespace that no longer exists is destroyed. -/
theorem syncNamespaces_destroys_orphans_witness :
    (syncNamespaces sampleController (fun _ => none) (fun _ => none)
      [sampleRow "ns1", sampleRow "gone", sampleRow "ns2"]
      ([⟨"ns1", []⟩, ⟨"ns2", []⟩].map SyncObject.namespaceObject)).destroyed =
      [sampleRow "gone"] ∧
    (syncNamespaces sampleController (fun _ => none) (fun _ => none)
      [sampleRow "ns1", sampleRow "gone", sampleRow "ns2"]
      ([⟨"ns1", []⟩, ⟨"ns2", []⟩].map SyncObject.namespaceObject)).rows =
      [sampleRow "ns1", sampleRow "ns2"] :=
  have h := syncNamespaces_destroys_orphans sampleController (fun _ => none) (fun _ => none)
    [sampleRow "ns1", sampleRow "gone", sampleRow "ns2"] [⟨"ns1", []⟩, ⟨"ns2", []⟩]
    (fun _ => rfl)
  ⟨h.1.trans (by decide), h.2.1.trans (by decide)⟩

/-- C16: running `syncNamespaces` a second time with the same list, on the
store the first run left, leaves that store as it is and destroys nothing;
this holds for every list (also one with a spurious object) and every store
(also one in which some destroy fails). -/
theorem syncNamespaces_idempotent (bnc : BaseNetworkController)
    (destroyErr : DbObjectIDs → Option String) (syncNsMulticast : List String → Option String)
    (rows : List DbObjectIDs) (namespaces : List SyncObject) :
    (syncNamespaces bnc destroyErr syncNsMulticast
        (syncNamespaces bnc destroyErr syncNsMulticast rows namespaces).rows namespaces).rows =
      (syncNamespaces bnc destroyErr syncNsMulticast rows namespaces).rows ∧
    (syncNamespaces bnc destroyErr syncNsMulticast
        (syncNamespaces bnc destroyErr syncNsMulticast rows namespaces).rows
        namespaces).destroyed = [] := by
  rcases hcollect : collectNamespaces bnc namespaces ([], []) with e | ⟨expectedNs, multicast⟩
  · unfold syncNamespaces
    simp only [hcollect, and_self]
  · have h1 := syncNamespaces_rows bnc destroyErr syncNsMulticast rows namespaces _ _ hcollect
    have h2 := syncNamespaces_rows bnc destroyErr syncNsMulticast
      (syncNamespaces bnc destroyErr syncNsMulticast rows namespaces).rows namespaces _ _ hcollect
    have hnil : destroyedBy destroyErr expectedNs
        ((syncNamespaces bnc destroyErr syncNsMulticast rows namespaces).rows.filter
          (isNamespaceAddressSet bnc)) = [] := by
      rw [h1.1, List.filter_filter]
      have hcomm : (rows.filter fun a => isNamespaceAddressSet bnc a &&
            !(destroyedBy destroyErr expectedNs
              (rows.filter (isNamespaceAddressSet bnc))).contains a) =
          (rows.filter (isNamespaceAddressSet bnc)).filter fun row =>
            !(destroyedBy destroyErr expectedNs
              (rows.filter (isNamespaceAddressSet bnc))).contains row := by
        rw [List.filter_filter]
        apply List.filter_congr
        intro row _
        exact Bool.and_comm _ _
      rw [hcomm]
      exact destroyedBy_filter_nil destroyErr expectedNs _ _
        (fun x hx => (destroyedBy_mem destroyErr expectedNs _ x hx).2) (fun x hx => hx)
    rw [hnil] at h2
    refine ⟨?_, h2.2⟩
    rw [h2.1]
    simp

/-- An instance of the previous theorem in which the destroy of one orphan
fails: the second run changes nothing. -/
theorem syncNamespaces_idempotent_example :
    (syncNamespaces sampleController
      (fun d => if d = sampleRow "stuck" then some "connection refused" else none) (fun _ => none)
      [sampleRow "gone", sampleRow "stuck", sampleRow "ns1", sampleRow "late"]
      [SyncObject.namespaceObject ⟨"ns1", []⟩]).rows =
      [sampleRow "stuck", sampleRow "ns1", sampleRow "late"] ∧
    (syncNamespaces sampleController
      (fun d => if d = sampleRow "stuck" then some "connection refused" else none) (fun _ => none)
      [sampleRow "stuck", sampleRow "ns1", sampleRow "late"]
      [SyncObject.namespaceObject ⟨"ns1", []⟩]).destroyed = [] := by
  decide

/-! ## Theorems: multicast and namespace configuration -/

/-- C17: if multicast support is off, or the multicast flag derived from the
annotations of the namespace equals `nsInfo.multicastEnabled`,
`multicastUpdateNamespace` returns nil, issues no store operation (neither
`createMulticastAllowPolicy` nor `deleteMulticastAllowPolicy`) and leaves
`nsInfo` unchanged. -/
theorem multicastUpdateNamespace_unchanged {AS : Type} (bnc : BaseNetworkController)
    (store : PolicyStore AS) (ns : Namespace) (nsInfo : namespaceInfo AS)
    (h : bnc.multicastSupport = false ∨
      isNamespaceMulticastEnabled ns.Annotations = nsInfo.multicastEnabled) :
    (multicastUpdateNamespace bnc store ns nsInfo).err = none ∧
    (multicastUpdateNamespace bnc store ns nsInfo).ops = [] ∧
    (multicastUpdateNamespace bnc store ns nsInfo).nsInfo = nsInfo := by
  unfold multicastUpdateNamespace
  rcases h with h | h
  · simp [h]
  · by_cases hs : bnc.multicastSupport = true
    · simp [hs, h]
    · simp [hs]

/-- An instance of the previous theorem: the annotation enables multicast and
the recorded flag is already on, while the store is unreachable. -/
theorem multicastUpdateNamespace_unchanged_witness :
    (sampleController.multicastSupport = false ∨
      isNamespaceMulticastEnabled multicastNamespace.Annotations =
        ({ zeroNsInfo with multicastEnabled := true } : namespaceInfo SampleAddressSet).multicastEnabled) ∧
    (multicastUpdateNamespace sampleController failingStore multicastNamespace
      { zeroNsInfo with multicastEnabled := true }).err = none ∧
    (multicastUpdateNamespace sampleController failingStore multicastNamespace
      { zeroNsInfo with multicastEnabled := true }).ops = [] :=
  have h := multicastUpdateNamespace_unchanged sampleController failingStore multicastNamespace
    { zeroNsInfo with multicastEnabled := true } (Or.inr (by decide))
  ⟨Or.inr (by decide), h.1, h.2.1⟩

/-- C18 (evaluation at a failing input): the annotation of `ns1` enables
multicast, the recorded flag is off and the store is unreachable.
`multicastUpdateNamespace` calls `createMulticastAllowPolicy`, returns its error,
and leaves the recorded flag switched on although no policy was created. When
the event is retried against a healthy store, the flag already equals the
desired value, so the call returns nil without any store operation: the policy
is never created. -/
theorem multicastUpdateNamespace_flag_set_before_store :
    zeroNsInfo.multicastEnabled = false ∧
    (multicastUpdateNamespace sampleController failingStore multicastNamespace zeroNsInfo).ops =
      [StoreOp.createMulticastAllowPolicy "ns1"] ∧
    (multicastUpdateNamespace sampleController failingStore multicastNamespace zeroNsInfo).err =
      some "connection refused" ∧
    (multicastUpdateNamespace sampleController failingStore multicastNamespace
      zeroNsInfo).nsInfo.multicastEnabled = true ∧
    (multicastUpdateNamespace sampleController healthyStore multicastNamespace
      (multicastUpdateNamespace sampleController failingStore multicastNamespace
        zeroNsInfo).nsInfo).ops = [] ∧
    (multicastUpdateNamespace sampleController healthyStore multicastNamespace
      (multicastUpdateNamespace sampleController failingStore multicastNamespace
        zeroNsInfo).nsInfo).err = none := by
  decide

/-- Whenever the store operation of `multicastUpdateNamespace` fails, the
recorded flag has already been overwritten with the desired value, which
differs from the value before the call. -/
theorem multicastUpdateNamespace_failure_flag {AS : Type} (bnc : BaseNetworkController)
    (store : PolicyStore AS) (ns : Namespace) (nsInfo : namespaceInfo AS)
    (herr : (multicastUpdateNamespace bnc store ns nsInfo).err ≠ none) :
    (multicastUpdateNamespace bnc store ns nsInfo).nsInfo.multicastEnabled =
      isNamespaceMulticastEnabled ns.Annotations ∧
    (multicastUpdateNamespace bnc store ns nsInfo).nsInfo.multicastEnabled ≠
      nsInfo.multicastEnabled := by
  unfold multicastUpdateNamespace at herr ⊢
  by_cases hs : bnc.multicastSupport = true
  · by_cases he : nsInfo.multicastEnabled = isNamespaceMulticastEnabled ns.Annotations
    · simp [hs, he] at herr
    · simp only [hs, Bool.not_true, Bool.false_eq_true, if_false, beq_iff_eq, he] at herr ⊢
      split <;> exact ⟨rfl, fun h => he h.symm⟩
  · simp [hs] at herr

/-- The multicast step of `configureNamespaceCommon` does not touch the ACL
logging severities. -/
theorem multicastUpdateNamespace_aclLogging {AS : Type} (bnc : BaseNetworkController)
    (store : PolicyStore AS) (ns : Namespace) (nsInfo : namespaceInfo AS) :
    (multicastUpdateNamespace bnc store ns nsInfo).nsInfo.aclLogging = nsInfo.aclLogging := by
  unfold multicastUpdateNamespace
  by_cases hs : bnc.multicastSupport = true
  · by_cases he : nsInfo.multicastEnabled = isNamespaceMulticastEnabled ns.Annotations
    · simp [hs, he]
    · simp only [hs, Bool.not_true, Bool.false_eq_true, if_false, beq_iff_eq, he]
      split <;> rfl
  · simp [hs]

/-- The three results of `configureNamespaceCommon` in terms of the multicast
step applied to the state left by the ACL logging step. -/
theorem configureNamespaceCommon_eq {AS : Type} (unmarshal : JsonUnmarshal)
    (bnc : BaseNetworkController) (store : PolicyStore AS) (nsInfo : namespaceInfo AS)
    (ns : Namespace) :
    (configureNamespaceCommon unmarshal bnc store nsInfo ns).nsInfo =
      (multicastUpdateNamespace bnc store ns (configureAclLogging unmarshal bnc nsInfo ns)).nsInfo ∧
    (configureNamespaceCommon unmarshal bnc store nsInfo ns).ops =
      (multicastUpdateNamespace bnc store ns (configureAclLogging unmarshal bnc nsInfo ns)).ops ∧
    (configureNamespaceCommon unmarshal bnc store nsInfo ns).err =
      ((multicastUpdateNamespace bnc store ns
        (configureAclLogging unmarshal bnc nsInfo ns)).err.map
          fun err => "failed to update multicast (" ++ err ++ ")") := by
  unfold configureNamespaceCommon
  rcases h : (multicastUpdateNamespace bnc store ns
      (configureAclLogging unmarshal bnc nsInfo ns)).err with _ | e
  · simp only [h, Option.map_none', and_self]
  · simp only [h, Option.map_some', and_self]

/-- C19 (counterexample): a namespace state whose severities are allow = debug
and deny = warning is configured with a namespace object that carries no ACL
logging annotation; both severities are still set afterwards. -/
theorem configureNamespaceCommon_absent_keeps_severities :
    multicastNamespace.Annotations.lookup AclLoggingAnnotation = none ∧
    loggingNsInfo.aclLogging = ⟨"debug", "warning"⟩ ∧
    (configureNamespaceCommon sampleUnmarshal sampleController healthyStore loggingNsInfo
      multicastNamespace).nsInfo.aclLogging = ⟨"debug", "warning"⟩ ∧
    (configureNamespaceCommon sampleUnmarshal sampleController healthyStore loggingNsInfo
      multicastNamespace).nsInfo.aclLogging.Allow ≠ "" ∧
    (configureNamespaceCommon sampleUnmarshal sampleController healthyStore loggingNsInfo
      multicastNamespace).nsInfo.aclLogging.Deny ≠ "" := by
  decide

/-- C19 (amended): `configureNamespaceCommon` applied with a namespace object
that carries no ACL logging annotation leaves both severities as they were; in
particular they are empty afterwards for a state in which they were empty. -/
theorem configureNamespaceCommon_absent_unchanged {AS : Type} (unmarshal : JsonUnmarshal)
    (bnc : BaseNetworkController) (store : PolicyStore AS) (nsInfo : namespaceInfo AS)
    (ns : Namespace) (habsent : ns.Annotations.lookup AclLoggingAnnotation = none) :
    (configureNamespaceCommon unmarshal bnc store nsInfo ns).nsInfo.aclLogging =
      nsInfo.aclLogging ∧
    (nsInfo.aclLogging = ⟨"", ""⟩ →
      (configureNamespaceCommon unmarshal bnc store nsInfo ns).nsInfo.aclLogging.Allow = "" ∧
      (configureNamespaceCommon unmarshal bnc store nsInfo ns).nsInfo.aclLogging.Deny = "") := by
  have h : (configureNamespaceCommon unmarshal bnc store nsInfo ns).nsInfo.aclLogging =
      nsInfo.aclLogging := by
    rw [(configureNamespaceCommon_eq unmarshal bnc store nsInfo ns).1,
      multicastUpdateNamespace_aclLogging]
    unfold configureAclLogging
    simp only [habsent]
  refine ⟨h, fun hz => ?_⟩
  rw [h, hz]
  exact ⟨rfl, rfl⟩

/-- An instance of the previous theorem: the severities of the state survive a
configure without the annotation. -/
theorem configureNamespaceCommon_absent_unchanged_witness :
    multicastNamespace.Annotations.lookup AclLoggingAnnotation = none ∧
    (configureNamespaceCommon sampleUnmarshal sampleController healthyStore loggingNsInfo
      multicastNamespace).nsInfo.aclLogging = loggingNsInfo.aclLogging :=
  ⟨by decide,
    (configureNamespaceCommon_absent_unchanged sampleUnmarshal sampleController healthyStore
      loggingNsInfo multicastNamespace (by decide)).1⟩

/-- C20: `configureNamespaceCommon` returns an error exactly when
`multicastUpdateNamespace` does, and that call is made on the state left by the
ACL logging step whatever `aclLoggingUpdateNsInfo` returned: when the annotation
is present, the multicast step runs on the state `aclLoggingUpdateNsInfo` left,
also when it returned an error. `updateNamespaceAclLogging` returns exactly the
error of `handleNetPolNamespaceUpdate`, which it calls once on the state left by
`aclLoggingUpdateNsInfo`. -/
theorem configureNamespaceCommon_acl_error_not_blocking {AS : Type} (unmarshal : JsonUnmarshal)
    (bnc : BaseNetworkController) (store : PolicyStore AS) (nsInfo : namespaceInfo AS)
    (ns : Namespace) (name aclAnnotation : String) :
    ((configureNamespaceCommon unmarshal bnc store nsInfo ns).err ≠ none ↔
      (multicastUpdateNamespace bnc store ns
        (configureAclLogging unmarshal bnc nsInfo ns)).err ≠ none) ∧
    (configureNamespaceCommon unmarshal bnc store nsInfo ns).ops =
      (multicastUpdateNamespace bnc store ns (configureAclLogging unmarshal bnc nsInfo ns)).ops ∧
    (configureNamespaceCommon unmarshal bnc store nsInfo ns).nsInfo =
      (multicastUpdateNamespace bnc store ns (configureAclLogging unmarshal bnc nsInfo ns)).nsInfo ∧
    (∀ value, ns.Annotations.lookup AclLoggingAnnotation = some value →
      configureAclLogging unmarshal bnc nsInfo ns =
        (aclLoggingUpdateNsInfo unmarshal bnc value nsInfo).1) ∧
    (updateNamespaceAclLogging unmarshal bnc store name aclAnnotation nsInfo).err =
      store.handleNetPolNamespaceUpdate name
        (aclLoggingUpdateNsInfo unmarshal bnc aclAnnotation nsInfo).1 ∧
    (updateNamespaceAclLogging unmarshal bnc store name aclAnnotation nsInfo).ops =
      [StoreOp.handleNetPolNamespaceUpdate name] ∧
    (updateNamespaceAclLogging unmarshal bnc store name aclAnnotation nsInfo).nsInfo =
      (aclLoggingUpdateNsInfo unmarshal bnc aclAnnotation nsInfo).1 := by
  have hc := configureNamespaceCommon_eq unmarshal bnc store nsInfo ns
  refine ⟨?_, hc.2.1, hc.1, ?_, ?_⟩
  · rw [hc.2.2]
    rcases (multicastUpdateNamespace bnc store ns
      (configureAclLogging unmarshal bnc nsInfo ns)).err with _ | e <;> simp
  · intro value hv
    unfold configureAclLogging
    simp only [hv]
  · unfold updateNamespaceAclLogging
    rcases h : store.handleNetPolNamespaceUpdate name
      (aclLoggingUpdateNsInfo unmarshal bnc aclAnnotation nsInfo).1 with _ | e
    · simp only [h, and_self]
    · simp only [h, and_self]

/-- An instance of the previous theorem: a malformed annotation is reported by
`aclLoggingUpdateNsInfo`, and the multicast policy is created all the same. -/
theorem configureNamespaceCommon_acl_error_not_blocking_example :
    (aclLoggingUpdateNsInfo sampleUnmarshal sampleController
      "\x7b\"deny\":\"alert\",\"allow\":5\x7d" loggingNsInfo).2 ≠ none ∧
    (configureNamespaceCommon sampleUnmarshal sampleController healthyStore loggingNsInfo
      malformedNamespace).err = none ∧
    (configureNamespaceCommon sampleUnmarshal sampleController healthyStore loggingNsInfo
      malformedNamespace).ops = [StoreOp.createMulticastAllowPolicy "ns1"] ∧
    (configureNamespaceCommon sampleUnmarshal sampleController healthyStore loggingNsInfo
      malformedNamespace).nsInfo.aclLogging = ⟨"", ""⟩ := by
  decide

/-- An instance of the previous theorem: with the malformed annotation present,
the multicast step runs on the state that `aclLoggingUpdateNsInfo` left. -/
theorem configureNamespaceCommon_acl_error_not_blocking_witness :
    malformedNamespace.Annotations.lookup AclLoggingAnnotation =
      some "\x7b\"deny\":\"alert\",\"allow\":5\x7d" ∧
    configureAclLogging sampleUnmarshal sampleController loggingNsInfo malformedNamespace =
      (aclLoggingUpdateNsInfo sampleUnmarshal sampleController
        "\x7b\"deny\":\"alert\",\"allow\":5\x7d" loggingNsInfo).1 :=
  ⟨by decide,
    (configureNamespaceCommon_acl_error_not_blocking sampleUnmarshal sampleController healthyStore
      loggingNsInfo malformedNamespace "ns1" "").2.2.2.1 _ (by decide)⟩

/-! ## Theorems: the `BFD` row -/

/-- The copy loop (`b[k] = v` for every entry of the original), run into a map
whose keys are disjoint from those still to be copied, adds exactly the entries
visited. -/
theorem copyLoop_entries (l : List (Sigma fun _ : String => String)) (hl : l.NodupKeys)
    (acc : StringMap) (hdisj : ∀ e ∈ l, e.1 ∉ acc) :
    (l.foldl (fun b e => b.insert e.1 e.2) acc).entries = l.reverse ++ acc.entries := by
  induction l generalizing acc with
  | nil => rfl
  | cons e rest ih =>
    rw [List.nodupKeys_cons] at hl
    rw [List.foldl_cons, ih hl.2]
    · rw [AList.insert_entries_of_neg (hdisj e (List.mem_cons_self _ _))]
      simp
    · intro e2 he2 hmem
      rw [AList.mem_insert] at hmem
      rcases hmem with h | h
      · apply hl.1
        rw [← h]
        exact List.mem_keys_of_mem he2
      · exact hdisj e2 (List.mem_cons_of_mem _ he2) h

/-- The entries of a copied map are the entries of the original. -/
theorem copyLoop_perm (m : StringMap) :
    (m.entries.foldl (fun b e => b.insert e.1 e.2) (∅ : StringMap)).entries.Perm m.entries := by
  rw [copyLoop_entries m.entries m.nodupKeys ∅ (fun _ _ h => (AList.not_mem_empty _) h)]
  simp [List.reverse_perm]

/-- What `equalBFDExternalIDs` decides: same nil-ness, same length, and every
entry of the first map is an entry of the second. -/
theorem equalBFDExternalIDs_iff (a b : GoMap) :
    equalBFDExternalIDs a b = true ↔
      a.isNone = b.isNone ∧ a.len = b.len ∧ ∀ e ∈ a.entries, b.lookup e.1 = some e.2 := by
  unfold equalBFDExternalIDs
  by_cases h1 : a.isNone = b.isNone
  · by_cases h2 : a.len = b.len
    · simp only [h1, h2, bne_self_eq_false, Bool.false_eq_true, if_false, List.all_eq_true,
        true_and]
      constructor
      · intro h e he
        have := h e he
        rcases hb : b.lookup e.1 with _ | w
        · simp [hb] at this
        · simp [hb] at this
          rw [this]
      · intro h e he
        rw [h e he]
        simp
    · simp [h1, h2]
  · simp [h1]

/-- The two map comparisons are the same function. -/
theorem equalBFDOptions_eq (a b : GoMap) : equalBFDOptions a b = equalBFDExternalIDs a b := rfl

/-- The two map copies are the same function. -/
theorem copyBFDOptions_eq (a : GoMap) : copyBFDOptions a = copyBFDExternalIDs a := rfl

/-- A copied map has the nil-ness, the length and the lookups of the original. -/
theorem copyBFDExternalIDs_spec (a : GoMap) :
    (copyBFDExternalIDs a).isNone = a.isNone ∧ (copyBFDExternalIDs a).len = a.len ∧
      ∀ k, (copyBFDExternalIDs a).lookup k = a.lookup k := by
  cases a with
  | none => exact ⟨rfl, rfl, fun _ => rfl⟩
  | some m =>
    refine ⟨rfl, ?_, ?_⟩
    · exact (copyLoop_perm m).length_eq
    · intro k
      exact AList.perm_lookup (copyLoop_perm m)

/-- A map equals its copy. -/
theorem equalBFDExternalIDs_copy (a : GoMap) :
    equalBFDExternalIDs a (copyBFDExternalIDs a) = true := by
  rw [equalBFDExternalIDs_iff]
  have h := copyBFDExternalIDs_spec a
  refine ⟨h.1.symm, h.2.1.symm, ?_⟩
  intro e he
  rw [h.2.2]
  cases a with
  | none => simp [GoMap.entries] at he
  | some m =>
    have : e.2 ∈ m.lookup e.1 := AList.mem_lookup_iff.2 (by simpa [GoMap.entries] using he)
    simpa [GoMap.lookup] using this

/-- The map comparison in one direction implies it in the other. -/
theorem equalBFDExternalIDs_symm_of (a b : GoMap) (h : equalBFDExternalIDs a b = true) :
    equalBFDExternalIDs b a = true := by
  rw [equalBFDExternalIDs_iff] at h ⊢
  obtain ⟨h1, h2, h3⟩ := h
  refine ⟨h1.symm, h2.symm, ?_⟩
  cases a with
  | none =>
    cases b with
    | none => intro e he; simp [GoMap.entries] at he
    | some mb => simp at h1
  | some ma =>
    cases b with
    | none => simp at h1
    | some mb =>
      have hsub : ma.entries ⊆ mb.entries := by
        intro e he
        have hl := h3 e he
        have : e.2 ∈ mb.lookup e.1 := by simpa [GoMap.lookup] using hl
        exact AList.mem_lookup_iff.1 this
      have hperm : ma.entries.Perm mb.entries :=
        (List.subperm_of_subset ma.nodupKeys.nodup hsub).perm_of_length_le
          (by simpa [GoMap.len] using h2.symm.le)
      intro e he
      have he2 : e ∈ ma.entries := hperm.symm.subset he
      have : e.2 ∈ ma.lookup e.1 := AList.mem_lookup_iff.2 he2
      simpa [GoMap.lookup] using this

/-- The map comparison is symmetric. -/
theorem equalBFDExternalIDs_comm (a b : GoMap) :
    equalBFDExternalIDs a b = equalBFDExternalIDs b a := by
  rw [Bool.eq_iff_iff]
  exact ⟨equalBFDExternalIDs_symm_of a b, equalBFDExternalIDs_symm_of b a⟩

/-- C29: for every BFD row `a`, `a.Equals(a.DeepCopy())` is true; `DeepCopy`
copies every scalar field, and each of the two maps of the copy is nil exactly
when the original is, has the same length, and maps every key to what the
original maps it to. -/
theorem BFD_Equals_DeepCopy (a : BFD) :
    a.Equals a.DeepCopy = true ∧
    a.DeepCopy.UUID = a.UUID ∧ a.DeepCopy.DetectMult = a.DetectMult ∧
    a.DeepCopy.Disc = a.Disc ∧ a.DeepCopy.DstIP = a.DstIP ∧
    a.DeepCopy.LogicalPort = a.LogicalPort ∧ a.DeepCopy.MinRx = a.MinRx ∧
    a.DeepCopy.MinTx = a.MinTx ∧ a.DeepCopy.SrcPort = a.SrcPort ∧
    a.DeepCopy.Status = a.Status ∧
    (a.DeepCopy.ExternalIDs.isNone = a.ExternalIDs.isNone ∧
      a.DeepCopy.ExternalIDs.len = a.ExternalIDs.len ∧
      ∀ k, a.DeepCopy.ExternalIDs.lookup k = a.ExternalIDs.lookup k) ∧
    (a.DeepCopy.Options.isNone = a.Options.isNone ∧
      a.DeepCopy.Options.len = a.Options.len ∧
      ∀ k, a.DeepCopy.Options.lookup k = a.Options.lookup k) := by
  refine ⟨?_, rfl, rfl, rfl, rfl, rfl, rfl, rfl, rfl, rfl, copyBFDExternalIDs_spec a.ExternalIDs,
    copyBFDExternalIDs_spec a.Options⟩
  unfold BFD.Equals BFD.DeepCopy BFD.DeepCopyInto
  simp only [beq_self_eq_true, Bool.true_and, Bool.and_true, equalBFDOptions_eq,
    copyBFDOptions_eq, equalBFDExternalIDs_copy, Bool.and_self]

/-- C30: `Equals` is symmetric: for all BFD rows `a` and `b`, `a.Equals(b)` and
`b.Equals(a)` are the same boolean. -/
theorem BFD_Equals_comm (a b : BFD) : a.Equals b = b.Equals a := by
  unfold BFD.Equals
  rw [equalBFDOptions_eq, equalBFDOptions_eq, equalBFDExternalIDs_comm a.ExternalIDs,
    equalBFDExternalIDs_comm a.Options, Bool.beq_comm (a := a.UUID),
    Bool.beq_comm (a := a.DetectMult), Bool.beq_comm (a := a.Disc), Bool.beq_comm (a := a.DstIP),
    Bool.beq_comm (a := a.LogicalPort), Bool.beq_comm (a := a.MinRx),
    Bool.beq_comm (a := a.MinTx), Bool.beq_comm (a := a.SrcPort), Bool.beq_comm (a := a.Status)]

/-! ## Theorems: multicast transitions -/

/-- C25: with multicast support on and a desired flag that differs from
`nsInfo.multicastEnabled`, `multicastUpdateNamespace` issues exactly one store
operation, `createMulticastAllowPolicy` if the annotations enable multicast and
`deleteMulticastAllowPolicy` otherwise, and returns the error of that operation;
when the operation succeeds the call returns nil and `nsInfo` is the state
before the call with `multicastEnabled` set to the desired flag. -/
theorem multicastUpdateNamespace_transition {AS : Type} (bnc : BaseNetworkController)
    (store : PolicyStore AS) (ns : Namespace) (nsInfo : namespaceInfo AS)
    (hs : bnc.multicastSupport = true)
    (hne : isNamespaceMulticastEnabled ns.Annotations ≠ nsInfo.multicastEnabled) :
    (multicastUpdateNamespace bnc store ns nsInfo).ops =
      [if isNamespaceMulticastEnabled ns.Annotations then
         StoreOp.createMulticastAllowPolicy ns.Name
       else StoreOp.deleteMulticastAllowPolicy ns.Name] ∧
    (multicastUpdateNamespace bnc store ns nsInfo).err =
      (if isNamespaceMulticastEnabled ns.Annotations then
         store.createMulticastAllowPolicy ns.Name
           { nsInfo with multicastEnabled := isNamespaceMulticastEnabled ns.Annotations }
       else store.deleteMulticastAllowPolicy ns.Name) ∧
    ((multicastUpdateNamespace bnc store ns nsInfo).err = none →
      (multicastUpdateNamespace bnc store ns nsInfo).nsInfo =
        { nsInfo with multicastEnabled := isNamespaceMulticastEnabled ns.Annotations }) := by
  have he : ¬ nsInfo.multicastEnabled = isNamespaceMulticastEnabled ns.Annotations :=
    fun h => hne h.symm
  unfold multicastUpdateNamespace
  simp only [hs, Bool.not_true, Bool.false_eq_true, if_false, beq_iff_eq, he]
  by_cases hen : isNamespaceMulticastEnabled ns.Annotations = true
  · simp only [hen, if_true]
    rcases hc : store.createMulticastAllowPolicy ns.Name
      { nsInfo with multicastEnabled := true } with _ | e
    · simp
    · simp
  · have hen2 : isNamespaceMulticastEnabled ns.Annotations = false := by simpa using hen
    simp only [hen2, Bool.false_eq_true, if_false]
    rcases hc : store.deleteMulticastAllowPolicy ns.Name with _ | e
    · simp
    · simp

/-- An instance of the previous theorem: multicast is switched on for `ns1`
against a healthy store. -/
theorem multicastUpdateNamespace_transition_witness :
    sampleController.multicastSupport = true ∧
    isNamespaceMulticastEnabled multicastNamespace.Annotations ≠ zeroNsInfo.multicastEnabled ∧
    (multicastUpdateNamespace sampleController healthyStore multicastNamespace zeroNsInfo).ops =
      [StoreOp.createMulticastAllowPolicy "ns1"] ∧
    (multicastUpdateNamespace sampleController healthyStore multicastNamespace zeroNsInfo).err =
      none :=
  have h := multicastUpdateNamespace_transition sampleController healthyStore multicastNamespace
    zeroNsInfo rfl (by decide)
  ⟨rfl, by decide, h.1.trans (by decide), h.2.1.trans (by decide)⟩

/-- C28: `multicastDeleteNamespace` always leaves `nsInfo.multicastEnabled`
false, whether or not it returns an error. When the flag was true before the
call, it calls `deleteMulticastAllowPolicy` once and returns its error; when the
flag was already false, it performs no store operation, returns nil and leaves
`nsInfo` unchanged. -/
theorem multicastDeleteNamespace_flag {AS : Type} (store : PolicyStore AS) (ns : Namespace)
    (nsInfo : namespaceInfo AS) :
    (multicastDeleteNamespace store ns nsInfo).nsInfo.multicastEnabled = false ∧
    (nsInfo.multicastEnabled = true →
      (multicastDeleteNamespace store ns nsInfo).ops =
        [StoreOp.deleteMulticastAllowPolicy ns.Name] ∧
      (multicastDeleteNamespace store ns nsInfo).err = store.deleteMulticastAllowPolicy ns.Name) ∧
    (nsInfo.multicastEnabled = false →
      (multicastDeleteNamespace store ns nsInfo).ops = [] ∧
      (multicastDeleteNamespace store ns nsInfo).err = none ∧
      (multicastDeleteNamespace store ns nsInfo).nsInfo = nsInfo) := by
  unfold multicastDeleteNamespace
  by_cases h : nsInfo.multicastEnabled = true
  · simp only [h, if_true]
    rcases hd : store.deleteMulticastAllowPolicy ns.Name with _ | e <;> simp
  · have h2 : nsInfo.multicastEnabled = false := by simpa using h
    simp [h2]

/-- An instance of the previous theorem: the delete fails and the flag is
cleared all the same. -/
theorem multicastDeleteNamespace_flag_witness :
    ({ zeroNsInfo with multicastEnabled := true } : namespaceInfo SampleAddressSet).multicastEnabled =
      true ∧
    (multicastDeleteNamespace failingStore multicastNamespace
      { zeroNsInfo with multicastEnabled := true }).nsInfo.multicastEnabled = false ∧
    (multicastDeleteNamespace failingStore multicastNamespace
      { zeroNsInfo with multicastEnabled := true }).ops =
      [StoreOp.deleteMulticastAllowPolicy "ns1"] ∧
    (multicastDeleteNamespace failingStore multicastNamespace
      { zeroNsInfo with multicastEnabled := true }).err = some "connection refused" :=
  have h := multicastDeleteNamespace_flag failingStore multicastNamespace
    { zeroNsInfo with multicastEnabled := true }
  ⟨rfl, h.1, (h.2.1 rfl).1, (h.2.1 rfl).2.trans rfl⟩

/-! ## Theorems: results of `ensureNamespaceLockedCommon` -/

/-- Lines 275-296 return an error exactly when the variable `namespace` is
non-nil at line 288 and configure, applied to the locked state, returns an
error. -/
theorem ensureConfigure_err_iff {AS : Type} (env : Environment AS) (w : World AS)
    (trace : List Event) (ns : String) (namespaceObj : Option Namespace)
    (configureNamespace : namespaceInfo AS → Namespace → namespaceInfo AS × Option String)
    (r : Ref) (u : UnlockFunc) :
    (ensureConfigure env w trace ns namespaceObj configureNamespace r u).err ≠ none ↔
      ∃ n, (lookupNamespace env ns namespaceObj).1 = some n ∧
        (configureNamespace (w.heap r) n).2 ≠ none := by
  unfold ensureConfigure
  rcases h : (lookupNamespace env ns namespaceObj).1 with _ | n
  · simp only [h]
    simp
  · rcases hc : (configureNamespace (w.heap r) n).2 with _ | e
    · simp only [h, hc]
      simp [hc]
    · simp only [h, hc]
      simp [hc]

/-- A successful return of lines 275-296 returns the locked entry. -/
theorem ensureConfigure_ok_nsInfo {AS : Type} (env : Environment AS) (w : World AS)
    (trace : List Event) (ns : String) (namespaceObj : Option Namespace)
    (configureNamespace : namespaceInfo AS → Namespace → namespaceInfo AS × Option String)
    (r : Ref) (u : UnlockFunc)
    (hok : (ensureConfigure env w trace ns namespaceObj configureNamespace r u).err = none) :
    (ensureConfigure env w trace ns namespaceObj configureNamespace r u).nsInfo = some r ∧
    (ensureConfigure env w trace ns namespaceObj configureNamespace r u).unlockFunc = some u := by
  unfold ensureConfigure at hok ⊢
  rcases h : (lookupNamespace env ns namespaceObj).1 with _ | n
  · simp only [h]
    exact ⟨trivial, trivial⟩
  · rcases hc : (configureNamespace (w.heap r) n).2 with _ | e
    · simp only [h, hc]
      exact ⟨trivial, trivial⟩
    · simp only [h, hc] at hok
      exact Option.noConfusion hok

/-- What the code does: `ensureNamespaceLockedCommon` returns an error exactly
when address-set creation failed for a new entry, or the existing entry was no
longer the table's entry at re-validation, or the variable `namespace` is
non-nil at line 288 (whether it was passed in, found by a lookup, or returned
by the API client together with its error) and configure returned an error on
the locked state. -/
theorem ensureNamespaceLockedCommon_err_iff {AS : Type} (bnc : BaseNetworkController)
    (env : Environment AS) (w : World AS) (ns : String) (readOnly : Bool)
    (namespaceObj : Option Namespace) (ipsGetter : String → List IP)
    (configureNamespace : namespaceInfo AS → Namespace → namespaceInfo AS × Option String) :
    (ensureNamespaceLockedCommon bnc env w ns readOnly namespaceObj ipsGetter
      configureNamespace).err ≠ none ↔
    ((w.namespaces ns = none ∧
        (env.NewAddressSet (getNamespaceAddrSetDbIDs ns bnc.controllerName)
          (ipsGetter ns)).2 ≠ none) ∨
      (∃ r, w.namespaces ns = some r ∧ (env.interference w).namespaces ns ≠ some r) ∨
      (∃ n, (lookupNamespace env ns namespaceObj).1 = some n ∧
        ((w.namespaces ns = none ∧
            (env.NewAddressSet (getNamespaceAddrSetDbIDs ns bnc.controllerName)
              (ipsGetter ns)).2 = none ∧
            (configureNamespace
              { addressSet := (env.NewAddressSet (getNamespaceAddrSetDbIDs ns bnc.controllerName)
                  (ipsGetter ns)).1,
                relatedNetworkPolicies := [], routingExternalGWs := ⟨[], false⟩,
                routingExternalPodGWs := [], multicastEnabled := false,
                aclLogging := ⟨"", ""⟩ } n).2 ≠ none) ∨
          (∃ r, w.namespaces ns = some r ∧ (env.interference w).namespaces ns = some r ∧
            (configureNamespace ((env.interference w).heap r) n).2 ≠ none)))) := by
  unfold ensureNamespaceLockedCommon
  rcases hw : w.namespaces ns with _ | r
  · rcases hc : (env.NewAddressSet (getNamespaceAddrSetDbIDs ns bnc.controllerName)
        (ipsGetter ns)).2 with _ | e
    · simp only [createNamespaceAddrSetAllPods, hc]
      rw [ensureConfigure_err_iff]
      simp
    · simp only [createNamespaceAddrSetAllPods, hc]
      simp
  · dsimp only
    by_cases hg : (env.interference w).namespaces ns ≠ some r
    · rw [if_pos hg]
      simp [hg]
    · rw [if_neg hg, ensureConfigure_err_iff]
      have hg2 : (env.interference w).namespaces ns = some r := not_not.mp hg
      simp [hg2]

/-- C26 (evaluation at a failing input): `ns1` has an entry, for which
multicast is recorded as enabled, and the entry is still the table's entry at
re-validation. No namespace object is passed, the informer cache fails, and the
API client fails the way the typed client does, returning the empty object it
allocated together with the error. Configure runs on that empty object, tries
to delete the multicast policy and fails: the call returns an error although
no namespace object was passed in or found. -/
theorem ensureNamespaceLockedCommon_error_without_namespace :
    multicastWorld.namespaces "ns1" = some 0 ∧
    (typedClientEnvironment.interference multicastWorld).namespaces "ns1" = some 0 ∧
    (typedClientEnvironment.watchFactoryGetNamespace "ns1").2 ≠ none ∧
    (typedClientEnvironment.clientNamespacesGet "ns1").2 ≠ none ∧
    configureCalls (ensureNamespaceLockedCommon sampleController typedClientEnvironment
      multicastWorld "ns1" false none sampleIpsGetter
      (configureNamespaceCallback sampleUnmarshal sampleController failingStore)).trace =
      [Event.configureNamespace 0 { Name := "", Annotations := [] }] ∧
    (ensureNamespaceLockedCommon sampleController typedClientEnvironment multicastWorld "ns1"
      false none sampleIpsGetter
      (configureNamespaceCallback sampleUnmarshal sampleController failingStore)).err =
      some "failed to configure namespace ns1: failed to update multicast (connection refused)" ∧
    (ensureNamespaceLockedCommon sampleController typedClientEnvironment multicastWorld "ns1"
      false none sampleIpsGetter
      (configureNamespaceCallback sampleUnmarshal sampleController failingStore)).nsInfo =
      none := by
  decide

/-- C27: whenever `ensureNamespaceLockedCommon` succeeds, the state it returns
is the table's entry for the requested name in the shared state at return: the
entry it inserted when it found none, the entry it found and re-validated
otherwise. -/
theorem ensureNamespaceLockedCommon_returns_current_entry {AS : Type}
    (bnc : BaseNetworkController) (env : Environment AS) (w : World AS) (ns : String)
    (readOnly : Bool) (namespaceObj : Option Namespace) (ipsGetter : String → List IP)
    (configureNamespace : namespaceInfo AS → Namespace → namespaceInfo AS × Option String)
    (hok : (ensureNamespaceLockedCommon bnc env w ns readOnly namespaceObj ipsGetter
      configureNamespace).err = none) :
    ∃ r, (ensureNamespaceLockedCommon bnc env w ns readOnly namespaceObj ipsGetter
        configureNamespace).nsInfo = some r ∧
      (ensureNamespaceLockedCommon bnc env w ns readOnly namespaceObj ipsGetter
        configureNamespace).world.namespaces ns = some r ∧
      (w.namespaces ns = none → r = w.nextRef) ∧
      (∀ r0, w.namespaces ns = some r0 →
        r = r0 ∧ (env.interference w).namespaces ns = some r0) := by
  unfold ensureNamespaceLockedCommon at hok ⊢
  rcases hw : w.namespaces ns with _ | r
  · rcases hc : (env.NewAddressSet (getNamespaceAddrSetDbIDs ns bnc.controllerName)
        (ipsGetter ns)).2 with _ | e
    · simp only [hw, createNamespaceAddrSetAllPods, hc] at hok
      simp only [createNamespaceAddrSetAllPods, hc]
      refine ⟨w.nextRef, (ensureConfigure_ok_nsInfo _ _ _ _ _ _ _ _ hok).1, ?_, fun _ => rfl, ?_⟩
      · rw [ensureConfigure_namespaces]
        exact Function.update_same _ _ _
      · intro r0 h0
        exact Option.noConfusion h0
    · simp only [hw, createNamespaceAddrSetAllPods, hc] at hok
      exact Option.noConfusion hok
  · simp only [hw] at hok
    dsimp only
    by_cases hg : (env.interference w).namespaces ns ≠ some r
    · rw [if_pos hg] at hok
      exact Option.noConfusion hok
    · rw [if_neg hg] at hok
      rw [if_neg hg]
      have hg2 : (env.interference w).namespaces ns = some r := not_not.mp hg
      refine ⟨r, (ensureConfigure_ok_nsInfo _ _ _ _ _ _ _ _ hok).1, ?_, ?_, ?_⟩
      · rw [ensureConfigure_namespaces]
        exact hg2
      · intro h0
        exact Option.noConfusion h0
      · intro r0 h0
        have : r = r0 := Option.some.inj h0
        subst this
        exact ⟨rfl, hg2⟩

/-- An instance of the previous theorem: a read-only ensure of the existing
entry of `ns1` returns reference 0, which the table still maps `ns1` to. -/
theorem ensureNamespaceLockedCommon_returns_current_entry_witness :
    (ensureNamespaceLockedCommon sampleController quietEnvironment oneEntryWorld "ns1" true
      (some ⟨"ns1", []⟩) sampleIpsGetter sampleConfigure).err = none ∧
    ∃ r, (ensureNamespaceLockedCommon sampleController quietEnvironment oneEntryWorld "ns1" true
        (some ⟨"ns1", []⟩) sampleIpsGetter sampleConfigure).nsInfo = some r ∧
      (ensureNamespaceLockedCommon sampleController quietEnvironment oneEntryWorld "ns1" true
        (some ⟨"ns1", []⟩) sampleIpsGetter sampleConfigure).world.namespaces "ns1" = some r :=
  have h := ensureNamespaceLockedCommon_returns_current_entry sampleController quietEnvironment
    oneEntryWorld "ns1" true (some ⟨"ns1", []⟩) sampleIpsGetter sampleConfigure (by decide)
  ⟨by decide, h.imp fun _ hr => ⟨hr.1, hr.2.1⟩⟩

/-! ## Theorems: egress firewall match compiler -/

/-- Joining with a separator is a left fold that appends separator and item. -/
theorem intercalate_go_eq_foldl (sep acc : String) (items : List String) :
    String.intercalate.go acc sep items = items.foldl (fun acc item => acc ++ sep ++ item) acc := by
  induction items generalizing acc with
  | nil => rfl
  | cons item rest ih =>
    rw [String.intercalate.go, ih]
    rfl

/-- Joining a non-empty list: the head, followed by separator and item for
every item of the tail. -/
theorem intercalate_cons_eq_foldl (sep head : String) (items : List String) :
    sep.intercalate (head :: items) =
      items.foldl (fun acc item => acc ++ sep ++ item) head := by
  rw [String.intercalate, intercalate_go_eq_foldl]

/-- C21: `generateMatch` assembles its result in the fixed order destination
clause, source clause, L4 clause (only when ports are given), then one
exclusion per configured cluster subnet in configuration order, all joined by
` && `. The source clause is `(ip4.src == $V4 || ip6.src == $V6)` when both
stacks are active and the unparenthesized single-stack clause when one is. The
first case of the test: v4 source `testv4`, destination v4 CIDR `1.2.3.4/32`,
subnet `10.128.0.0/14` and no ports give
`(ip4.dst == 1.2.3.4/32) && ip4.src == $testv4 && ip4.dst != 10.128.0.0/14`. -/
theorem generateMatch_assembly (cfg : MatchConfig) (ipv4Source ipv6Source : String)
    (destinations : List matchTarget) (dstPorts : List EgressFirewallPort) :
    generateMatch cfg ipv4Source ipv6Source destinations dstPorts =
      " && ".intercalate
        ([destinationClause destinations, sourceClause cfg ipv4Source ipv6Source] ++
          (if dstPorts.isEmpty then [] else [egressGetL4Match dstPorts]) ++
          cfg.ClusterSubnets.map subnetExclusion) ∧
    (cfg.IPv4Mode = true → cfg.IPv6Mode = true →
      sourceClause cfg ipv4Source ipv6Source =
        "(ip4.src == $" ++ ipv4Source ++ " || ip6.src == $" ++ ipv6Source ++ ")") ∧
    (cfg.IPv4Mode = true → cfg.IPv6Mode = false →
      sourceClause cfg ipv4Source ipv6Source = "ip4.src == $" ++ ipv4Source) ∧
    (cfg.IPv4Mode = false → cfg.IPv6Mode = true →
      sourceClause cfg ipv4Source ipv6Source = "ip6.src == $" ++ ipv6Source) ∧
    generateMatch
        { IPv4Mode := true, IPv6Mode := false,
          ClusterSubnets := [{ isIPv6 := false, CIDR := "10.128.0.0/14" }] }
        "testv4" "" [{ kind := matchKind.matchKindV4CIDR, value := "1.2.3.4/32" }] [] =
      "(ip4.dst == 1.2.3.4/32) && ip4.src == $testv4 && ip4.dst != 10.128.0.0/14" := by
  refine ⟨?_, ?_, ?_, ?_, by decide⟩
  · unfold generateMatch
    simp only [List.cons_append, List.nil_append, intercalate_cons_eq_foldl, List.foldl_cons]
    by_cases hp : dstPorts.isEmpty = true
    · simp only [hp, if_true, List.nil_append, List.foldl_map]
    · simp only [hp, Bool.false_eq_true, if_false, List.cons_append, List.nil_append,
        List.foldl_cons, List.foldl_map]
  · intro h4 h6
    simp [sourceClause, h4, h6]
  · intro h4 h6
    simp [sourceClause, h4, h6]
  · intro h4 h6
    simp [sourceClause, h4, h6]

/-- An instance of the previous theorem: the dual-stack source clause. -/
theorem generateMatch_assembly_witness :
    sourceClause
        { IPv4Mode := true, IPv6Mode := true,
          ClusterSubnets := [{ isIPv6 := false, CIDR := "10.128.0.0/14" },
            { isIPv6 := true, CIDR := "2002:0:0:1234::/64" }] }
        "testv4" "testv6" =
      "(ip4.src == $" ++ "testv4" ++ " || ip6.src == $" ++ "testv6" ++ ")" :=
  (generateMatch_assembly
    { IPv4Mode := true, IPv6Mode := true,
      ClusterSubnets := [{ isIPv6 := false, CIDR := "10.128.0.0/14" },
        { isIPv6 := true, CIDR := "2002:0:0:1234::/64" }] }
    "testv4" "testv6" [] []).2.1 rfl rfl

/-- A fragment is dropped exactly when it is an address-set fragment with an
empty reference. -/
theorem matchTarget_toExpr_eq_none (m : matchTarget) :
    m.toExpr = none ↔
      (m.kind = matchKind.matchKindV4AddressSet ∨ m.kind = matchKind.matchKindV6AddressSet) ∧
        m.value = "" := by
  rcases m with ⟨kind, value⟩
  cases kind <;> by_cases hv : value = "" <;> simp [matchTarget.toExpr, hv]

/-- C22: the destination clause of `generateMatch` is one parenthesized group
that ORs the expressions of the fragments in declaration order: `ip4.dst == C`
and `ip6.dst == C` for CIDR fragments, `ip4.dst == $S` and `ip6.dst == $S` for
address-set fragments with a non-empty reference. Address-set fragments with an
empty reference are dropped: removing them from the list does not change the
clause. The fourth case of the test: a v4 address set `destv4` followed by a v6
address set with an empty reference gives `(ip4.dst == $destv4)`. -/
theorem destinationClause_fragments (destinations : List matchTarget) (value : String) :
    destinationClause destinations =
      "(" ++ " || ".intercalate (destinations.filterMap matchTarget.toExpr) ++ ")" ∧
    destinationClause destinations =
      destinationClause (destinations.filter fun m =>
        !((m.kind == matchKind.matchKindV4AddressSet ||
            m.kind == matchKind.matchKindV6AddressSet) && m.value == "")) ∧
    matchTarget.toExpr { kind := matchKind.matchKindV4CIDR, value := value } =
      some ("ip4.dst == " ++ value) ∧
    matchTarget.toExpr { kind := matchKind.matchKindV6CIDR, value := value } =
      some ("ip6.dst == " ++ value) ∧
    (value ≠ "" →
      matchTarget.toExpr { kind := matchKind.matchKindV4AddressSet, value := value } =
        some ("ip4.dst == $" ++ value) ∧
      matchTarget.toExpr { kind := matchKind.matchKindV6AddressSet, value := value } =
        some ("ip6.dst == $" ++ value)) ∧
    matchTarget.toExpr { kind := matchKind.matchKindV4AddressSet, value := "" } = none ∧
    matchTarget.toExpr { kind := matchKind.matchKindV6AddressSet, value := "" } = none ∧
    destinationClause
        [{ kind := matchKind.matchKindV4AddressSet, value := "destv4" },
          { kind := matchKind.matchKindV6AddressSet, value := "" }] =
      "(ip4.dst == $destv4)" := by
  refine ⟨rfl, ?_, rfl, rfl, ?_, rfl, rfl, by decide⟩
  · unfold destinationClause
    congr 3
    induction destinations with
    | nil => rfl
    | cons m rest ih =>
      by_cases hm : m.toExpr = none
      · have hd := (matchTarget_toExpr_eq_none m).1 hm
        rw [List.filterMap_cons_none hm, List.filter_cons_of_neg, ih]
        rcases hd with ⟨hk | hk, hv⟩ <;> simp [hk, hv]
      · have hd : ¬ ((m.kind = matchKind.matchKindV4AddressSet ∨
            m.kind = matchKind.matchKindV6AddressSet) ∧ m.value = "") :=
          fun h => hm ((matchTarget_toExpr_eq_none m).2 h)
        obtain ⟨e, he⟩ := Option.ne_none_iff_exists'.1 hm
        rw [List.filterMap_cons_some he, List.filter_cons_of_pos, List.filterMap_cons_some he, ih]
        by_cases hv : m.value = ""
        · have hk : ¬ (m.kind = matchKind.matchKindV4AddressSet ∨
              m.kind = matchKind.matchKindV6AddressSet) := fun h => hd ⟨h, hv⟩
          rw [not_or] at hk
          simp [hk.1, hk.2]
        · simp [hv]
  · intro hv
    simp [matchTarget.toExpr, hv]

/-- An instance of the previous theorem: the expressions of two address-set
fragments with a non-empty reference. -/
theorem destinationClause_fragments_witness :
    matchTarget.toExpr { kind := matchKind.matchKindV4AddressSet, value := "destv4" } =
      some ("ip4.dst == $" ++ "destv4") ∧
    matchTarget.toExpr { kind := matchKind.matchKindV6AddressSet, value := "destv4" } =
      some ("ip6.dst == $" ++ "destv4") :=
  (destinationClause_fragments [] "destv4").2.2.2.2.1 (by decide)

/-- C23: `egressGetL4Match` emits the groups of UDP, TCP and SCTP in this fixed
order, joined by ` || ` and wrapped in one more pair of parentheses, so that
two inputs with the same entries per protocol, in whatever order the protocols
are interleaved, give the same text. A protocol absent from the input emits
nothing; a protocol given without a port number emits `(proto)`; a protocol
given only with port numbers emits `(proto && ( proto.dst == p1 || ... ))` with
the ports in input order. The third case of the test and the scenario of the
specification are reproduced. -/
theorem egressGetL4Match_groups (ports ports2 : List EgressFirewallPort)
    (protocol name : String) :
    egressGetL4Match ports =
      "(" ++ " || ".intercalate
        ((protocolGroup "UDP" "udp" ports).toList ++ (protocolGroup "TCP" "tcp" ports).toList ++
          (protocolGroup "SCTP" "sctp" ports).toList) ++ ")" ∧
    ((∀ p ∈ ["UDP", "TCP", "SCTP"],
        (ports.filter fun port => port.Protocol == p) =
          ports2.filter fun port => port.Protocol == p) →
      egressGetL4Match ports = egressGetL4Match ports2) ∧
    ((ports.filter fun port => port.Protocol == protocol) = [] →
      protocolGroup protocol name ports = none) ∧
    ((∃ port ∈ ports, port.Protocol = protocol ∧ port.Port = 0) →
      protocolGroup protocol name ports = some ("(" ++ name ++ ")")) ∧
    ((∃ port ∈ ports, port.Protocol = protocol) →
      (∀ port ∈ ports, port.Protocol = protocol → port.Port ≠ 0) →
      protocolGroup protocol name ports =
        some ("(" ++ name ++ " && ( " ++
          " || ".intercalate
            ((ports.filter fun port => port.Protocol == protocol).map
              fun port => name ++ ".dst == " ++ toString port.Port) ++ " ))")) ∧
    egressGetL4Match
        [{ Protocol := "TCP", Port := 100 }, { Protocol := "SCTP", Port := 13 },
          { Protocol := "TCP", Port := 102 }, { Protocol := "UDP", Port := 400 }] =
      "((udp && ( udp.dst == 400 )) || (tcp && ( tcp.dst == 100 || tcp.dst == 102 )) || (sctp && ( sctp.dst == 13 )))" ∧
    egressGetL4Match
        [{ Protocol := "TCP", Port := 100 }, { Protocol := "UDP", Port := 0 },
          { Protocol := "SCTP", Port := 13 }, { Protocol := "TCP", Port := 102 }] =
      "((udp) || (tcp && ( tcp.dst == 100 || tcp.dst == 102 )) || (sctp && ( sctp.dst == 13 )))" := by
  refine ⟨?_, ?_, ?_, ?_, ?_, by decide, by decide⟩
  · unfold egressGetL4Match
    rcases hu : protocolGroup "UDP" "udp" ports with _ | u <;>
      rcases ht : protocolGroup "TCP" "tcp" ports with _ | t <;>
      rcases hs : protocolGroup "SCTP" "sctp" ports with _ | s <;>
      simp only [List.filterMap_cons, List.filterMap_nil, hu, ht, hs, Option.toList,
        List.nil_append, List.cons_append]
  · intro h
    have hu := h "UDP" (by simp)
    have ht := h "TCP" (by simp)
    have hs := h "SCTP" (by simp)
    unfold egressGetL4Match protocolGroup
    simp only [List.filterMap_cons, List.filterMap_nil, hu, ht, hs]
  · intro h
    unfold protocolGroup
    simp only [h, List.isEmpty_nil, if_true]
  · rintro ⟨port, hmem, hproto, hzero⟩
    unfold protocolGroup
    have hin : port ∈ ports.filter fun port => port.Protocol == protocol := by
      simp [hmem, hproto]
    have hne : (ports.filter fun port => port.Protocol == protocol).isEmpty = false := by
      cases hl : ports.filter fun port => port.Protocol == protocol with
      | nil => rw [hl] at hin; exact absurd hin (List.not_mem_nil _)
      | cons _ _ => rfl
    have hany : ((ports.filter fun port => port.Protocol == protocol).any
        fun port => port.Port == 0) = true := by
      rw [List.any_eq_true]
      exact ⟨port, hin, by simp [hzero]⟩
    simp only [hne, Bool.false_eq_true, if_false, hany, if_true]
  · rintro ⟨port, hmem, hproto⟩ hall
    unfold protocolGroup
    have hin : port ∈ ports.filter fun port => port.Protocol == protocol := by
      simp [hmem, hproto]
    have hne : (ports.filter fun port => port.Protocol == protocol).isEmpty = false := by
      cases hl : ports.filter fun port => port.Protocol == protocol with
      | nil => rw [hl] at hin; exact absurd hin (List.not_mem_nil _)
      | cons _ _ => rfl
    have hany : ((ports.filter fun port => port.Protocol == protocol).any
        fun port => port.Port == 0) = false := by
      rw [List.any_eq_false]
      intro q hq
      rw [List.mem_filter] at hq
      have := hall q hq.1 (by simpa using hq.2)
      simpa using this
    simp only [hne, Bool.false_eq_true, if_false, hany]

/-- An instance of the previous theorem: the input of the test and the same
entries sorted by protocol give the same text. -/
theorem egressGetL4Match_groups_witness :
    egressGetL4Match
        [{ Protocol := "TCP", Port := 100 }, { Protocol := "SCTP", Port := 13 },
          { Protocol := "TCP", Port := 102 }, { Protocol := "UDP", Port := 400 }] =
      egressGetL4Match
        [{ Protocol := "UDP", Port := 400 }, { Protocol := "TCP", Port := 100 },
          { Protocol := "TCP", Port := 102 }, { Protocol := "SCTP", Port := 13 }] :=
  (egressGetL4Match_groups
    [{ Protocol := "TCP", Port := 100 }, { Protocol := "SCTP", Port := 13 },
      { Protocol := "TCP", Port := 102 }, { Protocol := "UDP", Port := 400 }]
    [{ Protocol := "UDP", Port := 400 }, { Protocol := "TCP", Port := 100 },
      { Protocol := "TCP", Port := 102 }, { Protocol := "SCTP", Port := 13 }]
    "UDP" "udp").2.1 (by decide)

/-- C24: for a rule whose destination is a CIDR selector, `newEgressFirewallRule`
succeeds exactly when the selector parses as a CIDR. For a selector that parses
it returns a rule that carries the given id, the access type of the rule, the
selector unchanged and the ports, and no error. For one that does not parse it
returns no rule and exactly the parse error; for `1.2.3./32` that error is
`invalid CIDR address: 1.2.3./32`. -/
theorem newEgressFirewallRule_cidr (ParseCIDR : String → Option String) (access cidr : String)
    (ports : List EgressFirewallPort) (id : Int) :
    ((newEgressFirewallRule ParseCIDR
        { Type_ := access, To := destination.cidrSelector cidr, Ports := ports } id).2 = none ↔
      ParseCIDR cidr = none) ∧
    (ParseCIDR cidr = none →
      newEgressFirewallRule ParseCIDR
          { Type_ := access, To := destination.cidrSelector cidr, Ports := ports } id =
        (some { id := id, access := access, to_ := destination.cidrSelector cidr,
                ports := ports }, none)) ∧
    (∀ err, ParseCIDR cidr = some err →
      newEgressFirewallRule ParseCIDR
          { Type_ := access, To := destination.cidrSelector cidr, Ports := ports } id =
        (none, some err)) ∧
    newEgressFirewallRule sampleParseCIDR
        { Type_ := "Allow", To := destination.cidrSelector "1.2.3./32", Ports := [] } 1 =
      (none, some "invalid CIDR address: 1.2.3./32") ∧
    newEgressFirewallRule sampleParseCIDR
        { Type_ := "Allow", To := destination.cidrSelector "2002::1234:abcd:ffff:c0a8:101/64",
          Ports := [] } 2 =
      (some { id := 2, access := "Allow",
              to_ := destination.cidrSelector "2002::1234:abcd:ffff:c0a8:101/64", ports := [] },
        none) := by
  refine ⟨?_, ?_, ?_, by decide, by decide⟩
  · unfold newEgressFirewallRule
    rcases h : ParseCIDR cidr with _ | e <;> simp [h]
  · intro h
    unfold newEgressFirewallRule
    simp only [h]
  · intro e h
    unfold newEgressFirewallRule
    simp only [h]

/-- An instance of the previous theorem: the valid v4 selector of the test. -/
theorem newEgressFirewallRule_cidr_witness :
    sampleParseCIDR "1.2.3.4/32" = none ∧
    newEgressFirewallRule sampleParseCIDR
        { Type_ := "Allow", To := destination.cidrSelector "1.2.3.4/32", Ports := [] } 1 =
      (some { id := 1, access := "Allow", to_ := destination.cidrSelector "1.2.3.4/32",
              ports := [] }, none) :=
  ⟨by decide,
    (newEgressFirewallRule_cidr sampleParseCIDR "Allow" "1.2.3.4/32" [] 1).2.1 (by decide)⟩

end OvnKubernetes
